import Mathlib

/-!
# sqltester: the connection registry and the request router of `server.js`

A shallow embedding of `src/server.js`.

* The process-wide `connections` map is an insertion-ordered association list that is
  passed in and returned explicitly.
* The database drivers (`mysql2/promise`, `pg`, `sqlite3`) are external: they are a
  parameter `Driver`, a record of answer functions.  Every answer function also receives
  the number of driver calls the current request has already made, so the same call may
  be answered differently at different points of one request.
* Every handler returns an `Outcome`: the HTTP status, the JSON body, the registry after
  the request and the list of driver calls it made, in order.
* Request fields are a string or missing (`Option String`); the port is a number or missing.
* A handler runs from its first statement to its response without another request in
  between; the interleaving of concurrent requests is not modelled.
* The `SIGINT` handler iterates the map while `closeConnection` deletes from it; for
  that loop the map is its ECMAScript entry list, where a deleted record is emptied in
  place and the iterator walks by index.
* `Reachable` collects the registries that request sequences lead to from the empty one.
* Strings are sequences of Unicode characters.  The two places that look inside a string,
  the class `[a-zA-Z0-9_]` and `trim`, only tell apart characters of the basic plane, where
  a character and its UTF-16 code unit coincide.
-/

namespace SqlTester

/-! ## Values -/

/-- The value of `req.sessionID`. -/
abbrev SessionId := String

/-- The identity of a driver object (a mysql connection, a pg client, a sqlite database). -/
abbrev Handle := Nat

/-- Scalar values found in result rows. -/
inductive JsVal where
  | undefined
  | null
  | bool (b : Bool)
  | num (n : Int)
  | str (s : String)
  deriving DecidableEq, Repr

/-- A result row: field names with their values, in column order. -/
abbrev Row := List (String × JsVal)

/-- Property access `row.key`; a missing property reads as `undefined`. -/
def Row.field (row : Row) (key : String) : JsVal :=
  (row.lookup key).getD JsVal.undefined

/-- The value of `Object.keys(row)`. -/
def Row.keys (row : Row) : List String :=
  row.map Prod.fst

/-- The value of `x || d` for a string-or-missing `x`: the empty string and a missing
value are falsy. -/
def orDefault (x : Option String) (d : String) : String :=
  match x with
  | some s => if s = "" then d else s
  | none => d

/-- The value of `x || undefined` for a string-or-missing `x`. -/
def orUndefined (x : Option String) : Option String :=
  match x with
  | some s => if s = "" then none else some s
  | none => none

/-- The value of `port || d`: a missing port and the number `0` are falsy. -/
def portOrDefault (port : Option Nat) (d : Nat) : Nat :=
  match port with
  | some p => if p = 0 then d else p
  | none => d

/-- The value of `!x` for a string-or-missing `x`. -/
def isFalsy (x : Option String) : Bool :=
  match x with
  | some s => s == ""
  | none => true

/-- The text a template literal inserts for a string-or-missing value. -/
def interpolate (x : Option String) : String :=
  x.getD "undefined"

/-! ## The regular expression `/^[a-zA-Z0-9_]+$/` -/

/-- The pieces regular expressions of the source are made of. -/
inductive ReItem where
  /-- The assertion `^` (no `m` flag: start of input). -/
  | inputStart
  /-- The assertion `$` (no `m` flag: end of input). -/
  | inputEnd
  /-- The repetition `[...]+` over a list of inclusive character ranges. -/
  | classPlus (ranges : List (Char × Char))
  deriving DecidableEq, Repr

/-- Membership of a character in a class given as inclusive ranges. -/
def inClass (ranges : List (Char × Char)) (c : Char) : Bool :=
  ranges.any (fun r => decide (r.1.toNat ≤ c.toNat) && decide (c.toNat ≤ r.2.toNat))

/-- Greedy `[...]+` with backtracking: consume one or more class characters, then
continue with `k` on what is left. -/
def plusLoop (ranges : List (Char × Char)) (k : List Char → Bool) : List Char → Bool
  | [] => false
  | c :: cs => inClass ranges c && (plusLoop ranges k cs || k cs)

/-- Match the items at the current position; `atStart` tells whether the position is
the start of the input, the list is the rest of the input. -/
def matchItems : List ReItem → Bool → List Char → Bool
  | [], _, _ => true
  | ReItem.inputStart :: rest, atStart, s => atStart && matchItems rest atStart s
  | ReItem.inputEnd :: rest, atStart, s => s.isEmpty && matchItems rest atStart s
  | ReItem.classPlus ranges :: rest, _, s =>
      plusLoop ranges (fun s' => matchItems rest false s') s

/-- Try every start position of the rest of the input, leftmost first. -/
def searchFrom (re : List ReItem) : Bool → List Char → Bool
  | atStart, [] => matchItems re atStart []
  | atStart, c :: cs => matchItems re atStart (c :: cs) || searchFrom re false cs

/-- The value of `re.test(s)` for a regular expression without flags. -/
def regexTest (re : List ReItem) (s : String) : Bool :=
  searchFrom re true s.toList

/-- The class `[a-zA-Z0-9_]`. -/
def identRanges : List (Char × Char) :=
  [('a', 'z'), ('A', 'Z'), ('0', '9'), ('_', '_')]

/-- The expression `/^[a-zA-Z0-9_]+$/`. -/
def identRegex : List ReItem :=
  [ReItem.inputStart, ReItem.classPlus identRanges, ReItem.inputEnd]

/-- The guard `!name || !/^[a-zA-Z0-9_]+$/.test(name)` of the four admin handlers. -/
def nameRejected (name : Option String) : Bool :=
  isFalsy name || !regexTest identRegex (name.getD "")

/-! ## `String.prototype.trim` -/

/-- The code points `trim` strips: WhiteSpace and LineTerminator of ECMAScript. -/
def isJsWhitespace (c : Char) : Bool :=
  let n := c.toNat
  n == 0x09 || n == 0x0A || n == 0x0B || n == 0x0C || n == 0x0D || n == 0x20
    || n == 0xA0 || n == 0x1680 || (decide (0x2000 ≤ n) && decide (n ≤ 0x200A))
    || n == 0x2028 || n == 0x2029 || n == 0x202F || n == 0x205F || n == 0x3000
    || n == 0xFEFF

/-- The value of `s.trim()` on the characters of `s`. -/
def jsTrim (s : List Char) : List Char :=
  ((s.dropWhile isJsWhitespace).reverse.dropWhile isJsWhitespace).reverse

/-- The guard `!query || query.trim().length === 0` of the query handler. -/
def queryRejected (query : Option String) : Bool :=
  isFalsy query || (jsTrim (query.getD "").toList).length == 0

/-! ## The connection registry -/

/-- The `config` object kept with a connection. -/
structure ConnConfig where
  host : Option String
  port : Option Nat
  username : Option String
  database : Option String
  deriving DecidableEq, Repr

/-- The object stored per session: its `type`, `connection` and `config`. -/
structure Connection where
  type : String
  connection : Handle
  config : ConnConfig
  deriving DecidableEq, Repr

/-- The `connections` map: keys in insertion order. -/
abbrev Registry := List (SessionId × Connection)

/-- The lookup `connections.get(sessionId)`. -/
def getConnection (connections : Registry) (sessionId : SessionId) : Option Connection :=
  connections.lookup sessionId

/-- The update `connections.set(sessionId, connection)`: an existing key keeps its place, a new key
goes last. -/
def saveConnection (connections : Registry) (sessionId : SessionId) (connection : Connection) :
    Registry :=
  if connections.any (fun p => p.1 == sessionId) then
    connections.map (fun p => if p.1 == sessionId then (sessionId, connection) else p)
  else
    connections ++ [(sessionId, connection)]

/-- The update `connections.delete(sessionId)`. -/
def deleteConnection (connections : Registry) (sessionId : SessionId) : Registry :=
  connections.filter (fun p => p.1 != sessionId)

/-- The four type strings `test-connection` accepts. -/
def supportedType (t : String) : Bool :=
  t == "mysql" || t == "mariadb" || t == "postgresql" || t == "sqlite"

/-- Every entry of the registry has one of the four supported types. -/
def wellTyped (connections : Registry) : Prop :=
  ∀ p ∈ connections, supportedType p.2.type = true

/-! ## The drivers -/

/-- The options object handed to `mysql.createConnection` and to `new PgClient`. -/
structure ConnOptions where
  host : String
  port : Nat
  user : Option String
  password : Option String
  database : Option String
  deriving DecidableEq, Repr

/-- The header object mysql2 returns in place of a row array for a statement that
produces no result set. -/
structure ResultSetHeader where
  fieldCount : Nat
  affectedRows : Nat
  insertId : Nat
  info : String
  serverStatus : Nat
  warningStatus : Nat
  changedRows : Nat
  deriving DecidableEq, Repr

/-- The header as a plain object. -/
def ResultSetHeader.toRow (h : ResultSetHeader) : Row :=
  [("fieldCount", JsVal.num h.fieldCount), ("affectedRows", JsVal.num h.affectedRows),
   ("insertId", JsVal.num h.insertId), ("info", JsVal.str h.info),
   ("serverStatus", JsVal.num h.serverStatus), ("warningStatus", JsVal.num h.warningStatus),
   ("changedRows", JsVal.num h.changedRows)]

/-- The first component of what mysql2 `query` resolves to. -/
inductive MysqlRows where
  | array (rows : List Row)
  | header (h : ResultSetHeader)
  deriving DecidableEq, Repr

/-- A field description; only its `name` is read. -/
structure Field where
  name : String
  deriving DecidableEq, Repr

/-- What mysql2 `query` resolves to: `[rows, fields]`. -/
structure MysqlResult where
  rows : MysqlRows
  fields : Option (List Field)
  deriving DecidableEq, Repr

/-- What pg `query` resolves to. -/
structure PgResult where
  rows : List Row
  rowCount : Option Nat
  fields : Option (List Field)
  deriving DecidableEq, Repr

/-- A call made on a driver. -/
inductive DriverCall where
  | mysqlCreateConnection (opts : ConnOptions)
  | pgClientNew (opts : ConnOptions)
  | pgConnect (h : Handle)
  | sqliteDatabaseNew (path : String)
  | query (h : Handle) (sql : String)
  | all (h : Handle) (sql : String)
  | endCall (h : Handle)
  | closeCall (h : Handle)
  deriving DecidableEq, Repr

/-- The answers of the drivers.  The first argument of each function is the number of
driver calls the request has made before this one.  `Except.error msg` is a thrown error
or a rejected promise whose `message` is `msg`. -/
structure Driver where
  /-- The call `mysql.createConnection(opts)`. -/
  mysqlCreateConnection : Nat → ConnOptions → Except String Handle
  /-- The call `new PgClient(opts)`. -/
  pgClientNew : Nat → ConnOptions → Except String Handle
  /-- The call `client.connect()`. -/
  pgConnect : Nat → Handle → Except String Unit
  /-- The call `new sqlite3.Database(path, cb)`: the constructor throws, or returns the object
  together with the error that is later handed to `cb`, if any. -/
  sqliteDatabaseNew : Nat → String → Except String (Handle × Option String)
  /-- The call `connection.query(sql)` of mysql2. -/
  mysqlQuery : Nat → Handle → String → Except String MysqlResult
  /-- The call `client.query(sql)` of pg. -/
  pgQuery : Nat → Handle → String → Except String PgResult
  /-- The call `db.all(sql, [], cb)` of sqlite3: the error or the rows handed to `cb`. -/
  sqliteAll : Nat → Handle → String → Except String (Option (List Row))
  /-- The call `connection.end()` of mysql2 and pg. -/
  connEnd : Nat → Handle → Except String Unit
  /-- The call `db.close()` of sqlite3: what the call itself throws.  An error sqlite3
  reports later through the `error` event of the object is not part of this model. -/
  dbClose : Nat → Handle → Except String Unit

/-! ## Responses -/

/-- The `info` object of a successful connection test. -/
structure Info where
  version : Option JsVal
  database : Option String
  type : String
  deriving DecidableEq, Repr

/-- The JSON bodies the handlers send. -/
inductive Body where
  /-- The body `success: false, message`. -/
  | failure (message : String)
  /-- The body `success: true, message`. -/
  | message (message : String)
  /-- The body `success: true, message, info`. -/
  | testResult (message : String) (info : Info)
  /-- The body `success: true, databases`. -/
  | databases (databases : List JsVal)
  /-- The body `success: true, users`, each user a pair `user, host`. -/
  | users (users : List (JsVal × JsVal))
  /-- The body `success: true, rows, rowCount, fields`. -/
  | queryResult (rows : List Row) (rowCount : Option Nat) (fields : List String)
  /-- The body of `res.json(undefined)`. -/
  | undefined
  deriving DecidableEq, Repr

/-- The `success` member of a body, if it has one. -/
def Body.success : Body → Option Bool
  | Body.failure _ => some false
  | Body.undefined => none
  | _ => some true

/-- What a request does: the response, the registry afterwards, the driver calls made,
the errors written with `console.error`, and an error thrown outside every `try`. -/
structure Outcome where
  status : Nat
  body : Body
  connections : Registry
  calls : List DriverCall
  logged : List String
  uncaught : Option String
  deriving DecidableEq, Repr

/-- The response `res.status(status).json` of a failure body with nothing else done. -/
def reject (connections : Registry) (calls : List DriverCall) (status : Nat)
    (message : String) : Outcome :=
  ⟨status, Body.failure message, connections, calls, [], none⟩

/-- The response `res.json(body)` with nothing else done. -/
def respond (connections : Registry) (calls : List DriverCall) (body : Body) : Outcome :=
  ⟨200, body, connections, calls, [], none⟩

/-! ## `closeConnection` -/

/-- What `closeConnection` does: the registry afterwards, the driver calls made and the
errors written with `console.error`. -/
structure Closed where
  connections : Registry
  calls : List DriverCall
  logged : List String
  deriving DecidableEq, Repr

/-- The text `console.error` receives for a swallowed shutdown error. -/
def closeLog (r : Except String Unit) : List String :=
  match r with
  | Except.ok _ => []
  | Except.error e => ["Error closing connection: " ++ e]

/-- The function `closeConnection(sessionId)`; `step` is the number of driver calls the
request made before. -/
def closeConnection (drv : Driver) (step : Nat) (connections : Registry)
    (sessionId : SessionId) : Closed :=
  match getConnection connections sessionId with
  | none => ⟨connections, [], []⟩
  | some conn =>
    if conn.type = "mysql" ∨ conn.type = "mariadb" then
      ⟨deleteConnection connections sessionId, [DriverCall.endCall conn.connection],
        closeLog (drv.connEnd step conn.connection)⟩
    else if conn.type = "postgresql" then
      ⟨deleteConnection connections sessionId, [DriverCall.endCall conn.connection],
        closeLog (drv.connEnd step conn.connection)⟩
    else if conn.type = "sqlite" then
      ⟨deleteConnection connections sessionId, [DriverCall.closeCall conn.connection],
        closeLog (drv.dbClose step conn.connection)⟩
    else
      ⟨deleteConnection connections sessionId, [], []⟩

/-! ## `POST /api/test-connection` -/

/-- The body of `POST /api/test-connection`. -/
structure TestRequest where
  type : Option String
  host : Option String
  port : Option Nat
  username : Option String
  password : Option String
  database : Option String
  deriving DecidableEq, Repr

/-- The options of both `mysql.createConnection` calls. -/
def mysqlOptions (req : TestRequest) : ConnOptions :=
  ⟨orDefault req.host "localhost", portOrDefault req.port 3306, req.username, req.password,
    orUndefined req.database⟩

/-- The options of `new PgClient`. -/
def pgOptions (req : TestRequest) : ConnOptions :=
  ⟨orDefault req.host "localhost", portOrDefault req.port 5432, req.username, req.password,
    some (orDefault req.database "postgres")⟩

/-- The expression `rows[0].version` on an array of rows; reading a property of
`undefined` throws a `TypeError`. -/
def firstVersion (rows : List Row) : Except String JsVal :=
  match rows with
  | [] => Except.error "Cannot read properties of undefined (reading 'version')"
  | r :: _ => Except.ok (r.field "version")

/-- The expression `rows[0].version` on what mysql2 returned: a header has no index `0`. -/
def mysqlFirstVersion (rows : MysqlRows) : Except String JsVal :=
  match rows with
  | MysqlRows.array rs => firstVersion rs
  | MysqlRows.header _ =>
      Except.error "Cannot read properties of undefined (reading 'version')"

/-- The `catch` block of the test handler. -/
def connectionFailed (connections : Registry) (calls : List DriverCall) (e : String) :
    Outcome :=
  reject connections calls 500 ("Connection failed: " ++ e)

/-- The end of the `try` block of the test handler: close the session's old connection,
save the new one, send `testResult`. -/
def finishOpen (drv : Driver) (connections : Registry) (sessionId : SessionId)
    (type : String) (connection : Handle) (req : TestRequest) (calls : List DriverCall)
    (testResult : Body) (uncaught : Option String) : Outcome :=
  let closed := closeConnection drv calls.length connections sessionId
  let saved := saveConnection closed.connections sessionId
    ⟨type, connection, ⟨req.host, req.port, req.username, req.database⟩⟩
  ⟨200, testResult, saved, calls ++ closed.calls, closed.logged, uncaught⟩

/-- The handler of `POST /api/test-connection`. -/
def testConnection (drv : Driver) (connections : Registry) (sessionId : SessionId)
    (req : TestRequest) : Outcome :=
  match req.type with
  | none => reject connections [] 400 "Unsupported database type"
  | some type =>
    if type = "mysql" ∨ type = "mariadb" then
      let c0 := DriverCall.mysqlCreateConnection (mysqlOptions req)
      match drv.mysqlCreateConnection 0 (mysqlOptions req) with
      | Except.error e => connectionFailed connections [c0] e
      | Except.ok probe =>
        let c1 := DriverCall.query probe "SELECT VERSION() as version"
        match drv.mysqlQuery 1 probe "SELECT VERSION() as version" with
        | Except.error e => connectionFailed connections [c0, c1] e
        | Except.ok res =>
          match mysqlFirstVersion res.rows with
          | Except.error e => connectionFailed connections [c0, c1] e
          | Except.ok version =>
            let c2 := DriverCall.endCall probe
            match drv.connEnd 2 probe with
            | Except.error e => connectionFailed connections [c0, c1, c2] e
            | Except.ok _ =>
              match drv.mysqlCreateConnection 3 (mysqlOptions req) with
              | Except.error e => connectionFailed connections [c0, c1, c2, c0] e
              | Except.ok connection =>
                finishOpen drv connections sessionId type connection req [c0, c1, c2, c0]
                  (Body.testResult "Connection successful!" ⟨some version, none, type⟩) none
    else if type = "postgresql" then
      let c0 := DriverCall.pgClientNew (pgOptions req)
      match drv.pgClientNew 0 (pgOptions req) with
      | Except.error e => connectionFailed connections [c0] e
      | Except.ok connection =>
        let c1 := DriverCall.pgConnect connection
        match drv.pgConnect 1 connection with
        | Except.error e => connectionFailed connections [c0, c1] e
        | Except.ok _ =>
          let c2 := DriverCall.query connection "SELECT version()"
          match drv.pgQuery 2 connection "SELECT version()" with
          | Except.error e => connectionFailed connections [c0, c1, c2] e
          | Except.ok result =>
            match firstVersion result.rows with
            | Except.error e => connectionFailed connections [c0, c1, c2] e
            | Except.ok version =>
              finishOpen drv connections sessionId type connection req [c0, c1, c2]
                (Body.testResult "Connection successful!" ⟨some version, none, type⟩) none
    else if type = "sqlite" then
      let dbPath := orDefault req.database ":memory:"
      let c0 := DriverCall.sqliteDatabaseNew dbPath
      match drv.sqliteDatabaseNew 0 dbPath with
      | Except.error e => connectionFailed connections [c0] e
      | Except.ok (connection, openError) =>
        -- the callback `(err) => { if (err) throw err; }` runs after the constructor
        -- returned, outside the `try`: its `throw` is not caught by the handler
        finishOpen drv connections sessionId type connection req [c0]
          (Body.testResult "Connection successful!" ⟨none, some dbPath, type⟩) openError
    else
      reject connections [] 400 "Unsupported database type"

/-! ## `POST /api/disconnect` -/

/-- The handler of `POST /api/disconnect`. -/
def disconnect (drv : Driver) (connections : Registry) (sessionId : SessionId) : Outcome :=
  let closed := closeConnection drv 0 connections sessionId
  ⟨200, Body.message "Disconnected successfully", closed.connections, closed.calls,
    closed.logged, none⟩

/-! ## The data operations -/

/-- The response of every data handler when the session has no connection. -/
def noActiveConnection (connections : Registry) : Outcome :=
  reject connections [] 400 "No active connection"

/-- The expression `rows.map(f)` on what mysql2 returned: a header has no `map`. -/
def mysqlMapRows {α : Type} (rows : MysqlRows) (f : Row → α) : Except String (List α) :=
  match rows with
  | MysqlRows.array rs => Except.ok (rs.map f)
  | MysqlRows.header _ => Except.error "rows.map is not a function"

/-- The type dispatch of `GET /api/databases`. -/
def listDatabasesDispatch (drv : Driver) (connections : Registry) (conn : Connection) :
    Outcome :=
  if conn.type = "mysql" ∨ conn.type = "mariadb" then
    let c := DriverCall.query conn.connection "SHOW DATABASES"
    match drv.mysqlQuery 0 conn.connection "SHOW DATABASES" with
    | Except.error e => reject connections [c] 500 e
    | Except.ok res =>
      match mysqlMapRows res.rows (fun row => row.field "Database") with
      | Except.error e => reject connections [c] 500 e
      | Except.ok databases => respond connections [c] (Body.databases databases)
  else if conn.type = "postgresql" then
    let sql := "SELECT datname FROM pg_database WHERE datistemplate = false"
    match drv.pgQuery 0 conn.connection sql with
    | Except.error e => reject connections [DriverCall.query conn.connection sql] 500 e
    | Except.ok result =>
      respond connections [DriverCall.query conn.connection sql]
        (Body.databases (result.rows.map (fun row => row.field "datname")))
  else if conn.type = "sqlite" then
    respond connections []
      (Body.databases [JsVal.str (orDefault conn.config.database ":memory:")])
  else
    respond connections [] (Body.databases [])

/-- The handler of `GET /api/databases`. -/
def listDatabases (drv : Driver) (connections : Registry) (sessionId : SessionId) : Outcome :=
  match getConnection connections sessionId with
  | none => noActiveConnection connections
  | some conn => listDatabasesDispatch drv connections conn

/-- A statement sent with `conn.connection.query` whose result is not read: the handler
answers `success` when it resolves and `500` with the error text when it rejects. -/
def runStatement (connections : Registry) (call : DriverCall) (r : Except String Unit)
    (success : String) : Outcome :=
  match r with
  | Except.error e => reject connections [call] 500 e
  | Except.ok _ => respond connections [call] (Body.message success)

/-- Forget the result of a query. -/
def discard {α : Type} (r : Except String α) : Except String Unit :=
  match r with
  | Except.error e => Except.error e
  | Except.ok _ => Except.ok ()

/-- The type dispatch of a handler that issues one statement: `mysqlSql` on mysql and
mariadb, `pgSql` on postgresql, the `400` answer `sqliteMessage` on sqlite. -/
def adminDispatch (drv : Driver) (connections : Registry) (conn : Connection)
    (mysqlSql pgSql sqliteMessage success : String) : Outcome :=
  if conn.type = "mysql" ∨ conn.type = "mariadb" then
    runStatement connections (DriverCall.query conn.connection mysqlSql)
      (discard (drv.mysqlQuery 0 conn.connection mysqlSql)) success
  else if conn.type = "postgresql" then
    runStatement connections (DriverCall.query conn.connection pgSql)
      (discard (drv.pgQuery 0 conn.connection pgSql)) success
  else if conn.type = "sqlite" then
    reject connections [] 400 sqliteMessage
  else
    respond connections [] (Body.message success)

/-- The type dispatch of `POST /api/databases`. -/
def createDatabaseDispatch (drv : Driver) (connections : Registry) (conn : Connection)
    (name : Option String) : Outcome :=
  adminDispatch drv connections conn
    ("CREATE DATABASE `" ++ interpolate name ++ "`")
    ("CREATE DATABASE \"" ++ interpolate name ++ "\"")
    "SQLite does not support CREATE DATABASE. Use a file path instead."
    ("Database '" ++ interpolate name ++ "' created successfully")

/-- The handler of `POST /api/databases` with body member `name`. -/
def createDatabase (drv : Driver) (connections : Registry) (sessionId : SessionId)
    (name : Option String) : Outcome :=
  match getConnection connections sessionId with
  | none => noActiveConnection connections
  | some conn =>
    if nameRejected name then
      reject connections [] 400
        "Invalid database name. Use only letters, numbers, and underscores."
    else
      createDatabaseDispatch drv connections conn name

/-- The type dispatch of `DELETE /api/databases/:name`. -/
def deleteDatabaseDispatch (drv : Driver) (connections : Registry) (conn : Connection)
    (name : Option String) : Outcome :=
  adminDispatch drv connections conn
    ("DROP DATABASE `" ++ interpolate name ++ "`")
    ("DROP DATABASE \"" ++ interpolate name ++ "\"")
    "SQLite does not support DROP DATABASE"
    ("Database '" ++ interpolate name ++ "' deleted successfully")

/-- The handler of `DELETE /api/databases/:name`. -/
def deleteDatabase (drv : Driver) (connections : Registry) (sessionId : SessionId)
    (name : Option String) : Outcome :=
  match getConnection connections sessionId with
  | none => noActiveConnection connections
  | some conn =>
    if nameRejected name then
      reject connections [] 400 "Invalid database name"
    else
      deleteDatabaseDispatch drv connections conn name

/-- The type dispatch of `GET /api/users`. -/
def listUsersDispatch (drv : Driver) (connections : Registry) (conn : Connection) : Outcome :=
  if conn.type = "mysql" ∨ conn.type = "mariadb" then
    let c := DriverCall.query conn.connection "SELECT User, Host FROM mysql.user"
    match drv.mysqlQuery 0 conn.connection "SELECT User, Host FROM mysql.user" with
    | Except.error e => reject connections [c] 500 e
    | Except.ok res =>
      match mysqlMapRows res.rows (fun row => (row.field "User", row.field "Host")) with
      | Except.error e => reject connections [c] 500 e
      | Except.ok users => respond connections [c] (Body.users users)
  else if conn.type = "postgresql" then
    let c := DriverCall.query conn.connection "SELECT usename FROM pg_user"
    match drv.pgQuery 0 conn.connection "SELECT usename FROM pg_user" with
    | Except.error e => reject connections [c] 500 e
    | Except.ok result =>
      respond connections [c]
        (Body.users (result.rows.map (fun row => (row.field "usename", JsVal.str "N/A"))))
  else if conn.type = "sqlite" then
    reject connections [] 400 "SQLite does not have a user management system"
  else
    respond connections [] (Body.users [])

/-- The handler of `GET /api/users`. -/
def listUsers (drv : Driver) (connections : Registry) (sessionId : SessionId) : Outcome :=
  match getConnection connections sessionId with
  | none => noActiveConnection connections
  | some conn => listUsersDispatch drv connections conn

/-- The type dispatch of `POST /api/users`. -/
def createUserDispatch (drv : Driver) (connections : Registry) (conn : Connection)
    (username password host : Option String) : Outcome :=
  adminDispatch drv connections conn
    ("CREATE USER '" ++ interpolate username ++ "'@'" ++ orDefault host "%"
      ++ "' IDENTIFIED BY '" ++ interpolate password ++ "'")
    ("CREATE USER \"" ++ interpolate username ++ "\" WITH PASSWORD '"
      ++ interpolate password ++ "'")
    "SQLite does not support user management"
    ("User '" ++ interpolate username ++ "' created successfully")

/-- The handler of `POST /api/users` with body members `username`, `password`, `host`. -/
def createUser (drv : Driver) (connections : Registry) (sessionId : SessionId)
    (username password host : Option String) : Outcome :=
  match getConnection connections sessionId with
  | none => noActiveConnection connections
  | some conn =>
    if nameRejected username then
      reject connections [] 400
        "Invalid username. Use only letters, numbers, and underscores."
    else
      createUserDispatch drv connections conn username password host

/-- The type dispatch of `DELETE /api/users/:username`. -/
def deleteUserDispatch (drv : Driver) (connections : Registry) (conn : Connection)
    (username host : Option String) : Outcome :=
  adminDispatch drv connections conn
    ("DROP USER '" ++ interpolate username ++ "'@'" ++ orDefault host "%" ++ "'")
    ("DROP USER \"" ++ interpolate username ++ "\"")
    "SQLite does not support user management"
    ("User '" ++ interpolate username ++ "' deleted successfully")

/-- The handler of `DELETE /api/users/:username` with query member `host`. -/
def deleteUser (drv : Driver) (connections : Registry) (sessionId : SessionId)
    (username host : Option String) : Outcome :=
  match getConnection connections sessionId with
  | none => noActiveConnection connections
  | some conn =>
    if nameRejected username then
      reject connections [] 400 "Invalid username"
    else
      deleteUserDispatch drv connections conn username host

/-- The member `fields ? fields.map(f => f.name) : []` of a query answer. -/
def fieldNames (fields : Option (List Field)) : List String :=
  match fields with
  | some fs => fs.map Field.name
  | none => []

/-- The answer built from what mysql2 returned: a header is wrapped in a one-element
array and counted as one row. -/
def mysqlQueryBody (res : MysqlResult) : Body :=
  match res.rows with
  | MysqlRows.array rows => Body.queryResult rows (some rows.length) (fieldNames res.fields)
  | MysqlRows.header h => Body.queryResult [h.toRow] (some 1) (fieldNames res.fields)

/-- The answer built from what pg returned. -/
def pgQueryBody (res : PgResult) : Body :=
  Body.queryResult res.rows res.rowCount (fieldNames res.fields)

/-- The answer built from the rows sqlite3 handed to the callback of `all`. -/
def sqliteQueryBody (rows : Option (List Row)) : Body :=
  match rows with
  | none => Body.queryResult [] (some 0) []
  | some [] => Body.queryResult [] (some 0) []
  | some (r :: rs) => Body.queryResult (r :: rs) (some (r :: rs).length) r.keys

/-- The type dispatch of `POST /api/query`. -/
def executeQueryDispatch (drv : Driver) (connections : Registry) (conn : Connection)
    (query : String) : Outcome :=
  if conn.type = "mysql" ∨ conn.type = "mariadb" then
    match drv.mysqlQuery 0 conn.connection query with
    | Except.error e => reject connections [DriverCall.query conn.connection query] 500 e
    | Except.ok res =>
      respond connections [DriverCall.query conn.connection query] (mysqlQueryBody res)
  else if conn.type = "postgresql" then
    match drv.pgQuery 0 conn.connection query with
    | Except.error e => reject connections [DriverCall.query conn.connection query] 500 e
    | Except.ok res =>
      respond connections [DriverCall.query conn.connection query] (pgQueryBody res)
  else if conn.type = "sqlite" then
    match drv.sqliteAll 0 conn.connection query with
    | Except.error e => reject connections [DriverCall.all conn.connection query] 500 e
    | Except.ok rows =>
      respond connections [DriverCall.all conn.connection query] (sqliteQueryBody rows)
  else
    respond connections [] Body.undefined

/-- The handler of `POST /api/query` with body member `query`. -/
def executeQuery (drv : Driver) (connections : Registry) (sessionId : SessionId)
    (query : Option String) : Outcome :=
  match getConnection connections sessionId with
  | none => noActiveConnection connections
  | some conn =>
    if queryRejected query then
      reject connections [] 400 "Query cannot be empty"
    else
      executeQueryDispatch drv connections conn (query.getD "")

/-! ## The `SIGINT` handler -/

/-- The entry list of the `connections` map as ECMAScript keeps it: `delete` empties the
record of the key and leaves the record in the list, and the iterator behind
`for (... of connections)` walks the list by index, skipping emptied records and reading
the length of the list anew at every step. -/
abbrev MapData := List (Option (SessionId × Connection))

/-- The entry list of a registry that has no emptied record. -/
def MapData.ofRegistry (connections : Registry) : MapData :=
  connections.map some

/-- The registry an entry list stands for: its records that are not emptied, in order. -/
def MapData.entries (d : MapData) : Registry :=
  d.filterMap id

/-- The update `connections.delete(sessionId)` on the entry list. -/
def MapData.delete (d : MapData) (sessionId : SessionId) : MapData :=
  d.map (fun slot =>
    match slot with
    | some p => if p.1 == sessionId then none else some p
    | none => none)

/-- What the `SIGINT` handler does: the registry when it stops, the driver calls made,
the errors written with `console.error`, and the code given to `process.exit`, if the
handler got there. -/
structure Shutdown where
  connections : Registry
  calls : List DriverCall
  logged : List String
  exit : Option Nat
  deriving DecidableEq, Repr

/-- The loop `for (const [sessionId] of connections) await closeConnection(sessionId)`
followed by `process.exit(0)`; `index` is the position of the iterator, `fuel` bounds the
number of iterator steps. -/
def sigintLoop (drv : Driver) :
    Nat → Nat → MapData → List DriverCall → List String → Shutdown
  | 0, _, d, calls, logged => ⟨d.entries, calls, logged, none⟩
  | fuel + 1, index, d, calls, logged =>
    match d[index]? with
    | none => ⟨d.entries, calls, logged, some 0⟩
    | some none => sigintLoop drv fuel (index + 1) d calls logged
    | some (some (sessionId, _)) =>
      let closed := closeConnection drv calls.length d.entries sessionId
      sigintLoop drv fuel (index + 1) (d.delete sessionId) (calls ++ closed.calls)
        (logged ++ closed.logged)

/-- The handler of `SIGINT`.  The entry list never grows while the handler runs, so one
iterator step per record and one more to see the end are enough. -/
def sigint (drv : Driver) (connections : Registry) : Shutdown :=
  sigintLoop drv (connections.length + 1) 0 (MapData.ofRegistry connections) [] []

/-! ## The routes -/

/-- A request to one of the nine endpoints, with its input. -/
inductive Request where
  | testConnection (req : TestRequest)
  | disconnect
  | listDatabases
  | createDatabase (name : Option String)
  | deleteDatabase (name : Option String)
  | listUsers
  | createUser (username password host : Option String)
  | deleteUser (username host : Option String)
  | executeQuery (query : Option String)
  deriving DecidableEq, Repr

/-- The routing table of the application: each request goes to its handler. -/
def route (drv : Driver) (connections : Registry) (sessionId : SessionId) :
    Request → Outcome
  | Request.testConnection req => testConnection drv connections sessionId req
  | Request.disconnect => disconnect drv connections sessionId
  | Request.listDatabases => listDatabases drv connections sessionId
  | Request.createDatabase name => createDatabase drv connections sessionId name
  | Request.deleteDatabase name => deleteDatabase drv connections sessionId name
  | Request.listUsers => listUsers drv connections sessionId
  | Request.createUser username password host =>
      createUser drv connections sessionId username password host
  | Request.deleteUser username host => deleteUser drv connections sessionId username host
  | Request.executeQuery query => executeQuery drv connections sessionId query

/-- The seven data operations. -/
def Request.isData : Request → Bool
  | Request.testConnection _ => false
  | Request.disconnect => false
  | _ => true

/-! ## The vocabulary of the specification -/

/-- The character class `[A-Za-z0-9_]` as the specification words it: letters, digits
and the underscore. -/
def isIdentChar (c : Char) : Bool :=
  c.isAlphanum || c == '_'

/-- A name the specification admits: non-empty, every character in `[A-Za-z0-9_]`. -/
def validName (name : String) : Prop :=
  name ≠ "" ∧ ∀ c ∈ name.toList, isIdentChar c = true

/-- A query text the specification calls blank: empty or whitespace only. -/
def isBlank (query : String) : Prop :=
  ∀ c ∈ query.toList, isJsWhitespace c = true

/-- The types served by a network driver. -/
def networkType (t : String) : Prop :=
  t = "mysql" ∨ t = "mariadb" ∨ t = "postgresql"

/-! ## Concrete drivers and registries for the examples -/

/-- A driver whose every call succeeds; the object created by the `n`-th call of a
request is `100 + n`. -/
def quietDriver : Driver where
  mysqlCreateConnection := fun n _ => Except.ok (100 + n)
  pgClientNew := fun n _ => Except.ok (100 + n)
  pgConnect := fun _ _ => Except.ok ()
  sqliteDatabaseNew := fun n _ => Except.ok (100 + n, none)
  mysqlQuery := fun _ _ _ => Except.ok ⟨MysqlRows.array [[("version", JsVal.str "8.0.36")]], none⟩
  pgQuery := fun _ _ _ => Except.ok ⟨[[("version", JsVal.str "PostgreSQL 16.2")]], some 1, none⟩
  sqliteAll := fun _ _ _ => Except.ok (some [])
  connEnd := fun _ _ => Except.ok ()
  dbClose := fun _ _ => Except.ok ()

/-- A driver whose every call fails with the text `msg`; `new sqlite3.Database` returns
its object and hands the error to the callback. -/
def failingDriver (msg : String) : Driver where
  mysqlCreateConnection := fun _ _ => Except.error msg
  pgClientNew := fun _ _ => Except.error msg
  pgConnect := fun _ _ => Except.error msg
  sqliteDatabaseNew := fun n _ => Except.ok (100 + n, some msg)
  mysqlQuery := fun _ _ _ => Except.error msg
  pgQuery := fun _ _ _ => Except.error msg
  sqliteAll := fun _ _ _ => Except.error msg
  connEnd := fun _ _ => Except.error msg
  dbClose := fun _ _ => Except.error msg

/-- An empty `config`. -/
def noConfig : ConnConfig :=
  ⟨none, none, none, none⟩

/-- A registered mysql connection with handle `1`. -/
def mysqlConn : Connection :=
  ⟨"mysql", 1, ⟨some "db.example", some 3306, some "root", none⟩⟩

/-- A registered postgresql connection with handle `2`. -/
def pgConn : Connection :=
  ⟨"postgresql", 2, ⟨some "pg.example", some 5432, some "postgres", some "app"⟩⟩

/-- A registered sqlite connection with handle `3`. -/
def sqliteConn : Connection :=
  ⟨"sqlite", 3, ⟨none, none, none, some "/tmp/test.db"⟩⟩

instance (name : String) : Decidable (validName name) := by
  unfold validName
  infer_instance

/-- The driver `quietDriver`, except that sqlite3 cannot open the file: the constructor
returns its object and hands `SQLITE_CANTOPEN` to the callback. -/
def cantOpenDriver : Driver where
  mysqlCreateConnection := quietDriver.mysqlCreateConnection
  pgClientNew := quietDriver.pgClientNew
  pgConnect := quietDriver.pgConnect
  sqliteDatabaseNew := fun n _ =>
    Except.ok (100 + n, some "SQLITE_CANTOPEN: unable to open database file")
  mysqlQuery := quietDriver.mysqlQuery
  pgQuery := quietDriver.pgQuery
  sqliteAll := quietDriver.sqliteAll
  connEnd := quietDriver.connEnd
  dbClose := quietDriver.dbClose

/-- A sqlite test request for a file in a directory that does not exist. -/
def cantOpenRequest : TestRequest :=
  ⟨some "sqlite", none, none, none, none, some "/no/such/dir/test.db"⟩

/-- The object a successful test of type `type` registers: the answer of the last
opening call of the request. -/
def openedConnection (drv : Driver) (req : TestRequest) (type : String) : Option Handle :=
  if type = "mysql" ∨ type = "mariadb" then
    (drv.mysqlCreateConnection 3 (mysqlOptions req)).toOption
  else if type = "postgresql" then
    (drv.pgClientNew 0 (pgOptions req)).toOption
  else if type = "sqlite" then
    (drv.sqliteDatabaseNew 0 (orDefault req.database ":memory:")).toOption.map Prod.fst
  else
    none

/-- The object `x` is created by some opening call the driver answers for this request. -/
def createdBy (drv : Driver) (req : TestRequest) (x : Handle) : Prop :=
  (∃ n, drv.mysqlCreateConnection n (mysqlOptions req) = Except.ok x)
  ∨ (∃ n, drv.pgClientNew n (pgOptions req) = Except.ok x)
  ∨ (∃ n e, drv.sqliteDatabaseNew n (orDefault req.database ":memory:") = Except.ok (x, e))

/-- The driver creates new objects: none of the objects it creates for this request is
already held by the registry. -/
def createsFresh (drv : Driver) (req : TestRequest) (connections : Registry) : Prop :=
  ∀ p ∈ connections, ¬ createdBy drv req p.2.connection

/-- No object is held by two entries of the registry. -/
def handlesDistinct (connections : Registry) : Prop :=
  (connections.map (fun p => p.2.connection)).Nodup

/-- The shutdown call `closeConnection` makes for an entry. -/
def shutdownCall (conn : Connection) : DriverCall :=
  if conn.type = "sqlite" then DriverCall.closeCall conn.connection
  else DriverCall.endCall conn.connection

/-- The header mysql2 returns for a data-definition statement: no row is affected. -/
def ddlHeader : ResultSetHeader :=
  ⟨0, 0, 0, "", 2, 0, 0⟩

/-- The driver `quietDriver`, except that every statement is answered as a
data-definition statement is: mysql2 with a header and no field list, pg with no rows, a
null count and an empty field list, sqlite3 with no rows. -/
def ddlDriver : Driver where
  mysqlCreateConnection := quietDriver.mysqlCreateConnection
  pgClientNew := quietDriver.pgClientNew
  pgConnect := quietDriver.pgConnect
  sqliteDatabaseNew := quietDriver.sqliteDatabaseNew
  mysqlQuery := fun _ _ _ => Except.ok ⟨MysqlRows.header ddlHeader, none⟩
  pgQuery := fun _ _ _ => Except.ok ⟨[], none, some []⟩
  sqliteAll := fun _ _ _ => Except.ok (some [])
  connEnd := quietDriver.connEnd
  dbClose := quietDriver.dbClose

/-- The response envelope: status `200` with `success: true`, or status `400` or `500`
with a failure body. -/
def envelope (out : Outcome) : Prop :=
  (out.status = 200 ∧ out.body.success = some true)
  ∨ ((out.status = 400 ∨ out.status = 500) ∧ ∃ m, out.body = Body.failure m)

/-- The texts of the no-active-connection, validation and unsupported-operation
answers. -/
def clientErrorMessages : List String :=
  ["No active connection",
   "Invalid database name. Use only letters, numbers, and underscores.",
   "Invalid database name",
   "Invalid username. Use only letters, numbers, and underscores.",
   "Invalid username",
   "Query cannot be empty",
   "SQLite does not support CREATE DATABASE. Use a file path instead.",
   "SQLite does not support DROP DATABASE",
   "SQLite does not have a user management system",
   "SQLite does not support user management",
   "Unsupported database type"]

/-- A no-active-connection, validation or unsupported-operation answer: status `400`,
one of the fixed texts, no driver call made. -/
def clientError (out : Outcome) : Prop :=
  out.status = 400 ∧ out.calls = [] ∧ ∃ m ∈ clientErrorMessages, out.body = Body.failure m

/-- The error text of a driver answer, if the answer is an error. -/
def errorText {α : Type} (r : Except String α) : Option String :=
  match r with
  | Except.error e => some e
  | Except.ok _ => none

/-- The error the driver raises for `call` when it is call number `step` of a request on
a connection of type `type`, if it raises one.  For `new sqlite3.Database` this is the
error the constructor throws or the open error it hands to the callback. -/
def driverError (drv : Driver) (type : String) (step : Nat) : DriverCall → Option String
  | DriverCall.mysqlCreateConnection opts => errorText (drv.mysqlCreateConnection step opts)
  | DriverCall.pgClientNew opts => errorText (drv.pgClientNew step opts)
  | DriverCall.pgConnect h => errorText (drv.pgConnect step h)
  | DriverCall.sqliteDatabaseNew path =>
      match drv.sqliteDatabaseNew step path with
      | Except.error e => some e
      | Except.ok (_, openError) => openError
  | DriverCall.query h sql =>
      if type = "postgresql" then errorText (drv.pgQuery step h sql)
      else errorText (drv.mysqlQuery step h sql)
  | DriverCall.all h sql => errorText (drv.sqliteAll step h sql)
  | DriverCall.endCall h => errorText (drv.connEnd step h)
  | DriverCall.closeCall h => errorText (drv.dbClose step h)

/-- The type of the session's connection; the empty string when it has none. -/
def sessionType (connections : Registry) (sessionId : SessionId) : String :=
  match getConnection connections sessionId with
  | some conn => conn.type
  | none => ""

/-- The contract of a data operation's response: the envelope holds; a `400` is a
no-connection, validation or unsupported-operation answer made before any driver call;
and whenever the driver raised an error for a call of the request, the status is `500`
and the message is the driver's text. -/
def dataContract (drv : Driver) (type : String) (out : Outcome) : Prop :=
  envelope out
  ∧ (out.status = 400 → clientError out)
  ∧ (∀ i call e, out.calls[i]? = some call → driverError drv type i call = some e →
      out.status = 500 ∧ out.body = Body.failure e)

/-- The call `call`, call number `step` of a request, is a `new sqlite3.Database` whose
open error the driver hands to the callback after the constructor returned. -/
def deferredOpenError (drv : Driver) (step : Nat) (call : DriverCall) : Prop :=
  ∃ path h e, call = DriverCall.sqliteDatabaseNew path
    ∧ drv.sqliteDatabaseNew step path = Except.ok (h, some e)

/-- The contract of the test handler's response.
* The envelope holds, and a `400` is the unsupported-type answer made before any driver
  call.
* Whenever the driver raised an error for a call of the request, other than a sqlite open
  error handed to the callback, either the status is `500`, the message is
  `Connection failed: ` followed by the driver's text and the registry is as it was, or
  the call is the last one, the shutdown of the session's earlier connection, whose error
  is written with `console.error` while the response stays `200`.
* When no sqlite open error is handed to the callback, nothing is thrown outside the
  handler.
Nothing is said about the request in which a sqlite open error is handed to the callback,
beyond the envelope. -/
def testContract (drv : Driver) (connections : Registry) (sessionId : SessionId)
    (type : String) (out : Outcome) : Prop :=
  envelope out
  ∧ (out.status = 400 → clientError out)
  ∧ (∀ i call e, out.calls[i]? = some call → driverError drv type i call = some e →
      ¬ deferredOpenError drv i call →
      (out.status = 500 ∧ out.body = Body.failure ("Connection failed: " ++ e)
          ∧ out.connections = connections)
      ∨ (out.status = 200 ∧ i + 1 = out.calls.length
          ∧ (∃ old, getConnection connections sessionId = some old
              ∧ call = shutdownCall old)
          ∧ out.logged = ["Error closing connection: " ++ e]))
  ∧ ((∀ i call, out.calls[i]? = some call → ¬ deferredOpenError drv i call) →
      out.uncaught = none)

/-- The contract of the disconnect response: it is always `200` with `success: true` and
nothing is thrown; when the driver raised an error for a call of the request, that call
is the shutdown call of the session's connection and the error is written with
`console.error`. -/
def disconnectContract (drv : Driver) (connections : Registry) (sessionId : SessionId)
    (out : Outcome) : Prop :=
  out.status = 200
  ∧ out.body = Body.message "Disconnected successfully"
  ∧ out.uncaught = none
  ∧ (∀ i call e, out.calls[i]? = some call →
      driverError drv (sessionType connections sessionId) i call = some e →
      (∃ old, getConnection connections sessionId = some old ∧ call = shutdownCall old)
      ∧ out.logged = ["Error closing connection: " ++ e])

/-- The way the test handler hands the request fields to a network driver: user name and
password as given; the host as given, `localhost` when it is missing or empty; the port
as given, `defaultPort` when it is missing or `0`; the database as given, `defaultDatabase`
when it is missing or empty. -/
def handsOver (req : TestRequest) (defaultPort : Nat) (defaultDatabase : Option String)
    (opts : ConnOptions) : Prop :=
  opts.user = req.username
  ∧ opts.password = req.password
  ∧ (∀ h, req.host = some h → h ≠ "" → opts.host = h)
  ∧ (req.host = none ∨ req.host = some "" → opts.host = "localhost")
  ∧ (∀ p, req.port = some p → p ≠ 0 → opts.port = p)
  ∧ (req.port = none ∨ req.port = some 0 → opts.port = defaultPort)
  ∧ (∀ d, req.database = some d → d ≠ "" → opts.database = some d)
  ∧ (req.database = none ∨ req.database = some "" → opts.database = defaultDatabase)

/-- The options of the opening calls among `calls`. -/
def openingOptions (calls : List DriverCall) : List ConnOptions :=
  calls.filterMap (fun c =>
    match c with
    | DriverCall.mysqlCreateConnection opts => some opts
    | DriverCall.pgClientNew opts => some opts
    | _ => none)

/-- No session has two entries: the keys of a `Map` are unique. -/
def keysDistinct (connections : Registry) : Prop :=
  (connections.map Prod.fst).Nodup

/-- The registries the server can be in: the empty one at start, and the one any request
of any session leaves behind, whatever the driver answers. -/
inductive Reachable : Registry → Prop where
  | start : Reachable []
  | step (drv : Driver) (connections : Registry) (sessionId : SessionId) (r : Request) :
      Reachable connections → Reachable (route drv connections sessionId r).connections

/-! ## Theorems -/

/-! ### The regular expression and `trim` -/

theorem char_eq_underscore (c : Char) : c = '_' ↔ c.toNat = 95 := by
  constructor
  · intro h; subst h; rfl
  · intro h
    have hc := Char.ofNat_toNat c
    rw [h] at hc
    exact hc.symm

/-- The class of the source expression is the class of the specification. -/
theorem inClass_identRanges (c : Char) : inClass identRanges c = isIdentChar c := by
  have h1 : ∀ (a b : UInt32), (a ≤ b) ↔ a.toNat ≤ b.toNat := fun a b => Iff.rfl
  have h2 : c.val.toNat = c.toNat := rfl
  rw [Bool.eq_iff_iff]
  simp only [inClass, identRanges, isIdentChar, Char.isAlphanum, Char.isAlpha, Char.isUpper,
    Char.isLower, Char.isDigit, List.any_cons, List.any_nil, ge_iff_le, h1, beq_iff_eq,
    char_eq_underscore, Bool.or_eq_true, Bool.and_eq_true, decide_eq_true_eq, Bool.or_false, h2]
  have e1 : ('a' : Char).toNat = 97 := rfl
  have e2 : ('z' : Char).toNat = 122 := rfl
  have e3 : ('A' : Char).toNat = 65 := rfl
  have e4 : ('Z' : Char).toNat = 90 := rfl
  have e5 : ('0' : Char).toNat = 48 := rfl
  have e6 : ('9' : Char).toNat = 57 := rfl
  have e7 : ('_' : Char).toNat = 95 := rfl
  have n1 : (65 : UInt32).toNat = 65 := rfl
  have n2 : (90 : UInt32).toNat = 90 := rfl
  have n3 : (97 : UInt32).toNat = 97 := rfl
  have n4 : (122 : UInt32).toNat = 122 := rfl
  have n5 : (48 : UInt32).toNat = 48 := rfl
  have n6 : (57 : UInt32).toNat = 57 := rfl
  simp only [e1, e2, e3, e4, e5, e6, e7, n1, n2, n3, n4, n5, n6]
  omega

/-- A class repetition followed by the end of input accepts exactly the non-empty
lists of class characters. -/
theorem plusLoop_inputEnd (R : List (Char × Char)) (l : List Char) :
    plusLoop R (fun s' => matchItems [ReItem.inputEnd] false s') l = true
      ↔ l ≠ [] ∧ ∀ c ∈ l, inClass R c = true := by
  induction l with
  | nil => simp [plusLoop]
  | cons c cs ih =>
    simp only [plusLoop, Bool.and_eq_true, Bool.or_eq_true, ih]
    cases cs with
    | nil => simp [matchItems]
    | cons d ds => simp [matchItems]

/-- An expression that starts with `^` matches at no position after the first. -/
theorem searchFrom_inputStart_false (re : List ReItem) (l : List Char) :
    searchFrom (ReItem.inputStart :: re) false l = false := by
  induction l with
  | nil => simp [searchFrom, matchItems]
  | cons c cs ih => simp [searchFrom, matchItems, ih]

theorem toList_ne_nil_iff (s : String) : s.toList ≠ [] ↔ s ≠ "" := by
  constructor
  · intro h e; subst e; exact h rfl
  · intro h e
    apply h
    cases s with
    | mk data =>
      simp only [String.toList] at e
      subst e
      rfl

/-- The source expression `/^[a-zA-Z0-9_]+$/` accepts exactly the valid names. -/
theorem regexTest_identRegex (s : String) : regexTest identRegex s = true ↔ validName s := by
  unfold regexTest identRegex validName
  rw [← toList_ne_nil_iff]
  cases h : s.toList with
  | nil => simp [searchFrom, matchItems, plusLoop]
  | cons c cs =>
    have hm : matchItems [ReItem.inputStart, ReItem.classPlus identRanges, ReItem.inputEnd]
        true (c :: cs)
        = plusLoop identRanges (fun s' => matchItems [ReItem.inputEnd] false s') (c :: cs) :=
      rfl
    simp only [searchFrom, searchFrom_inputStart_false, Bool.or_false, hm,
      plusLoop_inputEnd, inClass_identRanges]

/-- The guard of the admin handlers lets a name through exactly when it is valid. -/
theorem nameRejected_eq_false_iff (name : String) :
    nameRejected (some name) = false ↔ validName name := by
  rw [← regexTest_identRegex]
  unfold nameRejected isFalsy
  by_cases h : name = ""
  · subst h
    simp only [beq_self_eq_true, Bool.true_or, Option.getD_some]
    constructor
    · intro h; cases h
    · intro h; revert h; decide
  · simp [h]

theorem nameRejected_none : nameRejected none = true := rfl

/-- The trimmed text is empty exactly when every character is whitespace. -/
theorem jsTrim_length_eq_zero_iff (l : List Char) :
    (jsTrim l).length = 0 ↔ ∀ c ∈ l, isJsWhitespace c = true := by
  unfold jsTrim
  rw [List.length_eq_zero, List.reverse_eq_nil_iff, List.dropWhile_eq_nil_iff]
  constructor
  · intro h
    by_contra hne
    have hd : List.dropWhile isJsWhitespace l ≠ [] := by
      intro e; exact hne (List.dropWhile_eq_nil_iff.mp e)
    obtain ⟨c, cs, hcs⟩ := List.exists_cons_of_ne_nil hd
    have hc : isJsWhitespace c = true := h c (by simp [hcs])
    have hhead := List.head_dropWhile_not isJsWhitespace l hd
    simp [hcs, hc] at hhead
  · intro h
    have hd : List.dropWhile isJsWhitespace l = [] := List.dropWhile_eq_nil_iff.mpr h
    simp [hd]

/-- The guard of the query handler rejects exactly the blank texts. -/
theorem queryRejected_some_iff (query : String) :
    queryRejected (some query) = true ↔ isBlank query := by
  unfold queryRejected isFalsy isBlank
  simp only [Option.getD_some, Bool.or_eq_true, beq_iff_eq, jsTrim_length_eq_zero_iff]
  constructor
  · rintro (h | h)
    · subst h; intro c hc; simp at hc
    · exact h
  · intro h; exact Or.inr h

theorem queryRejected_none : queryRejected none = true := rfl

/-! ### The registry -/

theorem getConnection_nil (s : SessionId) : getConnection [] s = none := rfl

theorem getConnection_cons (t : SessionId) (e : Connection) (c : Registry) (s : SessionId) :
    getConnection ((t, e) :: c) s = if s = t then some e else getConnection c s := by
  unfold getConnection
  rw [List.lookup_cons]
  by_cases h : s = t
  · subst h; simp
  · have hb : (s == t) = false := by simpa using h
    simp [h, hb]

/-- A session found by the lookup is an entry of the registry. -/
theorem mem_of_getConnection (c : Registry) (s : SessionId) (e : Connection)
    (h : getConnection c s = some e) : (s, e) ∈ c := by
  induction c with
  | nil => simp [getConnection_nil] at h
  | cons p c ih =>
    obtain ⟨t, e'⟩ := p
    rw [getConnection_cons] at h
    by_cases hst : s = t
    · subst hst
      simp only [if_true, Option.some.injEq] at h
      subst h
      exact List.mem_cons_self _ _
    · simp only [hst, if_false] at h
      exact List.mem_cons_of_mem _ (ih h)

/-- A session without an entry is the key of no pair of the registry. -/
theorem not_mem_of_getConnection_none (c : Registry) (s : SessionId)
    (h : getConnection c s = none) : ∀ p ∈ c, p.1 ≠ s := by
  induction c with
  | nil => intro p hp; cases hp
  | cons q c ih =>
    obtain ⟨t, e'⟩ := q
    rw [getConnection_cons] at h
    by_cases hst : s = t
    · simp [hst] at h
    · simp only [hst, if_false] at h
      intro p hp
      rcases List.mem_cons.mp hp with hp | hp
      · subst hp; exact fun e => hst e.symm
      · exact ih h p hp

theorem getConnection_none_of_forall (c : Registry) (s : SessionId)
    (h : ∀ p ∈ c, p.1 ≠ s) : getConnection c s = none := by
  induction c with
  | nil => rfl
  | cons q c ih =>
    obtain ⟨t, e'⟩ := q
    rw [getConnection_cons]
    have hts : t ≠ s := h (t, e') (List.mem_cons_self _ _)
    have hst : ¬ s = t := fun e => hts e.symm
    rw [if_neg hst]
    exact ih (fun p hp => h p (List.mem_cons_of_mem _ hp))

theorem mem_deleteConnection (c : Registry) (s : SessionId) (p : SessionId × Connection) :
    p ∈ deleteConnection c s ↔ p ∈ c ∧ p.1 ≠ s := by
  simp [deleteConnection]

/-- After the deletion the session has no entry. -/
theorem getConnection_deleteConnection_self (c : Registry) (s : SessionId) :
    getConnection (deleteConnection c s) s = none :=
  getConnection_none_of_forall _ _ (fun p hp => ((mem_deleteConnection c s p).mp hp).2)

/-- The deletion does not touch the entry of another session. -/
theorem getConnection_deleteConnection_of_ne (c : Registry) (s t : SessionId) (h : t ≠ s) :
    getConnection (deleteConnection c s) t = getConnection c t := by
  induction c with
  | nil => rfl
  | cons q c ih =>
    obtain ⟨u, e'⟩ := q
    by_cases hus : u = s
    · subst hus
      have hd : deleteConnection ((u, e') :: c) u = deleteConnection c u := by
        simp [deleteConnection]
      rw [hd, ih, getConnection_cons]
      simp [h]
    · have hd : deleteConnection ((u, e') :: c) s = (u, e') :: deleteConnection c s := by
        simp [deleteConnection, hus]
      rw [hd, getConnection_cons, getConnection_cons, ih]

/-- Deleting a session that has no entry changes nothing. -/
theorem deleteConnection_of_none (c : Registry) (s : SessionId)
    (h : getConnection c s = none) : deleteConnection c s = c := by
  unfold deleteConnection
  rw [List.filter_eq_self]
  intro p hp
  simpa using not_mem_of_getConnection_none c s h p hp

/-- Saving under a session that has no entry appends the entry. -/
theorem saveConnection_of_none (c : Registry) (s : SessionId) (e : Connection)
    (h : getConnection c s = none) : saveConnection c s e = c ++ [(s, e)] := by
  unfold saveConnection
  have hany : c.any (fun p => p.1 == s) = false := by
    rw [List.any_eq_false]
    intro p hp
    simpa using not_mem_of_getConnection_none c s h p hp
  simp [hany]

theorem getConnection_append_single (c : Registry) (s t : SessionId) (e : Connection) :
    getConnection (c ++ [(s, e)]) t
      = match getConnection c t with
        | some x => some x
        | none => if t = s then some e else none := by
  induction c with
  | nil => simp [getConnection_cons, getConnection_nil]
  | cons q c ih =>
    obtain ⟨u, e'⟩ := q
    rw [List.cons_append, getConnection_cons, getConnection_cons, ih]
    by_cases htu : t = u <;> simp [htu]

/-! ### The dispatch of the admin handlers -/

/-- On a network type the dispatch issues exactly one statement: `mysqlSql` on mysql and
mariadb, `pgSql` on postgresql. -/
theorem adminDispatch_calls_network (drv : Driver) (connections : Registry)
    (conn : Connection) (mysqlSql pgSql sqliteMessage success : String)
    (h : networkType conn.type) :
    (adminDispatch drv connections conn mysqlSql pgSql sqliteMessage success).calls
      = [DriverCall.query conn.connection
          (if conn.type = "postgresql" then pgSql else mysqlSql)] := by
  unfold adminDispatch runStatement
  rcases h with h | h | h
  · simp only [h, true_or, if_true]
    have : ¬ ("mysql" = "postgresql") := by decide
    simp only [this, if_false]
    split <;> rfl
  · simp only [h, or_true, if_true]
    have : ¬ ("mariadb" = "postgresql") := by decide
    simp only [this, if_false]
    split <;> rfl
  · have : ¬ ("postgresql" = "mysql" ∨ "postgresql" = "mariadb") := by decide
    simp only [h, this, if_false, if_true]
    split <;> rfl

/-- On sqlite the dispatch answers `400` with the sqlite message and calls no driver. -/
theorem adminDispatch_sqlite (drv : Driver) (connections : Registry)
    (conn : Connection) (mysqlSql pgSql sqliteMessage success : String)
    (h : conn.type = "sqlite") :
    adminDispatch drv connections conn mysqlSql pgSql sqliteMessage success
      = ⟨400, Body.failure sqliteMessage, connections, [], [], none⟩ := by
  unfold adminDispatch
  have h1 : ¬ ("sqlite" = "mysql" ∨ "sqlite" = "mariadb") := by decide
  have h2 : ¬ ("sqlite" = "postgresql") := by decide
  simp only [h, h1, h2, if_false, if_true, reject]

/-- The dispatch never changes the registry. -/
theorem adminDispatch_connections (drv : Driver) (connections : Registry)
    (conn : Connection) (mysqlSql pgSql sqliteMessage success : String) :
    (adminDispatch drv connections conn mysqlSql pgSql sqliteMessage success).connections
      = connections := by
  unfold adminDispatch runStatement
  split
  · split <;> rfl
  · split
    · split <;> rfl
    · split <;> rfl

/-! ### C1: no connection, no operation -/

/-- C1: when the session has no entry in the registry, each of the seven data operations
answers `400` with `success: false` and the message `No active connection`, calls no
driver and leaves the registry as it was, whatever the name, user name, password, host or
query of the request (valid or not): the connection check comes first. -/
theorem no_connection_rejects_every_data_operation (drv : Driver) (connections : Registry)
    (sessionId : SessionId) (name username password host query : Option String)
    (h : getConnection connections sessionId = none) :
    listDatabases drv connections sessionId
        = ⟨400, Body.failure "No active connection", connections, [], [], none⟩
    ∧ createDatabase drv connections sessionId name
        = ⟨400, Body.failure "No active connection", connections, [], [], none⟩
    ∧ deleteDatabase drv connections sessionId name
        = ⟨400, Body.failure "No active connection", connections, [], [], none⟩
    ∧ listUsers drv connections sessionId
        = ⟨400, Body.failure "No active connection", connections, [], [], none⟩
    ∧ createUser drv connections sessionId username password host
        = ⟨400, Body.failure "No active connection", connections, [], [], none⟩
    ∧ deleteUser drv connections sessionId username host
        = ⟨400, Body.failure "No active connection", connections, [], [], none⟩
    ∧ executeQuery drv connections sessionId query
        = ⟨400, Body.failure "No active connection", connections, [], [], none⟩ := by
  simp only [listDatabases, createDatabase, deleteDatabase, listUsers, createUser, deleteUser,
    executeQuery, h, noActiveConnection, reject, and_self]

/-- C1 at a concrete input: session `s2` is not registered, the name `a-b` is invalid and
the query is blank, and still the answer is the no-connection error. -/
theorem no_connection_rejects_every_data_operation_witness :
    getConnection [("s1", mysqlConn)] "s2" = none
    ∧ createDatabase quietDriver [("s1", mysqlConn)] "s2" (some "a-b")
        = ⟨400, Body.failure "No active connection", [("s1", mysqlConn)], [], [], none⟩
    ∧ executeQuery quietDriver [("s1", mysqlConn)] "s2" (some "  ")
        = ⟨400, Body.failure "No active connection", [("s1", mysqlConn)], [], [], none⟩ :=
  have h : getConnection [("s1", mysqlConn)] "s2" = none := by decide
  ⟨h,
   (no_connection_rejects_every_data_operation quietDriver [("s1", mysqlConn)] "s2"
      (some "a-b") none none none (some "  ") h).2.1,
   (no_connection_rejects_every_data_operation quietDriver [("s1", mysqlConn)] "s2"
      (some "a-b") none none none (some "  ") h).2.2.2.2.2.2⟩

/-! ### C2: identifier validation -/

/-- C2: for a session with a connection of any type and any name string, each of create
database, delete database, create user and delete user goes on to its type dispatch when
the name is valid (non-empty, every character in `[A-Za-z0-9_]`) and otherwise answers
`400` with `success: false`, calls no driver and leaves the registry as it was; on mysql,
mariadb and postgresql the handler calls the driver if and only if the name is valid, and
then with exactly one statement. -/
theorem name_validation_gates_dispatch (drv : Driver) (connections : Registry)
    (sessionId : SessionId) (conn : Connection) (name : String) (password host : Option String)
    (h : getConnection connections sessionId = some conn) :
    (validName name →
        createDatabase drv connections sessionId (some name)
          = createDatabaseDispatch drv connections conn (some name)
      ∧ deleteDatabase drv connections sessionId (some name)
          = deleteDatabaseDispatch drv connections conn (some name)
      ∧ createUser drv connections sessionId (some name) password host
          = createUserDispatch drv connections conn (some name) password host
      ∧ deleteUser drv connections sessionId (some name) host
          = deleteUserDispatch drv connections conn (some name) host)
    ∧ (¬ validName name →
        createDatabase drv connections sessionId (some name)
          = ⟨400, Body.failure
              "Invalid database name. Use only letters, numbers, and underscores.",
              connections, [], [], none⟩
      ∧ deleteDatabase drv connections sessionId (some name)
          = ⟨400, Body.failure "Invalid database name", connections, [], [], none⟩
      ∧ createUser drv connections sessionId (some name) password host
          = ⟨400, Body.failure
              "Invalid username. Use only letters, numbers, and underscores.",
              connections, [], [], none⟩
      ∧ deleteUser drv connections sessionId (some name) host
          = ⟨400, Body.failure "Invalid username", connections, [], [], none⟩)
    ∧ (networkType conn.type →
        ((createDatabase drv connections sessionId (some name)).calls ≠ [] ↔ validName name)
      ∧ ((deleteDatabase drv connections sessionId (some name)).calls ≠ [] ↔ validName name)
      ∧ ((createUser drv connections sessionId (some name) password host).calls ≠ []
          ↔ validName name)
      ∧ ((deleteUser drv connections sessionId (some name) host).calls ≠ []
          ↔ validName name)
      ∧ (validName name →
          (∃ sql, (createDatabase drv connections sessionId (some name)).calls
            = [DriverCall.query conn.connection sql])
        ∧ (∃ sql, (deleteDatabase drv connections sessionId (some name)).calls
            = [DriverCall.query conn.connection sql])
        ∧ (∃ sql, (createUser drv connections sessionId (some name) password host).calls
            = [DriverCall.query conn.connection sql])
        ∧ (∃ sql, (deleteUser drv connections sessionId (some name) host).calls
            = [DriverCall.query conn.connection sql]))) := by
  have hv : validName name → nameRejected (some name) = false :=
    (nameRejected_eq_false_iff name).mpr
  have hi : ¬ validName name → nameRejected (some name) = true := by
    intro hn
    cases hr : nameRejected (some name) with
    | true => rfl
    | false => exact absurd ((nameRejected_eq_false_iff name).mp hr) hn
  refine ⟨?_, ?_, ?_⟩
  · intro hval
    simp only [createDatabase, deleteDatabase, createUser, deleteUser, h, hv hval,
      Bool.false_eq_true, if_false, and_self]
  · intro hinv
    simp only [createDatabase, deleteDatabase, createUser, deleteUser, h, hi hinv,
      if_true, reject, and_self]
  · intro hnet
    by_cases hval : validName name
    · simp only [createDatabase, deleteDatabase, createUser, deleteUser, h, hv hval,
        Bool.false_eq_true, if_false, createDatabaseDispatch, deleteDatabaseDispatch,
        createUserDispatch, deleteUserDispatch, adminDispatch_calls_network _ _ _ _ _ _ _ hnet,
        hval, iff_true, ne_eq, List.cons_ne_nil, not_false_eq_true, true_and, forall_const]
      exact ⟨⟨_, rfl⟩, ⟨_, rfl⟩, ⟨_, rfl⟩, ⟨_, rfl⟩⟩
    · simp only [createDatabase, deleteDatabase, createUser, deleteUser, h, hi hval,
        if_true, reject, hval, iff_false, ne_eq, not_true_eq_false, not_false_eq_true,
        true_and, false_imp_iff, and_self]

/-- C2 at a concrete input: on a registered mysql connection the name `a-b` is not
valid and create database answers `400` without calling the driver. -/
theorem name_validation_gates_dispatch_witness :
    getConnection [("s1", mysqlConn)] "s1" = some mysqlConn
    ∧ ¬ validName "a-b"
    ∧ createDatabase quietDriver [("s1", mysqlConn)] "s1" (some "a-b")
        = ⟨400, Body.failure
            "Invalid database name. Use only letters, numbers, and underscores.",
            [("s1", mysqlConn)], [], [], none⟩ :=
  have h : getConnection [("s1", mysqlConn)] "s1" = some mysqlConn := by decide
  have hn : ¬ validName "a-b" := by
    intro hv
    have := hv.2 '-' (by decide)
    revert this
    decide
  ⟨h, hn,
   ((name_validation_gates_dispatch quietDriver [("s1", mysqlConn)] "s1" mysqlConn "a-b"
      none none h).2.1 hn).1⟩

/-! ### C3: sqlite sessions -/

/-- C3, refuted as stated: on a sqlite session create database with the name `a-b`
answers with the validation message, not with the message that SQLite does not support
the operation. -/
theorem sqlite_invalid_name_gets_validation_error :
    getConnection [("s1", sqliteConn)] "s1" = some sqliteConn
    ∧ sqliteConn.type = "sqlite"
    ∧ createDatabase quietDriver [("s1", sqliteConn)] "s1" (some "a-b")
        = ⟨400, Body.failure
            "Invalid database name. Use only letters, numbers, and underscores.",
            [("s1", sqliteConn)], [], [], none⟩
    ∧ (createDatabase quietDriver [("s1", sqliteConn)] "s1" (some "a-b")).body
        ≠ Body.failure "SQLite does not support CREATE DATABASE. Use a file path instead." := by
  decide

/-- C3, amended: on a sqlite session every one of create database, delete database, list
users, create user and delete user answers `400` with `success: false`, calls no driver
and leaves the registry as it was, for every request input.  List users always carries
the SQLite message; the other four carry the SQLite message when the name is valid and
the validation message when the name is invalid or missing, because the name is checked
before the type. -/
theorem sqlite_admin_operations_rejected (drv : Driver) (connections : Registry)
    (sessionId : SessionId) (conn : Connection) (name : String) (password host : Option String)
    (h : getConnection connections sessionId = some conn) (ht : conn.type = "sqlite") :
    listUsers drv connections sessionId
        = ⟨400, Body.failure "SQLite does not have a user management system",
            connections, [], [], none⟩
    ∧ createDatabase drv connections sessionId (some name)
        = ⟨400, Body.failure
            (if validName name
              then "SQLite does not support CREATE DATABASE. Use a file path instead."
              else "Invalid database name. Use only letters, numbers, and underscores."),
            connections, [], [], none⟩
    ∧ deleteDatabase drv connections sessionId (some name)
        = ⟨400, Body.failure
            (if validName name then "SQLite does not support DROP DATABASE"
              else "Invalid database name"),
            connections, [], [], none⟩
    ∧ createUser drv connections sessionId (some name) password host
        = ⟨400, Body.failure
            (if validName name then "SQLite does not support user management"
              else "Invalid username. Use only letters, numbers, and underscores."),
            connections, [], [], none⟩
    ∧ deleteUser drv connections sessionId (some name) host
        = ⟨400, Body.failure
            (if validName name then "SQLite does not support user management"
              else "Invalid username"),
            connections, [], [], none⟩
    ∧ createDatabase drv connections sessionId none
        = ⟨400, Body.failure
            "Invalid database name. Use only letters, numbers, and underscores.",
            connections, [], [], none⟩
    ∧ deleteDatabase drv connections sessionId none
        = ⟨400, Body.failure "Invalid database name", connections, [], [], none⟩
    ∧ createUser drv connections sessionId none password host
        = ⟨400, Body.failure
            "Invalid username. Use only letters, numbers, and underscores.",
            connections, [], [], none⟩
    ∧ deleteUser drv connections sessionId none host
        = ⟨400, Body.failure "Invalid username", connections, [], [], none⟩ := by
  have h1 : ¬ ("sqlite" = "mysql" ∨ "sqlite" = "mariadb") := by decide
  have h2 : ¬ ("sqlite" = "postgresql") := by decide
  refine ⟨?_, ?_, ?_, ?_, ?_, ?_, ?_, ?_, ?_⟩
  · simp only [listUsers, h, listUsersDispatch, ht, h1, h2, if_false, if_true, reject]
  all_goals
    first
    | (simp only [createDatabase, deleteDatabase, createUser, deleteUser, h,
        nameRejected_none, if_true, reject]; done)
    | (by_cases hval : validName name
       · simp only [createDatabase, deleteDatabase, createUser, deleteUser, h,
           (nameRejected_eq_false_iff name).mpr hval, Bool.false_eq_true, if_false,
           createDatabaseDispatch, deleteDatabaseDispatch, createUserDispatch,
           deleteUserDispatch, adminDispatch_sqlite _ _ _ _ _ _ _ ht, hval, if_true]
       · have hr : nameRejected (some name) = true := by
           cases hr : nameRejected (some name) with
           | true => rfl
           | false => exact absurd ((nameRejected_eq_false_iff name).mp hr) hval
         simp only [createDatabase, deleteDatabase, createUser, deleteUser, h, hr,
           if_true, reject, hval, if_false])

/-- C3, amended, at a concrete input: a valid name on a sqlite session gets the SQLite
message. -/
theorem sqlite_admin_operations_rejected_witness :
    getConnection [("s1", sqliteConn)] "s1" = some sqliteConn
    ∧ sqliteConn.type = "sqlite"
    ∧ listUsers quietDriver [("s1", sqliteConn)] "s1"
        = ⟨400, Body.failure "SQLite does not have a user management system",
            [("s1", sqliteConn)], [], [], none⟩ :=
  have h : getConnection [("s1", sqliteConn)] "s1" = some sqliteConn := by decide
  ⟨h, rfl,
   (sqlite_admin_operations_rejected quietDriver [("s1", sqliteConn)] "s1" sqliteConn
      "shop" (some "pw") none h rfl).1⟩

/-! ### C4: a failed open -/

/-- The three ways the test handler ends: the type is not supported; a step inside the
`try` threw; or every step went through and the new object is registered. -/
theorem testConnection_cases (drv : Driver) (connections : Registry)
    (sessionId : SessionId) (req : TestRequest) :
    ((∀ t, req.type = some t → supportedType t = false)
      ∧ testConnection drv connections sessionId req
          = ⟨400, Body.failure "Unsupported database type", connections, [], [], none⟩)
    ∨ (∃ calls e, calls ≠ []
        ∧ testConnection drv connections sessionId req
          = ⟨500, Body.failure ("Connection failed: " ++ e), connections, calls, [], none⟩)
    ∨ (∃ type h calls info unc, req.type = some type ∧ supportedType type = true
        ∧ openedConnection drv req type = some h
        ∧ (∀ x, DriverCall.endCall x ∈ calls ∨ DriverCall.closeCall x ∈ calls
            → createdBy drv req x)
        ∧ info.type = type
        ∧ testConnection drv connections sessionId req
          = finishOpen drv connections sessionId type h req calls
              (Body.testResult "Connection successful!" info) unc) := by
  unfold testConnection
  cases hty : req.type with
  | none => left; exact ⟨(by intro t ht; cases ht), rfl⟩
  | some type =>
    simp only
    by_cases h1 : type = "mysql" ∨ type = "mariadb"
    · simp only [h1, if_true]
      cases a0 : drv.mysqlCreateConnection 0 (mysqlOptions req) with
      | error e => right; left; refine ⟨_, e, ?_, rfl⟩; simp
      | ok probe =>
        dsimp only
        cases a1 : drv.mysqlQuery 1 probe "SELECT VERSION() as version" with
        | error e => right; left; refine ⟨_, e, ?_, rfl⟩; simp
        | ok res =>
          dsimp only
          cases a2 : mysqlFirstVersion res.rows with
          | error e => right; left; refine ⟨_, e, ?_, rfl⟩; simp
          | ok version =>
            dsimp only
            cases a3 : drv.connEnd 2 probe with
            | error e => right; left; refine ⟨_, e, ?_, rfl⟩; simp
            | ok u =>
              dsimp only
              cases a4 : drv.mysqlCreateConnection 3 (mysqlOptions req) with
              | error e => right; left; refine ⟨_, e, ?_, rfl⟩; simp
              | ok connection =>
                dsimp only
                right; right
                refine ⟨type, connection, _, _, _, rfl, ?_, ?_, ?_, ?_, rfl⟩
                · rcases h1 with h1 | h1 <;> subst h1 <;> rfl
                · simp only [openedConnection, h1, if_true, a4]; rfl
                · intro x hx
                  simp only [List.mem_cons, List.mem_singleton, DriverCall.endCall.injEq,
                    List.not_mem_nil, or_false, false_or, reduceCtorEq] at hx
                  subst hx
                  exact Or.inl ⟨0, a0⟩
                · rfl
    · simp only [h1, if_false]
      by_cases h2 : type = "postgresql"
      · simp only [h2, if_true]
        cases a0 : drv.pgClientNew 0 (pgOptions req) with
        | error e => right; left; refine ⟨_, e, ?_, rfl⟩; simp
        | ok connection =>
          dsimp only
          cases a1 : drv.pgConnect 1 connection with
          | error e => right; left; refine ⟨_, e, ?_, rfl⟩; simp
          | ok u =>
            dsimp only
            cases a2 : drv.pgQuery 2 connection "SELECT version()" with
            | error e => right; left; refine ⟨_, e, ?_, rfl⟩; simp
            | ok result =>
              dsimp only
              cases a3 : firstVersion result.rows with
              | error e => right; left; refine ⟨_, e, ?_, rfl⟩; simp
              | ok version =>
                dsimp only
                right; right
                refine ⟨"postgresql", connection, _, _, _, rfl, rfl, ?_, ?_, ?_, rfl⟩
                · have hn : ¬ ("postgresql" = "mysql" ∨ "postgresql" = "mariadb") := by decide
                  simp only [openedConnection, hn, if_false, if_true, a0]; rfl
                · intro x hx
                  simp [reduceCtorEq] at hx
                · rfl
      · simp only [h2, if_false]
        by_cases h3 : type = "sqlite"
        · simp only [h3, if_true]
          cases a0 : drv.sqliteDatabaseNew 0 (orDefault req.database ":memory:") with
          | error e => right; left; refine ⟨_, e, ?_, rfl⟩; simp
          | ok pair =>
            dsimp only
            obtain ⟨connection, openError⟩ := pair
            right; right
            refine ⟨"sqlite", connection, _, _, _, rfl, rfl, ?_, ?_, ?_, rfl⟩
            · have hn1 : ¬ ("sqlite" = "mysql" ∨ "sqlite" = "mariadb") := by decide
              have hn2 : ¬ ("sqlite" = "postgresql") := by decide
              simp only [openedConnection, hn1, hn2, if_false, if_true, a0]; rfl
            · intro x hx
              simp [reduceCtorEq] at hx
            · rfl
        · left
          simp only [h3, if_false]
          refine ⟨?_, rfl⟩
          intro t ht
          cases ht
          simp only [not_or] at h1
          simp [supportedType, h1.1, h1.2, h2, h3]


/-- Whenever the test handler does not answer `success: true`, the registry is the one
it started from, the status is `400` or `500`, the body is a failure and nothing is
thrown outside the handler. -/
theorem testConnection_failure_keeps_registry (drv : Driver) (connections : Registry)
    (sessionId : SessionId) (req : TestRequest)
    (h : (testConnection drv connections sessionId req).body.success ≠ some true) :
    (testConnection drv connections sessionId req).connections = connections
    ∧ ((testConnection drv connections sessionId req).status = 400
        ∨ (testConnection drv connections sessionId req).status = 500)
    ∧ (∃ m, (testConnection drv connections sessionId req).body = Body.failure m)
    ∧ (testConnection drv connections sessionId req).uncaught = none := by
  rcases testConnection_cases drv connections sessionId req with
    ⟨_, heq⟩ | ⟨calls, e, _, heq⟩ | ⟨type, hd, calls, info, unc, _, _, _, _, _, heq⟩
  · rw [heq]; exact ⟨rfl, Or.inl rfl, ⟨_, rfl⟩, rfl⟩
  · rw [heq]; exact ⟨rfl, Or.inr rfl, ⟨_, rfl⟩, rfl⟩
  · rw [heq] at h
    exact absurd rfl h

/-- C4, the failing input evaluated: sqlite3 cannot open the file of the request, and
the handler answers `200` with `success: true`, registers the unusable object (after
closing and removing the session's earlier connection, if it had one) and the error is
thrown from the callback, outside the handler. -/
theorem sqlite_open_failure_answers_success :
    testConnection cantOpenDriver [] "s1" cantOpenRequest
      = ⟨200,
          Body.testResult "Connection successful!"
            ⟨none, some "/no/such/dir/test.db", "sqlite"⟩,
          [("s1", ⟨"sqlite", 100, ⟨none, none, none, some "/no/such/dir/test.db"⟩⟩)],
          [DriverCall.sqliteDatabaseNew "/no/such/dir/test.db"],
          [],
          some "SQLITE_CANTOPEN: unable to open database file"⟩
    ∧ testConnection cantOpenDriver [("s1", sqliteConn)] "s1" cantOpenRequest
      = ⟨200,
          Body.testResult "Connection successful!"
            ⟨none, some "/no/such/dir/test.db", "sqlite"⟩,
          [("s1", ⟨"sqlite", 100, ⟨none, none, none, some "/no/such/dir/test.db"⟩⟩)],
          [DriverCall.sqliteDatabaseNew "/no/such/dir/test.db", DriverCall.closeCall 3],
          [],
          some "SQLITE_CANTOPEN: unable to open database file"⟩ := by
  decide

/-! ### C6: `closeConnection` and disconnect -/

/-- The registry after `closeConnection` is the registry without the session. -/
theorem closeConnection_connections (drv : Driver) (step : Nat) (connections : Registry)
    (sessionId : SessionId) :
    (closeConnection drv step connections sessionId).connections
      = deleteConnection connections sessionId := by
  unfold closeConnection
  cases h : getConnection connections sessionId with
  | none => exact (deleteConnection_of_none _ _ h).symm
  | some conn =>
    dsimp only
    split
    · rfl
    · split
      · rfl
      · split <;> rfl

/-- Without an entry `closeConnection` does nothing. -/
theorem closeConnection_of_none (drv : Driver) (step : Nat) (connections : Registry)
    (sessionId : SessionId) (h : getConnection connections sessionId = none) :
    closeConnection drv step connections sessionId = ⟨connections, [], []⟩ := by
  simp only [closeConnection, h]

/-- With an entry of a supported type `closeConnection` makes exactly the shutdown call
of that entry. -/
theorem closeConnection_calls_of_some (drv : Driver) (step : Nat) (connections : Registry)
    (sessionId : SessionId) (conn : Connection)
    (h : getConnection connections sessionId = some conn)
    (ht : supportedType conn.type = true) :
    (closeConnection drv step connections sessionId).calls = [shutdownCall conn] := by
  simp only [closeConnection, h, shutdownCall]
  simp only [supportedType, Bool.or_eq_true, beq_iff_eq] at ht
  rcases ht with ((ht | ht) | ht) | ht
  · have hn : ¬ ("mysql" = "sqlite") := by decide
    simp only [ht, true_or, if_true, hn, if_false]
  · have hn : ¬ ("mariadb" = "sqlite") := by decide
    simp only [ht, or_true, if_true, hn, if_false]
  · have hn : ¬ ("postgresql" = "sqlite") := by decide
    have hm : ¬ ("postgresql" = "mysql" ∨ "postgresql" = "mariadb") := by decide
    simp only [ht, hm, if_true, hn, if_false]
  · have hm : ¬ ("sqlite" = "mysql" ∨ "sqlite" = "mariadb") := by decide
    have hp : ¬ ("sqlite" = "postgresql") := by decide
    simp only [ht, hm, hp, if_true, if_false]

/-- The registry and the driver calls of `closeConnection` do not depend on what the
driver answers nor on the step. -/
theorem closeConnection_driver_independent (drv drv' : Driver) (step step' : Nat)
    (connections : Registry) (sessionId : SessionId) :
    (closeConnection drv step connections sessionId).connections
      = (closeConnection drv' step' connections sessionId).connections
    ∧ (closeConnection drv step connections sessionId).calls
      = (closeConnection drv' step' connections sessionId).calls := by
  unfold closeConnection
  cases h : getConnection connections sessionId with
  | none => exact ⟨rfl, rfl⟩
  | some conn =>
    dsimp only
    split
    · exact ⟨rfl, rfl⟩
    · split
      · exact ⟨rfl, rfl⟩
      · split <;> exact ⟨rfl, rfl⟩

/-- C6: `closeConnection(s)` leaves the registry as it was and calls no driver when `s`
has no entry.  When `s` has an entry (of one of the four types of the data model) it
makes the shutdown call of that entry's handle, once and nothing else; afterwards `s` has
no entry and the entries of every other session are the same, in the same order; none of
this depends on whether the shutdown call raised an error.  The disconnect endpoint
always answers `200` with `success: true` and throws nothing. -/
theorem closeConnection_removes_entry (drv : Driver) (step : Nat) (connections : Registry)
    (sessionId : SessionId) :
    (getConnection connections sessionId = none →
        closeConnection drv step connections sessionId = ⟨connections, [], []⟩)
    ∧ (∀ conn, getConnection connections sessionId = some conn →
        supportedType conn.type = true →
          (closeConnection drv step connections sessionId).calls = [shutdownCall conn]
          ∧ (closeConnection drv step connections sessionId).calls.count (shutdownCall conn) = 1)
    ∧ getConnection (closeConnection drv step connections sessionId).connections sessionId
        = none
    ∧ (∀ t, t ≠ sessionId →
        getConnection (closeConnection drv step connections sessionId).connections t
          = getConnection connections t)
    ∧ (closeConnection drv step connections sessionId).connections
        = connections.filter (fun p => p.1 != sessionId)
    ∧ (∀ (drv' : Driver),
        (closeConnection drv' step connections sessionId).connections
          = (closeConnection drv step connections sessionId).connections
        ∧ (closeConnection drv' step connections sessionId).calls
          = (closeConnection drv step connections sessionId).calls)
    ∧ (disconnect drv connections sessionId).status = 200
    ∧ (disconnect drv connections sessionId).body = Body.message "Disconnected successfully"
    ∧ (disconnect drv connections sessionId).uncaught = none
    ∧ (disconnect drv connections sessionId).connections
        = (closeConnection drv 0 connections sessionId).connections
    ∧ (disconnect drv connections sessionId).calls
        = (closeConnection drv 0 connections sessionId).calls := by
  refine ⟨closeConnection_of_none drv step connections sessionId, ?_, ?_, ?_, ?_, ?_,
    rfl, rfl, rfl, rfl, rfl⟩
  · intro conn h ht
    rw [closeConnection_calls_of_some drv step connections sessionId conn h ht]
    exact ⟨rfl, by simp⟩
  · rw [closeConnection_connections]
    exact getConnection_deleteConnection_self _ _
  · intro t ht
    rw [closeConnection_connections]
    exact getConnection_deleteConnection_of_ne _ _ _ ht
  · rw [closeConnection_connections]; rfl
  · intro drv'
    exact closeConnection_driver_independent drv' drv step step connections sessionId

/-- C6 at a concrete input: the shutdown call of the mysql connection of `s1` raises an
error; the call is made once, the error is only logged, `s1` loses its entry, `s2` keeps
its own and disconnect answers `200`. -/
theorem closeConnection_removes_entry_witness :
    closeConnection (failingDriver "read ECONNRESET") 0
        [("s1", mysqlConn), ("s2", sqliteConn)] "s1"
      = ⟨[("s2", sqliteConn)], [DriverCall.endCall 1],
          ["Error closing connection: read ECONNRESET"]⟩
    ∧ (closeConnection (failingDriver "read ECONNRESET") 0
        [("s1", mysqlConn), ("s2", sqliteConn)] "s1").calls.count (shutdownCall mysqlConn) = 1
    ∧ getConnection (closeConnection (failingDriver "read ECONNRESET") 0
        [("s1", mysqlConn), ("s2", sqliteConn)] "s1").connections "s1" = none
    ∧ (disconnect (failingDriver "read ECONNRESET")
        [("s1", mysqlConn), ("s2", sqliteConn)] "s1").status = 200 :=
  have hall := closeConnection_removes_entry (failingDriver "read ECONNRESET") 0
    [("s1", mysqlConn), ("s2", sqliteConn)] "s1"
  ⟨by decide, (hall.2.1 mysqlConn (by decide) (by decide)).2, hall.2.2.1,
    hall.2.2.2.2.2.2.1⟩

/-! ### C5: a successful open -/

/-- The object a successful test registers is one the driver created for the request. -/
theorem createdBy_of_openedConnection (drv : Driver) (req : TestRequest) (type : String)
    (h : Handle) (ho : openedConnection drv req type = some h) : createdBy drv req h := by
  unfold openedConnection at ho
  split at ho
  · cases a : drv.mysqlCreateConnection 3 (mysqlOptions req) with
    | error e => simp [a, Except.toOption] at ho
    | ok x =>
      simp only [a, Except.toOption, Option.some.injEq] at ho
      subst ho
      exact Or.inl ⟨3, a⟩
  · split at ho
    · cases a : drv.pgClientNew 0 (pgOptions req) with
      | error e => simp [a, Except.toOption] at ho
      | ok x =>
        simp only [a, Except.toOption, Option.some.injEq] at ho
        subst ho
        exact Or.inr (Or.inl ⟨0, a⟩)
    · split at ho
      · cases a : drv.sqliteDatabaseNew 0 (orDefault req.database ":memory:") with
        | error e => simp [a, Except.toOption] at ho
        | ok x =>
          obtain ⟨x, e⟩ := x
          simp only [a, Except.toOption, Option.map_some', Option.some.injEq] at ho
          subst ho
          exact Or.inr (Or.inr ⟨0, e, a⟩)
      · cases ho

/-- The registry after the end of the `try` block: the old entry of the session is gone
and the new entry is the last one. -/
theorem finishOpen_connections (drv : Driver) (connections : Registry)
    (sessionId : SessionId) (type : String) (h : Handle) (req : TestRequest)
    (calls : List DriverCall) (body : Body) (unc : Option String) :
    (finishOpen drv connections sessionId type h req calls body unc).connections
      = deleteConnection connections sessionId
          ++ [(sessionId, ⟨type, h, ⟨req.host, req.port, req.username, req.database⟩⟩)] := by
  unfold finishOpen
  dsimp only
  rw [closeConnection_connections,
    saveConnection_of_none _ _ _ (getConnection_deleteConnection_self _ _)]

theorem finishOpen_calls (drv : Driver) (connections : Registry)
    (sessionId : SessionId) (type : String) (h : Handle) (req : TestRequest)
    (calls : List DriverCall) (body : Body) (unc : Option String) :
    (finishOpen drv connections sessionId type h req calls body unc).calls
      = calls ++ (closeConnection drv calls.length connections sessionId).calls := rfl

/-- C5: after a test-connection request of type `X` that succeeds, the registry holds
exactly one entry for the session; its type is `X`, its handle is the object the last
opening call of the request returned and its config is the request's; the entries of the
other sessions are as before.  If the session had an entry before (of one of the four
types), and the driver creates new objects rather than one the registry already holds,
and no object is held by two entries, then the shutdown call of the earlier handle was
made exactly once during the request and no entry of the registry holds that handle any
more. -/
theorem successful_test_registers_new_connection (drv : Driver) (connections : Registry)
    (sessionId : SessionId) (req : TestRequest)
    (hok : (testConnection drv connections sessionId req).body.success = some true) :
    ∃ type h,
      req.type = some type ∧ supportedType type = true
      ∧ openedConnection drv req type = some h
      ∧ (testConnection drv connections sessionId req).connections.filter
            (fun p => p.1 == sessionId)
          = [(sessionId, ⟨type, h, ⟨req.host, req.port, req.username, req.database⟩⟩)]
      ∧ getConnection (testConnection drv connections sessionId req).connections sessionId
          = some ⟨type, h, ⟨req.host, req.port, req.username, req.database⟩⟩
      ∧ (∀ t, t ≠ sessionId →
          getConnection (testConnection drv connections sessionId req).connections t
            = getConnection connections t)
      ∧ (∀ old, getConnection connections sessionId = some old →
          supportedType old.type = true →
          createsFresh drv req connections → handlesDistinct connections →
            (testConnection drv connections sessionId req).calls.count (shutdownCall old) = 1
            ∧ ∀ p ∈ (testConnection drv connections sessionId req).connections,
                p.2.connection ≠ old.connection) := by
  rcases testConnection_cases drv connections sessionId req with
    ⟨_, heq⟩ | ⟨calls, e, _, heq⟩ | ⟨type, h, calls, info, unc, hty, hsup, hopen, hcalls, _, heq⟩
  · rw [heq] at hok; cases hok
  · rw [heq] at hok; cases hok
  · refine ⟨type, h, hty, hsup, hopen, ?_, ?_, ?_, ?_⟩
    · rw [heq, finishOpen_connections, List.filter_append]
      have h0 : List.filter (fun p => p.1 == sessionId) (deleteConnection connections sessionId)
          = [] := by
        rw [List.filter_eq_nil_iff]
        intro p hp
        simpa using ((mem_deleteConnection connections sessionId p).mp hp).2
      rw [h0]
      simp
    · rw [heq, finishOpen_connections, getConnection_append_single,
        getConnection_deleteConnection_self]
      simp
    · intro t ht
      rw [heq, finishOpen_connections, getConnection_append_single,
        getConnection_deleteConnection_of_ne _ _ _ ht]
      cases getConnection connections t with
      | none => simp [ht]
      | some x => rfl
    · intro old hold holdty hfresh hdist
      have hmem : (sessionId, old) ∈ connections := mem_of_getConnection _ _ _ hold
      have hnew : ¬ createdBy drv req old.connection := hfresh _ hmem
      constructor
      · rw [heq, finishOpen_calls,
          closeConnection_calls_of_some drv _ connections sessionId old hold holdty,
          List.count_append]
        have hnot : shutdownCall old ∉ calls := by
          intro hin
          apply hnew
          apply hcalls
          unfold shutdownCall at hin
          split at hin
          · exact Or.inr hin
          · exact Or.inl hin
        rw [List.count_eq_zero_of_not_mem hnot]
        simp
      · intro p hp
        rw [heq, finishOpen_connections, List.mem_append, List.mem_singleton] at hp
        rcases hp with hp | hp
        · obtain ⟨hpc, hps⟩ := (mem_deleteConnection connections sessionId p).mp hp
          intro hEq
          have := List.inj_on_of_nodup_map hdist hpc hmem hEq
          rw [this] at hps
          exact hps rfl
        · subst hp
          intro hEq
          apply hnew
          rw [← hEq]
          exact createdBy_of_openedConnection drv req type h hopen

/-- C5 at a concrete input: a postgresql test on a session that holds a mysql
connection succeeds; the mysql handle `1` is shut down once and is gone, the new entry
holds the object `100` the driver created. -/
theorem successful_test_registers_new_connection_witness :
    (testConnection quietDriver [("s1", mysqlConn), ("s2", sqliteConn)] "s1"
        ⟨some "postgresql", some "pg.example", none, some "app", some "pw", none⟩).body.success
      = some true
    ∧ createsFresh quietDriver
        ⟨some "postgresql", some "pg.example", none, some "app", some "pw", none⟩
        [("s1", mysqlConn), ("s2", sqliteConn)]
    ∧ handlesDistinct [("s1", mysqlConn), ("s2", sqliteConn)]
    ∧ (testConnection quietDriver [("s1", mysqlConn), ("s2", sqliteConn)] "s1"
        ⟨some "postgresql", some "pg.example", none, some "app", some "pw",
          none⟩).calls.count (DriverCall.endCall 1) = 1
    ∧ (∀ p ∈ (testConnection quietDriver [("s1", mysqlConn), ("s2", sqliteConn)] "s1"
        ⟨some "postgresql", some "pg.example", none, some "app", some "pw",
          none⟩).connections, p.2.connection ≠ 1)
    ∧ getConnection
        (testConnection quietDriver [("s1", mysqlConn), ("s2", sqliteConn)] "s1"
          ⟨some "postgresql", some "pg.example", none, some "app", some "pw",
            none⟩).connections "s1"
      = some ⟨"postgresql", 100, ⟨some "pg.example", none, some "app", none⟩⟩ := by
  have hok : (testConnection quietDriver [("s1", mysqlConn), ("s2", sqliteConn)] "s1"
      ⟨some "postgresql", some "pg.example", none, some "app", some "pw", none⟩).body.success
      = some true := by decide
  have hfresh : createsFresh quietDriver
      ⟨some "postgresql", some "pg.example", none, some "app", some "pw", none⟩
      [("s1", mysqlConn), ("s2", sqliteConn)] := by
    intro p hp
    simp only [List.mem_cons, List.mem_singleton, List.not_mem_nil, or_false] at hp
    rcases hp with hp | hp <;> subst hp <;>
      simp only [createdBy, quietDriver, mysqlConn, sqliteConn, Except.ok.injEq,
        Prod.mk.injEq] <;>
      rintro (⟨n, hn⟩ | ⟨n, hn⟩ | ⟨n, e, hn, _⟩) <;>
      exact absurd (show (100 : Nat) + n ≤ 3 from Nat.le_of_eq hn |>.trans (by decide))
        (by omega)
  have hdist : handlesDistinct [("s1", mysqlConn), ("s2", sqliteConn)] := by
    unfold handlesDistinct; decide
  obtain ⟨type, h, hty, _, hopen, _, hget, _, hprior⟩ :=
    successful_test_registers_new_connection quietDriver
      [("s1", mysqlConn), ("s2", sqliteConn)] "s1"
      ⟨some "postgresql", some "pg.example", none, some "app", some "pw", none⟩ hok
  have hold := hprior mysqlConn (by decide) (by decide) hfresh hdist
  refine ⟨hok, hfresh, hdist, hold.1, hold.2, ?_⟩
  simp only [Option.some.injEq] at hty
  subst hty
  have h100 : h = 100 := by
    have : openedConnection quietDriver
        ⟨some "postgresql", some "pg.example", none, some "app", some "pw", none⟩
        "postgresql" = some 100 := by decide
    rw [this] at hopen
    exact (Option.some.inj hopen).symm
  subst h100
  exact hget

/-! ### C7: the data operations do not touch the registry -/

theorem listDatabasesDispatch_connections (drv : Driver) (connections : Registry)
    (conn : Connection) :
    (listDatabasesDispatch drv connections conn).connections = connections := by
  unfold listDatabasesDispatch
  split
  · dsimp only
    split
    · rfl
    · split <;> rfl
  · split
    · dsimp only
      split <;> rfl
    · split <;> rfl

theorem listUsersDispatch_connections (drv : Driver) (connections : Registry)
    (conn : Connection) :
    (listUsersDispatch drv connections conn).connections = connections := by
  unfold listUsersDispatch
  split
  · dsimp only
    split
    · rfl
    · split <;> rfl
  · split
    · dsimp only
      split <;> rfl
    · split <;> rfl

theorem executeQueryDispatch_connections (drv : Driver) (connections : Registry)
    (conn : Connection) (query : String) :
    (executeQueryDispatch drv connections conn query).connections = connections := by
  unfold executeQueryDispatch
  split
  · split <;> rfl
  · split
    · split <;> rfl
    · split
      · split <;> rfl
      · rfl

/-- C7: each of the seven data operations returns the registry it was given, for every
registry, session, request input and driver answer, whether the request succeeds or
ends in a no-connection, validation, unsupported-operation or driver error. -/
theorem data_operations_keep_registry (drv : Driver) (connections : Registry)
    (sessionId : SessionId) (name username password host query : Option String) :
    (listDatabases drv connections sessionId).connections = connections
    ∧ (createDatabase drv connections sessionId name).connections = connections
    ∧ (deleteDatabase drv connections sessionId name).connections = connections
    ∧ (listUsers drv connections sessionId).connections = connections
    ∧ (createUser drv connections sessionId username password host).connections = connections
    ∧ (deleteUser drv connections sessionId username host).connections = connections
    ∧ (executeQuery drv connections sessionId query).connections = connections := by
  unfold listDatabases createDatabase deleteDatabase listUsers createUser deleteUser
    executeQuery
  cases getConnection connections sessionId with
  | none => exact ⟨rfl, rfl, rfl, rfl, rfl, rfl, rfl⟩
  | some conn =>
    dsimp only
    refine ⟨listDatabasesDispatch_connections _ _ _, ?_, ?_,
      listUsersDispatch_connections _ _ _, ?_, ?_, ?_⟩
    · split
      · rfl
      · exact adminDispatch_connections _ _ _ _ _ _ _
    · split
      · rfl
      · exact adminDispatch_connections _ _ _ _ _ _ _
    · split
      · rfl
      · exact adminDispatch_connections _ _ _ _ _ _ _
    · split
      · rfl
      · exact adminDispatch_connections _ _ _ _ _ _ _
    · split
      · rfl
      · exact executeQueryDispatch_connections _ _ _ _

/-! ### C9: the query text -/

/-- C9: on a connected session of any of the four types, a query text that is not blank
is handed to the driver exactly as received, in exactly one driver call (`query` on
mysql, mariadb and postgresql, `all` on sqlite); a query that is missing, empty or
whitespace only is answered `400` with `Query cannot be empty` and no driver call. -/
theorem query_text_reaches_driver_verbatim (drv : Driver) (connections : Registry)
    (sessionId : SessionId) (conn : Connection) (query : String)
    (h : getConnection connections sessionId = some conn)
    (ht : supportedType conn.type = true) :
    (¬ isBlank query →
        (executeQuery drv connections sessionId (some query)).calls
          = [if conn.type = "sqlite" then DriverCall.all conn.connection query
             else DriverCall.query conn.connection query])
    ∧ (isBlank query →
        executeQuery drv connections sessionId (some query)
          = ⟨400, Body.failure "Query cannot be empty", connections, [], [], none⟩)
    ∧ executeQuery drv connections sessionId none
        = ⟨400, Body.failure "Query cannot be empty", connections, [], [], none⟩ := by
  refine ⟨?_, ?_, ?_⟩
  · intro hnb
    have hr : queryRejected (some query) = false := by
      cases hq : queryRejected (some query) with
      | false => rfl
      | true => exact absurd ((queryRejected_some_iff query).mp hq) hnb
    simp only [executeQuery, h, hr, Bool.false_eq_true, if_false, Option.getD_some,
      executeQueryDispatch]
    simp only [supportedType, Bool.or_eq_true, beq_iff_eq] at ht
    rcases ht with ((ht | ht) | ht) | ht
    · have hn : ¬ ("mysql" = "sqlite") := by decide
      simp only [ht, true_or, if_true, hn, if_false]
      split <;> rfl
    · have hn : ¬ ("mariadb" = "sqlite") := by decide
      simp only [ht, or_true, if_true, hn, if_false]
      split <;> rfl
    · have hn : ¬ ("postgresql" = "sqlite") := by decide
      have hm : ¬ ("postgresql" = "mysql" ∨ "postgresql" = "mariadb") := by decide
      simp only [ht, hm, if_true, hn, if_false]
      split <;> rfl
    · have hm : ¬ ("sqlite" = "mysql" ∨ "sqlite" = "mariadb") := by decide
      have hp : ¬ ("sqlite" = "postgresql") := by decide
      simp only [ht, hm, hp, if_true, if_false]
      split <;> rfl
  · intro hb
    simp only [executeQuery, h, (queryRejected_some_iff query).mpr hb, if_true, reject]
  · simp only [executeQuery, h, queryRejected_none, if_true, reject]

/-- C9 at a concrete input: the text keeps its leading and trailing whitespace on the way
to the driver, and a text of blanks and a tab is rejected. -/
theorem query_text_reaches_driver_verbatim_witness :
    getConnection [("s1", pgConn)] "s1" = some pgConn
    ∧ supportedType pgConn.type = true
    ∧ ¬ isBlank "  SELECT 1 as x \n"
    ∧ (executeQuery quietDriver [("s1", pgConn)] "s1" (some "  SELECT 1 as x \n")).calls
        = [DriverCall.query 2 "  SELECT 1 as x \n"]
    ∧ isBlank " \t "
    ∧ executeQuery quietDriver [("s1", pgConn)] "s1" (some " \t ")
        = ⟨400, Body.failure "Query cannot be empty", [("s1", pgConn)], [], [], none⟩ :=
  have h : getConnection [("s1", pgConn)] "s1" = some pgConn := by decide
  have ht : supportedType pgConn.type = true := by decide
  have hnb : ¬ isBlank "  SELECT 1 as x \n" := by
    intro hb
    have := hb 'S' (by decide)
    revert this
    decide
  have hb : isBlank " \t " := by
    intro c hc
    have hc' : c = ' ' ∨ c = '\t' ∨ c = ' ' := by
      have : c ∈ [' ', '\t', ' '] := hc
      simpa using this
    rcases hc' with hc' | hc' | hc' <;> subst hc' <;> decide
  ⟨h, ht, hnb,
   (query_text_reaches_driver_verbatim quietDriver [("s1", pgConn)] "s1" pgConn
      "  SELECT 1 as x \n" h ht).1 hnb,
   hb,
   (query_text_reaches_driver_verbatim quietDriver [("s1", pgConn)] "s1" pgConn
      " \t " h ht).2.1 hb⟩

/-! ### C10: statements without rows -/

/-- C10, refuted as stated: for a data-definition statement on a mysql session the
driver returns a header whose `affectedRows` is `0`, and the response carries the header
as its single row with `rowCount` `1`. -/
theorem mysql_header_is_counted_as_one_row :
    getConnection [("s1", mysqlConn)] "s1" = some mysqlConn
    ∧ ddlDriver.mysqlQuery 0 1 "CREATE TABLE t (id INT)"
        = Except.ok ⟨MysqlRows.header ddlHeader, none⟩
    ∧ ddlHeader.affectedRows = 0
    ∧ executeQuery ddlDriver [("s1", mysqlConn)] "s1" (some "CREATE TABLE t (id INT)")
        = ⟨200, Body.queryResult [ddlHeader.toRow] (some 1) [], [("s1", mysqlConn)],
            [DriverCall.query 1 "CREATE TABLE t (id INT)"], [], none⟩
    ∧ (executeQuery ddlDriver [("s1", mysqlConn)] "s1"
          (some "CREATE TABLE t (id INT)")).body
        ≠ Body.queryResult [ddlHeader.toRow] (some ddlHeader.affectedRows) [] :=
  ⟨by decide, rfl, rfl, by decide, by decide⟩

/-- C10, amended: for a connected session and a query that is not blank, when the
driver returns no rows the response is `200` with `success: true` and
* on mysql and mariadb, if the driver returns a header instead of a row array, `rows`
  holds that header as its single element and `rowCount` is `1`, whatever count the
  header reports; if it returns an empty row array, `rows` is empty and `rowCount` is `0`;
* on postgresql `rows` is empty and `rowCount` is the driver's `rowCount`;
* on sqlite `rows` is empty and `rowCount` is `0`;
and `fields` is the list of the names of the driver's fields, or empty when the driver
gives no fields (always empty on sqlite). -/
theorem rowless_query_response (drv : Driver) (connections : Registry)
    (sessionId : SessionId) (conn : Connection) (query : String)
    (h : getConnection connections sessionId = some conn)
    (hq : ¬ isBlank query) :
    (conn.type = "mysql" ∨ conn.type = "mariadb" →
      (∀ hd fields, drv.mysqlQuery 0 conn.connection query
            = Except.ok ⟨MysqlRows.header hd, fields⟩ →
          executeQuery drv connections sessionId (some query)
            = ⟨200, Body.queryResult [hd.toRow] (some 1) (fieldNames fields), connections,
                [DriverCall.query conn.connection query], [], none⟩)
      ∧ (∀ fields, drv.mysqlQuery 0 conn.connection query
            = Except.ok ⟨MysqlRows.array [], fields⟩ →
          executeQuery drv connections sessionId (some query)
            = ⟨200, Body.queryResult [] (some 0) (fieldNames fields), connections,
                [DriverCall.query conn.connection query], [], none⟩))
    ∧ (conn.type = "postgresql" →
        ∀ rowCount fields, drv.pgQuery 0 conn.connection query
            = Except.ok ⟨[], rowCount, fields⟩ →
          executeQuery drv connections sessionId (some query)
            = ⟨200, Body.queryResult [] rowCount (fieldNames fields), connections,
                [DriverCall.query conn.connection query], [], none⟩)
    ∧ (conn.type = "sqlite" →
        (drv.sqliteAll 0 conn.connection query = Except.ok none
          ∨ drv.sqliteAll 0 conn.connection query = Except.ok (some [])) →
          executeQuery drv connections sessionId (some query)
            = ⟨200, Body.queryResult [] (some 0) [], connections,
                [DriverCall.all conn.connection query], [], none⟩)
    ∧ fieldNames none = []
    ∧ (∀ fs, fieldNames (some fs) = fs.map Field.name) := by
  have hr : queryRejected (some query) = false := by
    cases hq' : queryRejected (some query) with
    | false => rfl
    | true => exact absurd ((queryRejected_some_iff query).mp hq') hq
  have hpm : ¬ ("postgresql" = "mysql" ∨ "postgresql" = "mariadb") := by decide
  have hsm : ¬ ("sqlite" = "mysql" ∨ "sqlite" = "mariadb") := by decide
  have hsp : ¬ ("sqlite" = "postgresql") := by decide
  refine ⟨?_, ?_, ?_, rfl, fun _ => rfl⟩
  · intro ht
    constructor
    · intro hd fields ha
      simp only [executeQuery, h, hr, Bool.false_eq_true, if_false, Option.getD_some,
        executeQueryDispatch, ht, if_true, ha, respond, mysqlQueryBody]
    · intro fields ha
      simp only [executeQuery, h, hr, Bool.false_eq_true, if_false, Option.getD_some,
        executeQueryDispatch, ht, if_true, ha, respond, mysqlQueryBody, List.length_nil]
  · intro ht rowCount fields ha
    simp only [executeQuery, h, hr, Bool.false_eq_true, if_false, Option.getD_some,
      executeQueryDispatch, ht, hpm, if_true, ha, respond, pgQueryBody]
  · intro ht ha
    rcases ha with ha | ha <;>
    simp only [executeQuery, h, hr, Bool.false_eq_true, if_false, Option.getD_some,
      executeQueryDispatch, ht, hsm, hsp, if_true, ha, respond, sqliteQueryBody]

/-- C10, amended, at a concrete input: the data-definition statement on a mysql session
is answered with the header as one row, `rowCount` `1` and no fields. -/
theorem rowless_query_response_witness :
    getConnection [("s1", mysqlConn)] "s1" = some mysqlConn
    ∧ ¬ isBlank "CREATE TABLE t (id INT)"
    ∧ executeQuery ddlDriver [("s1", mysqlConn)] "s1" (some "CREATE TABLE t (id INT)")
        = ⟨200, Body.queryResult [ddlHeader.toRow] (some 1) (fieldNames none),
            [("s1", mysqlConn)], [DriverCall.query 1 "CREATE TABLE t (id INT)"], [], none⟩ :=
  have h : getConnection [("s1", mysqlConn)] "s1" = some mysqlConn := by decide
  have hq : ¬ isBlank "CREATE TABLE t (id INT)" := by
    intro hb
    have := hb 'C' (by decide)
    revert this
    decide
  ⟨h, hq,
   ((rowless_query_response ddlDriver [("s1", mysqlConn)] "s1" mysqlConn
      "CREATE TABLE t (id INT)" h hq).1 (Or.inl rfl)).1 ddlHeader none rfl⟩

/-! ### C8: the response envelope -/

theorem dataContract_clientError (drv : Driver) (type : String) (connections : Registry)
    (m : String) (hm : m ∈ clientErrorMessages) :
    dataContract drv type ⟨400, Body.failure m, connections, [], [], none⟩ := by
  refine ⟨Or.inr ⟨Or.inl rfl, m, rfl⟩, fun _ => ⟨rfl, rfl, m, hm, rfl⟩, ?_⟩
  intro i call e hc
  simp at hc

theorem dataContract_success_without_call (drv : Driver) (type : String)
    (connections : Registry) (body : Body) (hb : body.success = some true) :
    dataContract drv type (respond connections [] body) := by
  refine ⟨Or.inl ⟨rfl, hb⟩, ?_, ?_⟩
  · intro h; cases h
  · intro i call e hc
    simp [respond] at hc

/-- A response after exactly one driver call: the contract holds when the response is
the `500` with the driver's text if the driver raised an error, and otherwise a success
or a `500`. -/
theorem dataContract_single (drv : Driver) (type : String) (out : Outcome)
    (c : DriverCall) (hcalls : out.calls = [c])
    (hok : driverError drv type 0 c = none →
      (out.status = 200 ∧ out.body.success = some true)
      ∨ (out.status = 500 ∧ ∃ m, out.body = Body.failure m))
    (herr : ∀ e, driverError drv type 0 c = some e →
      out.status = 500 ∧ out.body = Body.failure e) :
    dataContract drv type out := by
  have hcases : (out.status = 200 ∧ out.body.success = some true)
      ∨ (out.status = 500 ∧ ∃ m, out.body = Body.failure m) := by
    cases hd : driverError drv type 0 c with
    | none => exact hok hd
    | some e => exact Or.inr ⟨(herr e hd).1, e, (herr e hd).2⟩
  refine ⟨?_, ?_, ?_⟩
  · rcases hcases with h | h
    · exact Or.inl h
    · exact Or.inr ⟨Or.inr h.1, h.2⟩
  · intro h400
    rcases hcases with h | h
    · rw [h.1] at h400; cases h400
    · rw [h.1] at h400; cases h400
  · intro i call e hc hd
    rw [hcalls] at hc
    cases i with
    | zero =>
      simp only [List.getElem?_cons_zero, Option.some.injEq] at hc
      subst hc
      exact herr e hd
    | succ n => simp at hc

/-- The contract of a statement whose result is not read. -/
theorem runStatement_contract {α : Type} (drv : Driver) (type : String)
    (connections : Registry) (call : DriverCall) (r : Except String α) (success : String)
    (hd : driverError drv type 0 call = errorText r) :
    dataContract drv type (runStatement connections call (discard r) success) := by
  apply dataContract_single drv type _ call
  · cases r <;> rfl
  · intro hn
    cases r with
    | error e => rw [hd] at hn; cases hn
    | ok a => exact Or.inl ⟨rfl, rfl⟩
  · intro e he
    cases r with
    | error e' =>
      rw [hd] at he
      simp only [errorText, Option.some.injEq] at he
      subst he
      exact ⟨rfl, rfl⟩
    | ok a => rw [hd] at he; cases he

/-- The contract of the admin dispatch on a connection of a supported type. -/
theorem adminDispatch_contract (drv : Driver) (connections : Registry) (conn : Connection)
    (mysqlSql pgSql sqliteMessage success : String)
    (ht : supportedType conn.type = true) (hm : sqliteMessage ∈ clientErrorMessages) :
    dataContract drv conn.type
      (adminDispatch drv connections conn mysqlSql pgSql sqliteMessage success) := by
  have hpm : ¬ ("postgresql" = "mysql" ∨ "postgresql" = "mariadb") := by decide
  have hmp : ¬ ("mysql" = "postgresql") := by decide
  have hap : ¬ ("mariadb" = "postgresql") := by decide
  simp only [supportedType, Bool.or_eq_true, beq_iff_eq] at ht
  unfold adminDispatch
  rcases ht with ((ht | ht) | ht) | ht
  · simp only [ht, true_or, if_true]
    apply runStatement_contract
    simp only [driverError, hmp, if_false]
  · simp only [ht, or_true, if_true]
    apply runStatement_contract
    simp only [driverError, hap, if_false]
  · simp only [ht, hpm, if_false, if_true]
    apply runStatement_contract
    simp only [driverError, if_true]
  · have hsm : ¬ ("sqlite" = "mysql" ∨ "sqlite" = "mariadb") := by decide
    have hsp : ¬ ("sqlite" = "postgresql") := by decide
    simp only [ht, hsm, hsp, if_false, if_true, reject]
    exact dataContract_clientError drv _ connections sqliteMessage hm

/-- The contract of a response read from a mysql2 answer. -/
theorem mysqlRead_contract (drv : Driver) (type : String) (connections : Registry)
    (h : Handle) (sql : String) (hty : ¬ type = "postgresql")
    (f : MysqlResult → Except String Body)
    (hf : ∀ res body, f res = Except.ok body → body.success = some true) :
    dataContract drv type
      (match drv.mysqlQuery 0 h sql with
        | Except.error e => reject connections [DriverCall.query h sql] 500 e
        | Except.ok res =>
          match f res with
          | Except.error e => reject connections [DriverCall.query h sql] 500 e
          | Except.ok body => respond connections [DriverCall.query h sql] body) := by
  apply dataContract_single drv type _ (DriverCall.query h sql)
  · cases drv.mysqlQuery 0 h sql with
    | error e => rfl
    | ok res =>
      dsimp only
      cases f res <;> rfl
  · intro hn
    simp only [driverError, hty, if_false] at hn
    cases ha : drv.mysqlQuery 0 h sql with
    | error e => rw [ha] at hn; cases hn
    | ok res =>
      dsimp only
      cases hb : f res with
      | error e => exact Or.inr ⟨rfl, e, rfl⟩
      | ok body => exact Or.inl ⟨rfl, hf res body hb⟩
  · intro e he
    simp only [driverError, hty, if_false] at he
    cases ha : drv.mysqlQuery 0 h sql with
    | error e' =>
      rw [ha] at he
      simp only [errorText, Option.some.injEq] at he
      subst he
      exact ⟨rfl, rfl⟩
    | ok res => rw [ha] at he; cases he

/-- The contract of a response read from a pg answer. -/
theorem pgRead_contract (drv : Driver) (connections : Registry)
    (h : Handle) (sql : String) (f : PgResult → Body)
    (hf : ∀ res, (f res).success = some true) :
    dataContract drv "postgresql"
      (match drv.pgQuery 0 h sql with
        | Except.error e => reject connections [DriverCall.query h sql] 500 e
        | Except.ok res => respond connections [DriverCall.query h sql] (f res)) := by
  apply dataContract_single drv _ _ (DriverCall.query h sql)
  · cases drv.pgQuery 0 h sql <;> rfl
  · intro hn
    simp only [driverError, if_true] at hn
    cases ha : drv.pgQuery 0 h sql with
    | error e => rw [ha] at hn; cases hn
    | ok res => exact Or.inl ⟨rfl, hf res⟩
  · intro e he
    simp only [driverError, if_true] at he
    cases ha : drv.pgQuery 0 h sql with
    | error e' =>
      rw [ha] at he
      simp only [errorText, Option.some.injEq] at he
      subst he
      exact ⟨rfl, rfl⟩
    | ok res => rw [ha] at he; cases he

/-- The contract of a response read from a sqlite3 answer. -/
theorem sqliteRead_contract (drv : Driver) (type : String) (connections : Registry)
    (h : Handle) (sql : String) (f : Option (List Row) → Body)
    (hf : ∀ rows, (f rows).success = some true) :
    dataContract drv type
      (match drv.sqliteAll 0 h sql with
        | Except.error e => reject connections [DriverCall.all h sql] 500 e
        | Except.ok rows => respond connections [DriverCall.all h sql] (f rows)) := by
  apply dataContract_single drv _ _ (DriverCall.all h sql)
  · cases drv.sqliteAll 0 h sql <;> rfl
  · intro hn
    simp only [driverError] at hn
    cases ha : drv.sqliteAll 0 h sql with
    | error e => rw [ha] at hn; cases hn
    | ok res => exact Or.inl ⟨rfl, hf res⟩
  · intro e he
    simp only [driverError] at he
    cases ha : drv.sqliteAll 0 h sql with
    | error e' =>
      rw [ha] at he
      simp only [errorText, Option.some.injEq] at he
      subst he
      exact ⟨rfl, rfl⟩
    | ok res => rw [ha] at he; cases he

theorem not_postgresql_of_mysql (type : String) (h : type = "mysql" ∨ type = "mariadb") :
    ¬ type = "postgresql" := by
  rcases h with h | h <;> subst h <;> decide

theorem mysqlQueryBody_success (res : MysqlResult) :
    (mysqlQueryBody res).success = some true := by
  unfold mysqlQueryBody
  split <;> rfl

theorem sqliteQueryBody_success (rows : Option (List Row)) :
    (sqliteQueryBody rows).success = some true := by
  unfold sqliteQueryBody
  split <;> rfl

/-- The contract of the dispatch of `GET /api/databases`. -/
theorem listDatabasesDispatch_contract (drv : Driver) (connections : Registry)
    (conn : Connection) (ht : supportedType conn.type = true) :
    dataContract drv conn.type (listDatabasesDispatch drv connections conn) := by
  unfold listDatabasesDispatch
  by_cases h1 : conn.type = "mysql" ∨ conn.type = "mariadb"
  · simp only [h1, if_true]
    exact mysqlRead_contract drv conn.type connections conn.connection "SHOW DATABASES"
      (not_postgresql_of_mysql _ h1)
      (fun res => match mysqlMapRows res.rows (fun row => row.field "Database") with
        | Except.error e => Except.error e
        | Except.ok databases => Except.ok (Body.databases databases))
      (by
        intro res body hb
        cases hm : mysqlMapRows res.rows (fun row => row.field "Database") with
        | error e => simp [hm] at hb
        | ok d => simp only [hm, Except.ok.injEq] at hb; subst hb; rfl)
      |> (fun hc => by
        cases ha : drv.mysqlQuery 0 conn.connection "SHOW DATABASES" with
        | error e => simpa only [ha] using hc
        | ok res =>
          simp only [ha] at hc ⊢
          cases hm : mysqlMapRows res.rows (fun row => row.field "Database") with
          | error e => simpa only [hm] using hc
          | ok d => simpa only [hm] using hc)
  · simp only [h1, if_false]
    by_cases h2 : conn.type = "postgresql"
    · simp only [h2, if_true]
      exact pgRead_contract drv connections conn.connection _
        (fun result => Body.databases (result.rows.map (fun row => row.field "datname")))
        (fun _ => rfl)
    · simp only [h2, if_false]
      by_cases h3 : conn.type = "sqlite"
      · simp only [h3, if_true]
        exact dataContract_success_without_call drv _ connections _ rfl
      · exfalso
        simp only [not_or] at h1
        simp [supportedType, h1.1, h1.2, h2, h3] at ht

/-- The contract of the dispatch of `GET /api/users`. -/
theorem listUsersDispatch_contract (drv : Driver) (connections : Registry)
    (conn : Connection) (ht : supportedType conn.type = true) :
    dataContract drv conn.type (listUsersDispatch drv connections conn) := by
  unfold listUsersDispatch
  by_cases h1 : conn.type = "mysql" ∨ conn.type = "mariadb"
  · simp only [h1, if_true]
    have hc := mysqlRead_contract drv conn.type connections conn.connection
      "SELECT User, Host FROM mysql.user" (not_postgresql_of_mysql _ h1)
      (fun res =>
        match mysqlMapRows res.rows (fun row => (row.field "User", row.field "Host")) with
        | Except.error e => Except.error e
        | Except.ok users => Except.ok (Body.users users))
      (by
        intro res body hb
        cases hm : mysqlMapRows res.rows (fun row => (row.field "User", row.field "Host")) with
        | error e => simp [hm] at hb
        | ok d => simp only [hm, Except.ok.injEq] at hb; subst hb; rfl)
    cases ha : drv.mysqlQuery 0 conn.connection "SELECT User, Host FROM mysql.user" with
    | error e => simpa only [ha] using hc
    | ok res =>
      simp only [ha] at hc ⊢
      cases hm : mysqlMapRows res.rows (fun row => (row.field "User", row.field "Host")) with
      | error e => simpa only [hm] using hc
      | ok d => simpa only [hm] using hc
  · simp only [h1, if_false]
    by_cases h2 : conn.type = "postgresql"
    · simp only [h2, if_true]
      exact pgRead_contract drv connections conn.connection _
        (fun result =>
          Body.users (result.rows.map (fun row => (row.field "usename", JsVal.str "N/A"))))
        (fun _ => rfl)
    · simp only [h2, if_false]
      by_cases h3 : conn.type = "sqlite"
      · simp only [h3, if_true, reject]
        exact dataContract_clientError drv _ connections _ (by decide)
      · exfalso
        simp only [not_or] at h1
        simp [supportedType, h1.1, h1.2, h2, h3] at ht

/-- The contract of the dispatch of `POST /api/query`. -/
theorem executeQueryDispatch_contract (drv : Driver) (connections : Registry)
    (conn : Connection) (query : String) (ht : supportedType conn.type = true) :
    dataContract drv conn.type (executeQueryDispatch drv connections conn query) := by
  unfold executeQueryDispatch
  by_cases h1 : conn.type = "mysql" ∨ conn.type = "mariadb"
  · simp only [h1, if_true]
    have hc := mysqlRead_contract drv conn.type connections conn.connection query
      (not_postgresql_of_mysql _ h1) (fun res => Except.ok (mysqlQueryBody res))
      (by
        intro res body hb
        simp only [Except.ok.injEq] at hb
        subst hb
        exact mysqlQueryBody_success res)
    cases ha : drv.mysqlQuery 0 conn.connection query with
    | error e => simpa only [ha] using hc
    | ok res => simpa only [ha] using hc
  · simp only [h1, if_false]
    by_cases h2 : conn.type = "postgresql"
    · simp only [h2, if_true]
      exact pgRead_contract drv connections conn.connection query pgQueryBody (fun _ => rfl)
    · simp only [h2, if_false]
      by_cases h3 : conn.type = "sqlite"
      · simp only [h3, if_true]
        exact sqliteRead_contract drv _ connections conn.connection query sqliteQueryBody
          sqliteQueryBody_success
      · exfalso
        simp only [not_or] at h1
        simp [supportedType, h1.1, h1.2, h2, h3] at ht

/-- The driver calls of `closeConnection`: none, or the shutdown call of the entry. -/
theorem closeConnection_calls_cases (drv : Driver) (step : Nat) (connections : Registry)
    (sessionId : SessionId) :
    (closeConnection drv step connections sessionId).calls = []
    ∨ ∃ old, getConnection connections sessionId = some old
        ∧ (closeConnection drv step connections sessionId).calls = [shutdownCall old] := by
  unfold closeConnection
  cases h : getConnection connections sessionId with
  | none => exact Or.inl rfl
  | some conn =>
    dsimp only
    by_cases h1 : conn.type = "mysql" ∨ conn.type = "mariadb"
    · right
      refine ⟨conn, rfl, ?_⟩
      have hn : ¬ conn.type = "sqlite" := by
        rcases h1 with h1 | h1 <;> rw [h1] <;> decide
      rw [if_pos h1]
      unfold shutdownCall
      rw [if_neg hn]
    · by_cases h2 : conn.type = "postgresql"
      · right
        refine ⟨conn, rfl, ?_⟩
        have hn : ¬ conn.type = "sqlite" := by rw [h2]; decide
        rw [if_neg h1, if_pos h2]
        unfold shutdownCall
        rw [if_neg hn]
      · by_cases h3 : conn.type = "sqlite"
        · right
          refine ⟨conn, rfl, ?_⟩
          rw [if_neg h1, if_neg h2, if_pos h3]
          unfold shutdownCall
          rw [if_pos h3]
        · left
          rw [if_neg h1, if_neg h2, if_neg h3]

theorem closeLog_of_errorText (r : Except String Unit) (e : String)
    (h : errorText r = some e) : closeLog r = ["Error closing connection: " ++ e] := by
  cases r with
  | error e' =>
    simp only [errorText, Option.some.injEq] at h
    subst h
    rfl
  | ok u => cases h

/-- When the shutdown call of `closeConnection` raises an error, exactly that error is
written with `console.error`. -/
theorem closeConnection_logged (drv : Driver) (step : Nat) (connections : Registry)
    (sessionId : SessionId) (old : Connection) (type e : String)
    (hold : getConnection connections sessionId = some old)
    (hone : (closeConnection drv step connections sessionId).calls = [shutdownCall old])
    (hd : driverError drv type step (shutdownCall old) = some e) :
    (closeConnection drv step connections sessionId).logged
      = ["Error closing connection: " ++ e] := by
  unfold closeConnection at hone ⊢
  rw [hold] at hone ⊢
  dsimp only at hone ⊢
  unfold shutdownCall at hd hone
  by_cases h1 : old.type = "mysql" ∨ old.type = "mariadb"
  · have hn : ¬ old.type = "sqlite" := by
      rcases h1 with h1 | h1 <;> rw [h1] <;> decide
    rw [if_pos h1]
    rw [if_neg hn] at hd
    exact closeLog_of_errorText _ _ hd
  · by_cases h2 : old.type = "postgresql"
    · have hn : ¬ old.type = "sqlite" := by rw [h2]; decide
      rw [if_neg h1, if_pos h2]
      rw [if_neg hn] at hd
      exact closeLog_of_errorText _ _ hd
    · by_cases h3 : old.type = "sqlite"
      · rw [if_neg h1, if_neg h2, if_pos h3]
        rw [if_pos h3] at hd
        exact closeLog_of_errorText _ _ hd
      · rw [if_neg h1, if_neg h2, if_neg h3] at hone
        cases hone

/-- The contract of the `catch` block of the test handler, when the only driver error
among the calls made is `e`. -/
theorem testContract_failed (drv : Driver) (connections : Registry) (sessionId : SessionId)
    (type : String) (calls : List DriverCall) (e : String)
    (hcalls : ∀ i call e', calls[i]? = some call →
      driverError drv type i call = some e' → e' = e) :
    testContract drv connections sessionId type (connectionFailed connections calls e) := by
  refine ⟨Or.inr ⟨Or.inr rfl, _, rfl⟩, ?_, ?_, fun _ => rfl⟩
  · intro h; cases h
  · intro i call e' hc hd _
    left
    have := hcalls i call e' hc hd
    subst this
    exact ⟨rfl, rfl, rfl⟩

/-- The contract of the end of the `try` block of the test handler, when no call made
before raised an error, a sqlite open error handed to the callback apart, and `unc` is
thrown outside the handler only in that case. -/
theorem testContract_finishOpen (drv : Driver) (connections : Registry)
    (sessionId : SessionId) (type : String) (h : Handle) (req : TestRequest)
    (calls : List DriverCall) (body : Body) (unc : Option String)
    (hb : body.success = some true)
    (hcalls : ∀ i call e', calls[i]? = some call →
      driverError drv type i call = some e' → ¬ deferredOpenError drv i call → False)
    (hunc : (∀ i call, calls[i]? = some call → ¬ deferredOpenError drv i call) →
      unc = none) :
    testContract drv connections sessionId type
      (finishOpen drv connections sessionId type h req calls body unc) := by
  refine ⟨Or.inl ⟨rfl, hb⟩, ?_, ?_, ?_⟩
  · intro h; cases h
  · intro i call e' hc hd hnd
    rw [finishOpen_calls] at hc
    by_cases hi : i < calls.length
    · rw [List.getElem?_append_left hi] at hc
      exact (hcalls i call e' hc hd hnd).elim
    · right
      rw [List.getElem?_append_right (Nat.le_of_not_lt hi)] at hc
      rcases closeConnection_calls_cases drv calls.length connections sessionId with
        hnil | ⟨old, hold, hone⟩
      · rw [hnil] at hc; simp at hc
      · have hone' := hone
        rw [hone] at hc
        have hz : i - calls.length = 0 := by
          cases hk : i - calls.length with
          | zero => rfl
          | succ n => rw [hk] at hc; simp at hc
        rw [hz] at hc
        simp only [List.getElem?_cons_zero, Option.some.injEq] at hc
        have hi' : i = calls.length := by omega
        refine ⟨rfl, ?_, ⟨old, hold, hc.symm⟩, ?_⟩
        · rw [finishOpen_calls, hone, List.length_append, List.length_singleton]
          omega
        · subst hc
          rw [hi'] at hd
          exact closeConnection_logged drv calls.length connections sessionId old type e'
            hold hone' hd
  · intro hall
    apply hunc
    intro i call hc
    apply hall i call
    rw [finishOpen_calls]
    have hi : i < calls.length := by
      by_contra hge
      rw [List.getElem?_eq_none (Nat.le_of_not_lt hge)] at hc
      cases hc
    rw [List.getElem?_append_left hi]
    exact hc

/-- The contract of the end of the `try` block on mysql, mariadb and postgresql, where
nothing is thrown outside the handler. -/
theorem testContract_finishOpen_network (drv : Driver) (connections : Registry)
    (sessionId : SessionId) (type : String) (h : Handle) (req : TestRequest)
    (calls : List DriverCall) (body : Body)
    (hb : body.success = some true)
    (hcalls : ∀ i call e', calls[i]? = some call →
      driverError drv type i call = some e' → False) :
    testContract drv connections sessionId type
      (finishOpen drv connections sessionId type h req calls body none) :=
  testContract_finishOpen drv connections sessionId type h req calls body none hb
    (fun i call e' hc hd _ => hcalls i call e' hc hd) (fun _ => rfl)

/-- C8 for the test handler: its response meets `testContract`. -/
theorem testConnection_contract (drv : Driver) (connections : Registry)
    (sessionId : SessionId) (req : TestRequest) :
    testContract drv connections sessionId (req.type.getD "")
      (testConnection drv connections sessionId req) := by
  have hunsupported : ∀ t, testContract drv connections sessionId t
      (reject connections [] 400 "Unsupported database type") := by
    intro t
    refine ⟨Or.inr ⟨Or.inl rfl, _, rfl⟩, fun _ => ⟨rfl, rfl, _, by decide, rfl⟩, ?_,
      fun _ => rfl⟩
    intro i call e hc
    simp [reject] at hc
  unfold testConnection
  cases hty : req.type with
  | none => exact hunsupported _
  | some type =>
    simp only [Option.getD_some]
    by_cases h1 : type = "mysql" ∨ type = "mariadb"
    · have hnp : ¬ type = "postgresql" := not_postgresql_of_mysql _ h1
      simp only [h1, if_true]
      cases a0 : drv.mysqlCreateConnection 0 (mysqlOptions req) with
      | error e =>
        apply testContract_failed
        intro i call e' hc hd
        rcases i with _ | i
        · simp only [List.getElem?_cons_zero, Option.some.injEq] at hc
          subst hc
          simpa [driverError, errorText, a0] using hd.symm
        · simp at hc
      | ok probe =>
        dsimp only
        cases a1 : drv.mysqlQuery 1 probe "SELECT VERSION() as version" with
        | error e =>
          apply testContract_failed
          intro i call e' hc hd
          rcases i with _ | _ | i
          · simp only [List.getElem?_cons_zero, Option.some.injEq] at hc
            subst hc
            simp [driverError, errorText, a0] at hd
          · simp only [List.getElem?_cons_succ, List.getElem?_cons_zero,
              Option.some.injEq] at hc
            subst hc
            simpa [driverError, errorText, a1, hnp] using hd.symm
          · simp at hc
        | ok res =>
          dsimp only
          have h01 : ∀ i call e', [DriverCall.mysqlCreateConnection (mysqlOptions req),
              DriverCall.query probe "SELECT VERSION() as version"][i]? = some call →
              driverError drv type i call = some e' → False := by
            intro i call e' hc hd
            rcases i with _ | _ | i
            · simp only [List.getElem?_cons_zero, Option.some.injEq] at hc
              subst hc
              simp [driverError, errorText, a0] at hd
            · simp only [List.getElem?_cons_succ, List.getElem?_cons_zero,
                Option.some.injEq] at hc
              subst hc
              simp [driverError, errorText, a1, hnp] at hd
            · simp at hc
          cases a2 : mysqlFirstVersion res.rows with
          | error e =>
            apply testContract_failed
            intro i call e' hc hd
            exact (h01 i call e' hc hd).elim
          | ok version =>
            dsimp only
            cases a3 : drv.connEnd 2 probe with
            | error e =>
              apply testContract_failed
              intro i call e' hc hd
              rcases i with _ | _ | _ | i
              · exact (h01 0 call e' (by simpa using hc) hd).elim
              · exact (h01 1 call e' (by simpa using hc) hd).elim
              · simp only [List.getElem?_cons_succ, List.getElem?_cons_zero,
                  Option.some.injEq] at hc
                subst hc
                simpa [driverError, errorText, a3] using hd.symm
              · simp at hc
            | ok u =>
              dsimp only
              cases a4 : drv.mysqlCreateConnection 3 (mysqlOptions req) with
              | error e =>
                apply testContract_failed
                intro i call e' hc hd
                rcases i with _ | _ | _ | _ | i
                · exact (h01 0 call e' (by simpa using hc) hd).elim
                · exact (h01 1 call e' (by simpa using hc) hd).elim
                · simp only [List.getElem?_cons_succ, List.getElem?_cons_zero,
                    Option.some.injEq] at hc
                  subst hc
                  simp [driverError, errorText, a3] at hd
                · simp only [List.getElem?_cons_succ, List.getElem?_cons_zero,
                    Option.some.injEq] at hc
                  subst hc
                  simpa [driverError, errorText, a4] using hd.symm
                · simp at hc
              | ok connection =>
                dsimp only
                refine testContract_finishOpen_network _ _ _ _ _ _ _ _ ?_ ?_
                · rfl
                intro i call e' hc hd
                rcases i with _ | _ | _ | _ | i
                · exact h01 0 call e' (by simpa using hc) hd
                · exact h01 1 call e' (by simpa using hc) hd
                · simp only [List.getElem?_cons_succ, List.getElem?_cons_zero,
                    Option.some.injEq] at hc
                  subst hc
                  simp [driverError, errorText, a3] at hd
                · simp only [List.getElem?_cons_succ, List.getElem?_cons_zero,
                    Option.some.injEq] at hc
                  subst hc
                  simp [driverError, errorText, a4] at hd
                · simp at hc
    · simp only [h1, if_false]
      by_cases h2 : type = "postgresql"
      · simp only [h2, if_true]
        cases a0 : drv.pgClientNew 0 (pgOptions req) with
        | error e =>
          apply testContract_failed
          intro i call e' hc hd
          rcases i with _ | i
          · simp only [List.getElem?_cons_zero, Option.some.injEq] at hc
            subst hc
            simpa [driverError, errorText, a0] using hd.symm
          · simp at hc
        | ok connection =>
          dsimp only
          cases a1 : drv.pgConnect 1 connection with
          | error e =>
            apply testContract_failed
            intro i call e' hc hd
            rcases i with _ | _ | i
            · simp only [List.getElem?_cons_zero, Option.some.injEq] at hc
              subst hc
              simp [driverError, errorText, a0] at hd
            · simp only [List.getElem?_cons_succ, List.getElem?_cons_zero,
                Option.some.injEq] at hc
              subst hc
              simpa [driverError, errorText, a1] using hd.symm
            · simp at hc
          | ok u =>
            dsimp only
            cases a2 : drv.pgQuery 2 connection "SELECT version()" with
            | error e =>
              apply testContract_failed
              intro i call e' hc hd
              rcases i with _ | _ | _ | i
              · simp only [List.getElem?_cons_zero, Option.some.injEq] at hc
                subst hc
                simp [driverError, errorText, a0] at hd
              · simp only [List.getElem?_cons_succ, List.getElem?_cons_zero,
                  Option.some.injEq] at hc
                subst hc
                simp [driverError, errorText, a1] at hd
              · simp only [List.getElem?_cons_succ, List.getElem?_cons_zero,
                  Option.some.injEq] at hc
                subst hc
                simpa [driverError, errorText, a2] using hd.symm
              · simp at hc
            | ok result =>
              dsimp only
              have h012 : ∀ i call e', [DriverCall.pgClientNew (pgOptions req),
                  DriverCall.pgConnect connection,
                  DriverCall.query connection "SELECT version()"][i]? = some call →
                  driverError drv "postgresql" i call = some e' → False := by
                intro i call e' hc hd
                rcases i with _ | _ | _ | i
                · simp only [List.getElem?_cons_zero, Option.some.injEq] at hc
                  subst hc
                  simp [driverError, errorText, a0] at hd
                · simp only [List.getElem?_cons_succ, List.getElem?_cons_zero,
                    Option.some.injEq] at hc
                  subst hc
                  simp [driverError, errorText, a1] at hd
                · simp only [List.getElem?_cons_succ, List.getElem?_cons_zero,
                    Option.some.injEq] at hc
                  subst hc
                  simp [driverError, errorText, a2] at hd
                · simp at hc
              cases a3 : firstVersion result.rows with
              | error e =>
                apply testContract_failed
                intro i call e' hc hd
                exact (h012 i call e' hc hd).elim
              | ok version =>
                dsimp only
                refine testContract_finishOpen_network _ _ _ _ _ _ _ _ ?_ h012
                rfl
      · simp only [h2, if_false]
        by_cases h3 : type = "sqlite"
        · simp only [h3, if_true]
          cases a0 : drv.sqliteDatabaseNew 0 (orDefault req.database ":memory:") with
          | error e =>
            apply testContract_failed
            intro i call e' hc hd
            rcases i with _ | i
            · simp only [List.getElem?_cons_zero, Option.some.injEq] at hc
              subst hc
              simpa [driverError, errorText, a0] using hd.symm
            · simp at hc
          | ok pair =>
            obtain ⟨connection, openError⟩ := pair
            dsimp only
            refine testContract_finishOpen _ _ _ _ _ _ _ _ _ ?_ ?_ ?_
            · rfl
            · intro i call e' hc hd hnd
              rcases i with _ | i
              · simp only [List.getElem?_cons_zero, Option.some.injEq] at hc
                subst hc
                simp only [driverError, a0] at hd
                exact hnd ⟨_, connection, e', rfl, by rw [a0, hd]⟩
              · simp at hc
            · intro hall
              cases ho : openError with
              | none => rfl
              | some e' =>
                exact (hall 0 _ rfl ⟨_, connection, e', rfl, by rw [a0, ho]⟩).elim
        · simp only [h3, if_false]
          exact hunsupported _

/-- A request whose type is missing or is none of the four supported strings is
answered `400` before any driver call, and the registry stays as it was. -/
theorem testConnection_unsupported (drv : Driver) (connections : Registry)
    (sessionId : SessionId) (req : TestRequest)
    (hu : ∀ t, req.type = some t → supportedType t = false) :
    testConnection drv connections sessionId req
      = ⟨400, Body.failure "Unsupported database type", connections, [], [], none⟩ := by
  unfold testConnection
  cases hty : req.type with
  | none => rfl
  | some type =>
    have hs := hu type hty
    simp only [supportedType, Bool.or_eq_false_iff, beq_eq_false_iff_ne, ne_eq] at hs
    obtain ⟨⟨⟨h1, h2⟩, h3⟩, h4⟩ := hs
    simp only [h1, h2, h3, h4, or_self, if_false, reject]

/-- The contract of the disconnect handler. -/
theorem disconnect_contract (drv : Driver) (connections : Registry)
    (sessionId : SessionId) :
    disconnectContract drv connections sessionId (disconnect drv connections sessionId) := by
  refine ⟨rfl, rfl, rfl, ?_⟩
  intro i call e hc hd
  have hcalls : (disconnect drv connections sessionId).calls
      = (closeConnection drv 0 connections sessionId).calls := rfl
  have hlogged : (disconnect drv connections sessionId).logged
      = (closeConnection drv 0 connections sessionId).logged := rfl
  rw [hcalls] at hc
  rw [hlogged]
  rcases closeConnection_calls_cases drv 0 connections sessionId with
    hnil | ⟨old, hold, hone⟩
  · rw [hnil] at hc; simp at hc
  · have hone' := hone
    rw [hone] at hc
    cases i with
    | succ n => simp at hc
    | zero =>
      simp only [List.getElem?_cons_zero, Option.some.injEq] at hc
      subst hc
      exact ⟨⟨old, hold, rfl⟩,
        closeConnection_logged drv 0 connections sessionId old _ e hold hone' hd⟩

theorem adminDispatch_uncaught (drv : Driver) (connections : Registry)
    (conn : Connection) (mysqlSql pgSql sqliteMessage success : String) :
    (adminDispatch drv connections conn mysqlSql pgSql sqliteMessage success).uncaught
      = none := by
  unfold adminDispatch runStatement
  split
  · split <;> rfl
  · split
    · split <;> rfl
    · split <;> rfl

theorem listDatabasesDispatch_uncaught (drv : Driver) (connections : Registry)
    (conn : Connection) :
    (listDatabasesDispatch drv connections conn).uncaught = none := by
  unfold listDatabasesDispatch
  split
  · dsimp only
    split
    · rfl
    · split <;> rfl
  · split
    · dsimp only
      split <;> rfl
    · split <;> rfl

theorem listUsersDispatch_uncaught (drv : Driver) (connections : Registry)
    (conn : Connection) :
    (listUsersDispatch drv connections conn).uncaught = none := by
  unfold listUsersDispatch
  split
  · dsimp only
    split
    · rfl
    · split <;> rfl
  · split
    · dsimp only
      split <;> rfl
    · split <;> rfl

theorem executeQueryDispatch_uncaught (drv : Driver) (connections : Registry)
    (conn : Connection) (query : String) :
    (executeQueryDispatch drv connections conn query).uncaught = none := by
  unfold executeQueryDispatch
  split
  · split <;> rfl
  · split
    · split <;> rfl
    · split
      · split <;> rfl
      · rfl

/-- A data operation throws nothing outside its handler. -/
theorem route_data_uncaught (drv : Driver) (connections : Registry)
    (sessionId : SessionId) (r : Request) (hr : r.isData = true) :
    (route drv connections sessionId r).uncaught = none := by
  cases r with
  | testConnection req => cases hr
  | disconnect => cases hr
  | listDatabases =>
    unfold route listDatabases
    cases getConnection connections sessionId with
    | none => rfl
    | some conn => exact listDatabasesDispatch_uncaught _ _ _
  | listUsers =>
    unfold route listUsers
    cases getConnection connections sessionId with
    | none => rfl
    | some conn => exact listUsersDispatch_uncaught _ _ _
  | createDatabase name =>
    unfold route createDatabase
    cases getConnection connections sessionId with
    | none => rfl
    | some conn =>
      dsimp only
      split
      · rfl
      · exact adminDispatch_uncaught _ _ _ _ _ _ _
  | deleteDatabase name =>
    unfold route deleteDatabase
    cases getConnection connections sessionId with
    | none => rfl
    | some conn =>
      dsimp only
      split
      · rfl
      · exact adminDispatch_uncaught _ _ _ _ _ _ _
  | createUser username password host =>
    unfold route createUser
    cases getConnection connections sessionId with
    | none => rfl
    | some conn =>
      dsimp only
      split
      · rfl
      · exact adminDispatch_uncaught _ _ _ _ _ _ _
  | deleteUser username host =>
    unfold route deleteUser
    cases getConnection connections sessionId with
    | none => rfl
    | some conn =>
      dsimp only
      split
      · rfl
      · exact adminDispatch_uncaught _ _ _ _ _ _ _
  | executeQuery query =>
    unfold route executeQuery
    cases getConnection connections sessionId with
    | none => rfl
    | some conn =>
      dsimp only
      split
      · rfl
      · exact executeQueryDispatch_uncaught _ _ _ _

/-- In a well-typed registry the connection of a session has a supported type. -/
theorem supportedType_of_wellTyped (connections : Registry) (sessionId : SessionId)
    (conn : Connection) (hwt : wellTyped connections)
    (h : getConnection connections sessionId = some conn) :
    supportedType conn.type = true :=
  hwt (sessionId, conn) (mem_of_getConnection connections sessionId conn h)

/-- C8, refuted as stated: the shutdown call of disconnect raises the driver error
`read ECONNRESET`, and the response is `200` with `success: true`, not `500` with the
driver's text; `closeConnection` swallows the error and writes it with
`console.error`. -/
theorem shutdown_error_answers_success :
    (disconnect (failingDriver "read ECONNRESET") [("s1", mysqlConn)] "s1").calls
      = [DriverCall.endCall 1]
    ∧ driverError (failingDriver "read ECONNRESET") "mysql" 0 (DriverCall.endCall 1)
      = some "read ECONNRESET"
    ∧ disconnect (failingDriver "read ECONNRESET") [("s1", mysqlConn)] "s1"
      = ⟨200, Body.message "Disconnected successfully", [], [DriverCall.endCall 1],
          ["Error closing connection: read ECONNRESET"], none⟩
    ∧ (disconnect (failingDriver "read ECONNRESET") [("s1", mysqlConn)] "s1").status ≠ 500
    ∧ (disconnect (failingDriver "read ECONNRESET") [("s1", mysqlConn)] "s1").body
      ≠ Body.failure "read ECONNRESET" :=
  ⟨by decide, rfl, by decide, by decide, by decide⟩

/-- C8, amended: for a registry whose entries have the four supported types (every
reachable registry), every request whose fields are strings or missing and every driver
answer:
* the response of test-connection, of disconnect and of each of the seven data
  operations has status `200` and `success: true`, or status `400` or `500` and a body
  `success: false, message`;
* a `400` is a no-active-connection, validation, unsupported-operation or
  unsupported-type answer, made before any driver call; a missing connection, a rejected
  name, a rejected query, an admin operation on sqlite and an unsupported type are
  answered `400`;
* whenever the driver raised an error for a call of a data operation, the status is
  `500` and the message is the driver's text, and a data operation throws nothing
  outside its handler;
* whenever the driver raised an error for an opening call of test-connection, the status
  is `500`, the message is `Connection failed: ` followed by the driver's text and the
  registry is as it was;
* an error of the shutdown call that `closeConnection` makes, in disconnect and at the
  end of a successful test-connection, is written with `console.error` and the response
  stays `200` with `success: true`; disconnect throws nothing outside its handler.
The sqlite open error that the driver hands to the callback of the constructor is left
out: for a request in which it occurs only the envelope is stated. -/
theorem responses_follow_envelope (drv : Driver) (connections : Registry)
    (sessionId : SessionId) (req : TestRequest)
    (name username password host query : Option String)
    (hwt : wellTyped connections) :
    testContract drv connections sessionId (req.type.getD "")
        (testConnection drv connections sessionId req)
    ∧ envelope (disconnect drv connections sessionId)
    ∧ dataContract drv (sessionType connections sessionId)
        (listDatabases drv connections sessionId)
    ∧ dataContract drv (sessionType connections sessionId)
        (createDatabase drv connections sessionId name)
    ∧ dataContract drv (sessionType connections sessionId)
        (deleteDatabase drv connections sessionId name)
    ∧ dataContract drv (sessionType connections sessionId)
        (listUsers drv connections sessionId)
    ∧ dataContract drv (sessionType connections sessionId)
        (createUser drv connections sessionId username password host)
    ∧ dataContract drv (sessionType connections sessionId)
        (deleteUser drv connections sessionId username host)
    ∧ dataContract drv (sessionType connections sessionId)
        (executeQuery drv connections sessionId query)
    ∧ (getConnection connections sessionId = none →
        (listDatabases drv connections sessionId).status = 400
        ∧ (createDatabase drv connections sessionId name).status = 400
        ∧ (deleteDatabase drv connections sessionId name).status = 400
        ∧ (listUsers drv connections sessionId).status = 400
        ∧ (createUser drv connections sessionId username password host).status = 400
        ∧ (deleteUser drv connections sessionId username host).status = 400
        ∧ (executeQuery drv connections sessionId query).status = 400)
    ∧ (nameRejected name = true →
        (createDatabase drv connections sessionId name).status = 400
        ∧ (deleteDatabase drv connections sessionId name).status = 400)
    ∧ (nameRejected username = true →
        (createUser drv connections sessionId username password host).status = 400
        ∧ (deleteUser drv connections sessionId username host).status = 400)
    ∧ (queryRejected query = true →
        (executeQuery drv connections sessionId query).status = 400)
    ∧ (sessionType connections sessionId = "sqlite" →
        (createDatabase drv connections sessionId name).status = 400
        ∧ (deleteDatabase drv connections sessionId name).status = 400
        ∧ (listUsers drv connections sessionId).status = 400
        ∧ (createUser drv connections sessionId username password host).status = 400
        ∧ (deleteUser drv connections sessionId username host).status = 400)
    ∧ ((∀ t, req.type = some t → supportedType t = false) →
        (testConnection drv connections sessionId req).status = 400)
    ∧ disconnectContract drv connections sessionId (disconnect drv connections sessionId)
    ∧ (∀ r : Request, r.isData = true →
        (route drv connections sessionId r).uncaught = none) := by
  have hsm : ¬ ("sqlite" = "mysql" ∨ "sqlite" = "mariadb") := by decide
  have hsp : ¬ ("sqlite" = "postgresql") := by decide
  refine ⟨testConnection_contract drv connections sessionId req, Or.inl ⟨rfl, rfl⟩,
    ?_, ?_, ?_, ?_, ?_, ?_, ?_, ?_, ?_, ?_, ?_, ?_, ?_,
    disconnect_contract drv connections sessionId,
    fun r hr => route_data_uncaught drv connections sessionId r hr⟩
  · unfold listDatabases sessionType
    cases h : getConnection connections sessionId with
    | none => exact dataContract_clientError drv _ connections _ (by decide)
    | some conn =>
      exact listDatabasesDispatch_contract drv connections conn
        (supportedType_of_wellTyped _ _ _ hwt h)
  · unfold createDatabase sessionType
    cases h : getConnection connections sessionId with
    | none => exact dataContract_clientError drv _ connections _ (by decide)
    | some conn =>
      dsimp only
      split
      · exact dataContract_clientError drv _ connections _ (by decide)
      · exact adminDispatch_contract drv connections conn _ _ _ _
          (supportedType_of_wellTyped _ _ _ hwt h) (by decide)
  · unfold deleteDatabase sessionType
    cases h : getConnection connections sessionId with
    | none => exact dataContract_clientError drv _ connections _ (by decide)
    | some conn =>
      dsimp only
      split
      · exact dataContract_clientError drv _ connections _ (by decide)
      · exact adminDispatch_contract drv connections conn _ _ _ _
          (supportedType_of_wellTyped _ _ _ hwt h) (by decide)
  · unfold listUsers sessionType
    cases h : getConnection connections sessionId with
    | none => exact dataContract_clientError drv _ connections _ (by decide)
    | some conn =>
      exact listUsersDispatch_contract drv connections conn
        (supportedType_of_wellTyped _ _ _ hwt h)
  · unfold createUser sessionType
    cases h : getConnection connections sessionId with
    | none => exact dataContract_clientError drv _ connections _ (by decide)
    | some conn =>
      dsimp only
      split
      · exact dataContract_clientError drv _ connections _ (by decide)
      · exact adminDispatch_contract drv connections conn _ _ _ _
          (supportedType_of_wellTyped _ _ _ hwt h) (by decide)
  · unfold deleteUser sessionType
    cases h : getConnection connections sessionId with
    | none => exact dataContract_clientError drv _ connections _ (by decide)
    | some conn =>
      dsimp only
      split
      · exact dataContract_clientError drv _ connections _ (by decide)
      · exact adminDispatch_contract drv connections conn _ _ _ _
          (supportedType_of_wellTyped _ _ _ hwt h) (by decide)
  · unfold executeQuery sessionType
    cases h : getConnection connections sessionId with
    | none => exact dataContract_clientError drv _ connections _ (by decide)
    | some conn =>
      dsimp only
      split
      · exact dataContract_clientError drv _ connections _ (by decide)
      · exact executeQueryDispatch_contract drv connections conn _
          (supportedType_of_wellTyped _ _ _ hwt h)
  · intro h
    simp only [listDatabases, createDatabase, deleteDatabase, listUsers, createUser,
      deleteUser, executeQuery, h, noActiveConnection, reject, and_self]
  · intro hr
    unfold createDatabase deleteDatabase
    cases getConnection connections sessionId with
    | none => exact ⟨rfl, rfl⟩
    | some conn => simp only [hr, if_true, reject, and_self]
  · intro hr
    unfold createUser deleteUser
    cases getConnection connections sessionId with
    | none => exact ⟨rfl, rfl⟩
    | some conn => simp only [hr, if_true, reject, and_self]
  · intro hr
    unfold executeQuery
    cases getConnection connections sessionId with
    | none => rfl
    | some conn => simp only [hr, if_true, reject]
  · intro hs
    unfold sessionType at hs
    unfold createDatabase deleteDatabase listUsers createUser deleteUser
    cases h : getConnection connections sessionId with
    | none => exact ⟨rfl, rfl, rfl, rfl, rfl⟩
    | some conn =>
      rw [h] at hs
      dsimp only at hs ⊢
      refine ⟨?_, ?_, ?_, ?_, ?_⟩
      · split
        · rfl
        · simp only [createDatabaseDispatch, adminDispatch_sqlite _ _ _ _ _ _ _ hs]
      · split
        · rfl
        · simp only [deleteDatabaseDispatch, adminDispatch_sqlite _ _ _ _ _ _ _ hs]
      · simp only [listUsersDispatch, hs, hsm, hsp, if_false, if_true, reject]
      · split
        · rfl
        · simp only [createUserDispatch, adminDispatch_sqlite _ _ _ _ _ _ _ hs]
      · split
        · rfl
        · simp only [deleteUserDispatch, adminDispatch_sqlite _ _ _ _ _ _ _ hs]
  · intro hu
    rw [testConnection_unsupported drv connections sessionId req hu]

/-- C8, amended, at a concrete input: the registry holds one mysql connection and every
driver call fails with `ER_PARSE_ERROR`; the query is answered `500` with that text, the
mysql test is answered `500` with `Connection failed: ER_PARSE_ERROR` and keeps the
registry, and disconnect is answered `200` and logs the error. -/
theorem responses_follow_envelope_witness :
    wellTyped [("s1", mysqlConn)]
    ∧ driverError (failingDriver "ER_PARSE_ERROR") "mysql" 0 (DriverCall.query 1 "SELEC 1")
        = some "ER_PARSE_ERROR"
    ∧ (executeQuery (failingDriver "ER_PARSE_ERROR") [("s1", mysqlConn)] "s1"
        (some "SELEC 1")).status = 500
    ∧ (executeQuery (failingDriver "ER_PARSE_ERROR") [("s1", mysqlConn)] "s1"
        (some "SELEC 1")).body = Body.failure "ER_PARSE_ERROR"
    ∧ envelope (testConnection (failingDriver "ER_PARSE_ERROR") [("s1", mysqlConn)] "s1"
        ⟨some "mysql", none, none, none, none, none⟩)
    ∧ (testConnection (failingDriver "ER_PARSE_ERROR") [("s1", mysqlConn)] "s1"
        ⟨some "mysql", none, none, none, none, none⟩).status = 500
    ∧ (testConnection (failingDriver "ER_PARSE_ERROR") [("s1", mysqlConn)] "s1"
        ⟨some "mysql", none, none, none, none, none⟩).body
        = Body.failure "Connection failed: ER_PARSE_ERROR"
    ∧ (testConnection (failingDriver "ER_PARSE_ERROR") [("s1", mysqlConn)] "s1"
        ⟨some "mysql", none, none, none, none, none⟩).connections = [("s1", mysqlConn)]
    ∧ (disconnect (failingDriver "ER_PARSE_ERROR") [("s1", mysqlConn)] "s1").status = 200
    ∧ (disconnect (failingDriver "ER_PARSE_ERROR") [("s1", mysqlConn)] "s1").logged
        = ["Error closing connection: ER_PARSE_ERROR"] := by
  have hwt : wellTyped [("s1", mysqlConn)] := by
    intro p hp
    simp only [List.mem_singleton] at hp
    subst hp
    decide
  have hall := responses_follow_envelope (failingDriver "ER_PARSE_ERROR")
    [("s1", mysqlConn)] "s1" ⟨some "mysql", none, none, none, none, none⟩
    none none none none (some "SELEC 1") hwt
  have hq := hall.2.2.2.2.2.2.2.2.1.2.2 0 (DriverCall.query 1 "SELEC 1") "ER_PARSE_ERROR"
    (by decide) rfl
  have ht := hall.1.2.2.1 0
    (DriverCall.mysqlCreateConnection ⟨"localhost", 3306, none, none, none⟩)
    "ER_PARSE_ERROR" (by decide) rfl
    (fun hdef => by
      obtain ⟨path, h, e, hcall, _⟩ := hdef
      cases hcall)
  have hd := hall.2.2.2.2.2.2.2.2.2.2.2.2.2.2.2.1
  have hlog := hd.2.2.2 0 (DriverCall.endCall 1) "ER_PARSE_ERROR" (by decide) rfl
  have ht' : (testConnection (failingDriver "ER_PARSE_ERROR") [("s1", mysqlConn)] "s1"
        ⟨some "mysql", none, none, none, none, none⟩).status = 500
      ∧ (testConnection (failingDriver "ER_PARSE_ERROR") [("s1", mysqlConn)] "s1"
        ⟨some "mysql", none, none, none, none, none⟩).body
        = Body.failure "Connection failed: ER_PARSE_ERROR"
      ∧ (testConnection (failingDriver "ER_PARSE_ERROR") [("s1", mysqlConn)] "s1"
        ⟨some "mysql", none, none, none, none, none⟩).connections = [("s1", mysqlConn)] := by
    rcases ht with h500 | h200
    · exact h500
    · exact absurd h200.1 (by decide)
  exact ⟨hwt, rfl, hq.1, hq.2, hall.1.1, ht'.1, ht'.2.1, ht'.2.2, hd.1, hlog.2⟩

/-! ### Examples of the name check -/

/-- Example names: a trailing newline, a hyphen, a quote, a backtick, a blank and the
empty name are rejected; letters, digits and underscores are accepted. -/
theorem nameRejected_examples :
    nameRejected (some "abc\n") = true
    ∧ nameRejected (some "a-b") = true
    ∧ nameRejected (some "a'b") = true
    ∧ nameRejected (some "a`b") = true
    ∧ nameRejected (some "a b") = true
    ∧ nameRejected (some "") = true
    ∧ nameRejected none = true
    ∧ nameRejected (some "Shop_2024") = false := by
  decide

/-! ### C11: the connection parameters -/

theorem orDefault_of_nonempty (x : Option String) (d s : String) (h : x = some s)
    (hs : s ≠ "") : orDefault x d = s := by
  subst h
  simp [orDefault, hs]

theorem orDefault_of_empty (x : Option String) (d : String)
    (h : x = none ∨ x = some "") : orDefault x d = d := by
  rcases h with h | h <;> subst h <;> simp [orDefault]

/-- The options of `mysql.createConnection` hand the request over with port `3306` and
no database as defaults. -/
theorem handsOver_mysqlOptions (req : TestRequest) :
    handsOver req 3306 none (mysqlOptions req) := by
  refine ⟨rfl, rfl, ?_, ?_, ?_, ?_, ?_, ?_⟩
  · intro h hh hne; exact orDefault_of_nonempty _ _ _ hh hne
  · intro hh; exact orDefault_of_empty _ _ hh
  · intro p hp hne; simp [mysqlOptions, portOrDefault, hp, hne]
  · intro hp; rcases hp with hp | hp <;> simp [mysqlOptions, portOrDefault, hp]
  · intro d hd hne; simp [mysqlOptions, orUndefined, hd, hne]
  · intro hd; rcases hd with hd | hd <;> simp [mysqlOptions, orUndefined, hd]

/-- The options of `new PgClient` hand the request over with port `5432` and the
database `postgres` as defaults. -/
theorem handsOver_pgOptions (req : TestRequest) :
    handsOver req 5432 (some "postgres") (pgOptions req) := by
  refine ⟨rfl, rfl, ?_, ?_, ?_, ?_, ?_, ?_⟩
  · intro h hh hne; exact orDefault_of_nonempty _ _ _ hh hne
  · intro hh; exact orDefault_of_empty _ _ hh
  · intro p hp hne; simp [pgOptions, portOrDefault, hp, hne]
  · intro hp; rcases hp with hp | hp <;> simp [pgOptions, portOrDefault, hp]
  · intro d hd hne
    simp only [pgOptions]
    rw [orDefault_of_nonempty _ _ _ hd hne]
  · intro hd
    simp only [pgOptions]
    rw [orDefault_of_empty _ _ hd]

theorem openingOptions_append (a b : List DriverCall) :
    openingOptions (a ++ b) = openingOptions a ++ openingOptions b := by
  simp [openingOptions, List.filterMap_append]

/-- The calls of `closeConnection` open nothing. -/
theorem openingOptions_closeConnection (drv : Driver) (step : Nat) (connections : Registry)
    (sessionId : SessionId) :
    openingOptions (closeConnection drv step connections sessionId).calls = [] := by
  rcases closeConnection_calls_cases drv step connections sessionId with h | ⟨old, _, h⟩
  · rw [h]; rfl
  · rw [h]
    unfold shutdownCall
    split <;> rfl

/-- On mysql and mariadb the first driver call of a test opens a connection, and every
opening call of the request carries the options `mysqlOptions`. -/
theorem testConnection_opening_mysql (drv : Driver) (connections : Registry)
    (sessionId : SessionId) (req : TestRequest) (type : String)
    (hty : req.type = some type) (h1 : type = "mysql" ∨ type = "mariadb") :
    (testConnection drv connections sessionId req).calls.head?
        = some (DriverCall.mysqlCreateConnection (mysqlOptions req))
    ∧ ∀ o ∈ openingOptions (testConnection drv connections sessionId req).calls,
        o = mysqlOptions req := by
  unfold testConnection
  simp only [hty, h1, if_true]
  cases a0 : drv.mysqlCreateConnection 0 (mysqlOptions req) with
  | error e => simp [connectionFailed, reject, openingOptions]
  | ok probe =>
    dsimp only
    cases a1 : drv.mysqlQuery 1 probe "SELECT VERSION() as version" with
    | error e => simp [connectionFailed, reject, openingOptions]
    | ok res =>
      dsimp only
      cases a2 : mysqlFirstVersion res.rows with
      | error e => simp [connectionFailed, reject, openingOptions]
      | ok version =>
        dsimp only
        cases a3 : drv.connEnd 2 probe with
        | error e => simp [connectionFailed, reject, openingOptions]
        | ok u =>
          dsimp only
          cases a4 : drv.mysqlCreateConnection 3 (mysqlOptions req) with
          | error e => simp [connectionFailed, reject, openingOptions]
          | ok connection =>
            dsimp only
            rw [finishOpen_calls, openingOptions_append, openingOptions_closeConnection]
            simp [openingOptions]

/-- On postgresql the first driver call of a test creates the client, and every opening
call of the request carries the options `pgOptions`. -/
theorem testConnection_opening_pg (drv : Driver) (connections : Registry)
    (sessionId : SessionId) (req : TestRequest)
    (hty : req.type = some "postgresql") :
    (testConnection drv connections sessionId req).calls.head?
        = some (DriverCall.pgClientNew (pgOptions req))
    ∧ ∀ o ∈ openingOptions (testConnection drv connections sessionId req).calls,
        o = pgOptions req := by
  have hn : ¬ ("postgresql" = "mysql" ∨ "postgresql" = "mariadb") := by decide
  unfold testConnection
  simp only [hty, hn, if_false, if_true]
  cases a0 : drv.pgClientNew 0 (pgOptions req) with
  | error e => simp [connectionFailed, reject, openingOptions]
  | ok connection =>
    dsimp only
    cases a1 : drv.pgConnect 1 connection with
    | error e => simp [connectionFailed, reject, openingOptions]
    | ok u =>
      dsimp only
      cases a2 : drv.pgQuery 2 connection "SELECT version()" with
      | error e => simp [connectionFailed, reject, openingOptions]
      | ok result =>
        dsimp only
        cases a3 : firstVersion result.rows with
        | error e => simp [connectionFailed, reject, openingOptions]
        | ok version =>
          dsimp only
          rw [finishOpen_calls, openingOptions_append, openingOptions_closeConnection]
          simp [openingOptions]

/-- C11, refuted as stated: a postgresql test whose database field is empty, or missing,
hands the driver the database `postgres`, not an absent database. -/
theorem postgresql_empty_database_selects_postgres :
    (testConnection quietDriver [] "s1"
        ⟨some "postgresql", some "pg.example", some 5432, some "app", some "pw",
          some ""⟩).calls.head?
      = some (DriverCall.pgClientNew
          ⟨"pg.example", 5432, some "app", some "pw", some "postgres"⟩)
    ∧ (testConnection quietDriver [] "s1"
        ⟨some "postgresql", some "pg.example", some 5432, some "app", some "pw",
          none⟩).calls.head?
      = some (DriverCall.pgClientNew
          ⟨"pg.example", 5432, some "app", some "pw", some "postgres"⟩)
    ∧ (some "postgres" : Option String) ≠ none := by
  decide

/-- C11, amended: for every test-connection request of type mysql, mariadb or postgresql
the first driver call opens the connection, and every opening call of the request hands
over the user name and the password as given, the host as given or `localhost` when it is
missing or empty, the port as given or the engine's default (`3306`, `5432`) when it is
missing or `0`, and the database as given; when the database is missing or empty, mysql
and mariadb get no database parameter and postgresql gets the database `postgres`. -/
theorem open_parameters_handed_over (drv : Driver) (connections : Registry)
    (sessionId : SessionId) (req : TestRequest) (type : String)
    (hty : req.type = some type) (hnet : networkType type) :
    (type = "mysql" ∨ type = "mariadb" →
      (∃ opts, (testConnection drv connections sessionId req).calls.head?
          = some (DriverCall.mysqlCreateConnection opts))
      ∧ ∀ opts ∈ openingOptions (testConnection drv connections sessionId req).calls,
          handsOver req 3306 none opts)
    ∧ (type = "postgresql" →
      (∃ opts, (testConnection drv connections sessionId req).calls.head?
          = some (DriverCall.pgClientNew opts))
      ∧ ∀ opts ∈ openingOptions (testConnection drv connections sessionId req).calls,
          handsOver req 5432 (some "postgres") opts)
    ∧ openingOptions (testConnection drv connections sessionId req).calls ≠ [] := by
  refine ⟨?_, ?_, ?_⟩
  · intro h1
    obtain ⟨hhead, hall⟩ := testConnection_opening_mysql drv connections sessionId req type hty h1
    refine ⟨⟨_, hhead⟩, ?_⟩
    intro opts ho
    rw [hall opts ho]
    exact handsOver_mysqlOptions req
  · intro h2
    subst h2
    obtain ⟨hhead, hall⟩ := testConnection_opening_pg drv connections sessionId req hty
    refine ⟨⟨_, hhead⟩, ?_⟩
    intro opts ho
    rw [hall opts ho]
    exact handsOver_pgOptions req
  · have hhead : ∃ c rest, (testConnection drv connections sessionId req).calls = c :: rest
        ∧ openingOptions [c] ≠ [] := by
      rcases hnet with h | h | h
      · obtain ⟨hhead, _⟩ :=
          testConnection_opening_mysql drv connections sessionId req type hty (Or.inl h)
        cases hc : (testConnection drv connections sessionId req).calls with
        | nil => rw [hc] at hhead; cases hhead
        | cons c rest =>
          rw [hc] at hhead
          simp only [List.head?_cons, Option.some.injEq] at hhead
          subst hhead
          exact ⟨_, _, rfl, by simp [openingOptions]⟩
      · obtain ⟨hhead, _⟩ :=
          testConnection_opening_mysql drv connections sessionId req type hty (Or.inr h)
        cases hc : (testConnection drv connections sessionId req).calls with
        | nil => rw [hc] at hhead; cases hhead
        | cons c rest =>
          rw [hc] at hhead
          simp only [List.head?_cons, Option.some.injEq] at hhead
          subst hhead
          exact ⟨_, _, rfl, by simp [openingOptions]⟩
      · subst h
        obtain ⟨hhead, _⟩ := testConnection_opening_pg drv connections sessionId req hty
        cases hc : (testConnection drv connections sessionId req).calls with
        | nil => rw [hc] at hhead; cases hhead
        | cons c rest =>
          rw [hc] at hhead
          simp only [List.head?_cons, Option.some.injEq] at hhead
          subst hhead
          exact ⟨_, _, rfl, by simp [openingOptions]⟩
    obtain ⟨c, rest, hc, hne⟩ := hhead
    rw [hc]
    intro hnil
    have happ : openingOptions ([c] ++ rest) = [] := hnil
    rw [openingOptions_append] at happ
    exact hne (List.append_eq_nil.mp happ).1

/-- C11, amended, at a concrete input: a mysql test with no host, no port and an empty
database opens `localhost:3306` without a database. -/
theorem open_parameters_handed_over_witness :
    (⟨some "mysql", none, none, some "root", some "pw", some ""⟩ : TestRequest).type
      = some "mysql"
    ∧ networkType "mysql"
    ∧ (testConnection quietDriver [] "s1"
        ⟨some "mysql", none, none, some "root", some "pw", some ""⟩).calls.head?
      = some (DriverCall.mysqlCreateConnection
          ⟨"localhost", 3306, some "root", some "pw", none⟩)
    ∧ ∀ opts ∈ openingOptions (testConnection quietDriver [] "s1"
        ⟨some "mysql", none, none, some "root", some "pw", some ""⟩).calls,
        handsOver ⟨some "mysql", none, none, some "root", some "pw", some ""⟩ 3306 none opts :=
  ⟨rfl, Or.inl rfl, by decide,
   ((open_parameters_handed_over quietDriver [] "s1"
      ⟨some "mysql", none, none, some "root", some "pw", some ""⟩ "mysql" rfl
      (Or.inl rfl)).1 (Or.inl rfl)).2⟩

/-! ### C12: the sqlite database name -/

/-- The entry the end of the `try` block registers is the one the lookup finds. -/
theorem getConnection_finishOpen (drv : Driver) (connections : Registry)
    (sessionId : SessionId) (type : String) (h : Handle) (req : TestRequest)
    (calls : List DriverCall) (body : Body) (unc : Option String) :
    getConnection (finishOpen drv connections sessionId type h req calls body unc).connections
        sessionId
      = some ⟨type, h, ⟨req.host, req.port, req.username, req.database⟩⟩ := by
  rw [finishOpen_connections, getConnection_append_single, getConnection_deleteConnection_self]
  simp

/-- C12: a successful sqlite test-connection reports `info.database` equal to the path of
the request when that path is non-empty and equal to `:memory:` when it is empty or
missing, and a list-databases that follows on the session answers `200` with
`success: true` and a list whose only element is that reported name, without calling
the driver. -/
theorem sqlite_test_then_list_databases (drv drv' : Driver) (connections : Registry)
    (sessionId : SessionId) (req : TestRequest)
    (hty : req.type = some "sqlite")
    (hok : (testConnection drv connections sessionId req).body.success = some true) :
    ∃ dbPath,
      (∀ d, req.database = some d → d ≠ "" → dbPath = d)
      ∧ (req.database = none ∨ req.database = some "" → dbPath = ":memory:")
      ∧ (testConnection drv connections sessionId req).body
          = Body.testResult "Connection successful!" ⟨none, some dbPath, "sqlite"⟩
      ∧ listDatabases drv' (testConnection drv connections sessionId req).connections sessionId
          = ⟨200, Body.databases [JsVal.str dbPath],
              (testConnection drv connections sessionId req).connections, [], [], none⟩ := by
  have hsm : ¬ ("sqlite" = "mysql" ∨ "sqlite" = "mariadb") := by decide
  have hsp : ¬ ("sqlite" = "postgresql") := by decide
  refine ⟨orDefault req.database ":memory:",
    fun d hd hne => orDefault_of_nonempty _ _ _ hd hne,
    fun hd => orDefault_of_empty _ _ hd, ?_, ?_⟩
  · unfold testConnection at hok ⊢
    simp only [hty, hsm, hsp, if_false, if_true] at hok ⊢
    cases a0 : drv.sqliteDatabaseNew 0 (orDefault req.database ":memory:") with
    | error e => rw [a0] at hok; cases hok
    | ok pair =>
      obtain ⟨connection, openError⟩ := pair
      rfl
  · unfold testConnection at hok ⊢
    simp only [hty, hsm, hsp, if_false, if_true] at hok ⊢
    cases a0 : drv.sqliteDatabaseNew 0 (orDefault req.database ":memory:") with
    | error e => rw [a0] at hok; cases hok
    | ok pair =>
      obtain ⟨connection, openError⟩ := pair
      dsimp only
      unfold listDatabases
      rw [getConnection_finishOpen]
      simp only [listDatabasesDispatch, hsm, hsp, if_false, if_true, respond]

/-- C12 at a concrete input: a sqlite test with an empty path on a session that held a
mysql connection reports `:memory:`, and the list that follows is `[":memory:"]`. -/
theorem sqlite_test_then_list_databases_witness :
    (⟨some "sqlite", none, none, none, none, some ""⟩ : TestRequest).type = some "sqlite"
    ∧ (testConnection quietDriver [("s1", mysqlConn)] "s1"
        ⟨some "sqlite", none, none, none, none, some ""⟩).body.success = some true
    ∧ (testConnection quietDriver [("s1", mysqlConn)] "s1"
        ⟨some "sqlite", none, none, none, none, some ""⟩).body
        = Body.testResult "Connection successful!" ⟨none, some ":memory:", "sqlite"⟩
    ∧ (listDatabases (failingDriver "unused")
        (testConnection quietDriver [("s1", mysqlConn)] "s1"
          ⟨some "sqlite", none, none, none, none, some ""⟩).connections "s1").body
        = Body.databases [JsVal.str ":memory:"] := by
  have hok : (testConnection quietDriver [("s1", mysqlConn)] "s1"
      ⟨some "sqlite", none, none, none, none, some ""⟩).body.success = some true := by decide
  obtain ⟨dbPath, _, hmem, hbody, hlist⟩ :=
    sqlite_test_then_list_databases quietDriver (failingDriver "unused")
      [("s1", mysqlConn)] "s1" ⟨some "sqlite", none, none, none, none, some ""⟩ rfl hok
  have hp : dbPath = ":memory:" := hmem (Or.inr rfl)
  subst hp
  exact ⟨rfl, hok, hbody, by rw [hlist]⟩

/-! ### C13: the statements of the admin operations -/

/-- C13: on a connected mysql, mariadb or postgresql session and for a valid name `n`,
each admin operation makes exactly one driver call, the statement of its template, on
the session's handle.  On mysql and mariadb: ``CREATE DATABASE `n` ``,
``DROP DATABASE `n` ``, `CREATE USER 'n'@'h' IDENTIFIED BY 'p'` and `DROP USER 'n'@'h'`;
on postgresql: `CREATE DATABASE "n"`, `DROP DATABASE "n"`,
`CREATE USER "n" WITH PASSWORD 'p'` and `DROP USER "n"`.  The host scope `h` is the
supplied host, or `%` when the host is missing or empty, the same for create user and
delete user. -/
theorem admin_statements_follow_templates (drv : Driver) (connections : Registry)
    (sessionId : SessionId) (conn : Connection) (n p : String) (host : Option String)
    (hconn : getConnection connections sessionId = some conn)
    (hnet : networkType conn.type) (hvalid : validName n) :
    ∃ h,
      (∀ x, host = some x → x ≠ "" → h = x)
      ∧ (host = none ∨ host = some "" → h = "%")
      ∧ (conn.type = "mysql" ∨ conn.type = "mariadb" →
          (createDatabase drv connections sessionId (some n)).calls
            = [DriverCall.query conn.connection ("CREATE DATABASE `" ++ n ++ "`")]
          ∧ (deleteDatabase drv connections sessionId (some n)).calls
            = [DriverCall.query conn.connection ("DROP DATABASE `" ++ n ++ "`")]
          ∧ (createUser drv connections sessionId (some n) (some p) host).calls
            = [DriverCall.query conn.connection
                ("CREATE USER '" ++ n ++ "'@'" ++ h ++ "' IDENTIFIED BY '" ++ p ++ "'")]
          ∧ (deleteUser drv connections sessionId (some n) host).calls
            = [DriverCall.query conn.connection ("DROP USER '" ++ n ++ "'@'" ++ h ++ "'")])
      ∧ (conn.type = "postgresql" →
          (createDatabase drv connections sessionId (some n)).calls
            = [DriverCall.query conn.connection ("CREATE DATABASE \"" ++ n ++ "\"")]
          ∧ (deleteDatabase drv connections sessionId (some n)).calls
            = [DriverCall.query conn.connection ("DROP DATABASE \"" ++ n ++ "\"")]
          ∧ (createUser drv connections sessionId (some n) (some p) host).calls
            = [DriverCall.query conn.connection
                ("CREATE USER \"" ++ n ++ "\" WITH PASSWORD '" ++ p ++ "'")]
          ∧ (deleteUser drv connections sessionId (some n) host).calls
            = [DriverCall.query conn.connection ("DROP USER \"" ++ n ++ "\"")]) := by
  have hr : nameRejected (some n) = false := (nameRejected_eq_false_iff n).mpr hvalid
  have hcalls : ∀ a b c d, (adminDispatch drv connections conn a b c d).calls
      = [DriverCall.query conn.connection (if conn.type = "postgresql" then b else a)] :=
    fun a b c d => adminDispatch_calls_network drv connections conn a b c d hnet
  refine ⟨orDefault host "%", fun x hx hne => orDefault_of_nonempty _ _ _ hx hne,
    fun hh => orDefault_of_empty _ _ hh, ?_, ?_⟩
  · intro hm
    have hnp : ¬ conn.type = "postgresql" := not_postgresql_of_mysql _ hm
    simp only [createDatabase, deleteDatabase, createUser, deleteUser, hconn, hr,
      Bool.false_eq_true, if_false, createDatabaseDispatch, deleteDatabaseDispatch,
      createUserDispatch, deleteUserDispatch, hcalls, hnp, interpolate, Option.getD_some,
      and_self]
  · intro hp
    simp only [createDatabase, deleteDatabase, createUser, deleteUser, hconn, hr,
      Bool.false_eq_true, if_false, createDatabaseDispatch, deleteDatabaseDispatch,
      createUserDispatch, deleteUserDispatch, hcalls, hp, if_true, interpolate,
      Option.getD_some, and_self]

/-- C13 at a concrete input: create user and delete user without a host on a mysql
session both address `'report_1'@'%'`. -/
theorem admin_statements_follow_templates_witness :
    getConnection [("s1", mysqlConn)] "s1" = some mysqlConn
    ∧ networkType mysqlConn.type
    ∧ validName "report_1"
    ∧ (createUser quietDriver [("s1", mysqlConn)] "s1" (some "report_1") (some "s3cret")
        none).calls
        = [DriverCall.query 1 "CREATE USER 'report_1'@'%' IDENTIFIED BY 's3cret'"]
    ∧ (deleteUser quietDriver [("s1", mysqlConn)] "s1" (some "report_1") none).calls
        = [DriverCall.query 1 "DROP USER 'report_1'@'%'"] := by
  have hconn : getConnection [("s1", mysqlConn)] "s1" = some mysqlConn := by decide
  have hnet : networkType mysqlConn.type := Or.inl rfl
  have hvalid : validName "report_1" := by decide
  obtain ⟨h, _, hwild, hmysql, _⟩ :=
    admin_statements_follow_templates quietDriver [("s1", mysqlConn)] "s1" mysqlConn
      "report_1" "s3cret" none hconn hnet hvalid
  have hh : h = "%" := hwild (Or.inl rfl)
  subst hh
  have hm := hmysql (Or.inl rfl)
  exact ⟨hconn, hnet, hvalid, hm.2.2.1, hm.2.2.2⟩

/-! ### C14: the shutdown handler -/

theorem MapData.entries_replicate_append (i : Nat) (rest : Registry) :
    MapData.entries (List.replicate i none ++ rest.map some) = rest := by
  unfold MapData.entries
  rw [List.filterMap_append]
  have h1 : List.filterMap id (List.replicate i (none : Option (SessionId × Connection)))
      = [] := by
    induction i with
    | zero => rfl
    | succ n ih => rw [List.replicate_succ, List.filterMap_cons_none rfl, ih]
  have h2 : ∀ l : Registry, List.filterMap id (l.map some) = l := by
    intro l
    induction l with
    | nil => rfl
    | cons p l ih => simp [ih]
  rw [h1, h2, List.nil_append]

/-- The deletion on the entry list is the deletion on the registry it stands for. -/
theorem MapData.entries_delete (d : MapData) (sessionId : SessionId) :
    (d.delete sessionId).entries = deleteConnection d.entries sessionId := by
  induction d with
  | nil => rfl
  | cons slot d ih =>
    have hcons : MapData.delete (slot :: d) sessionId
        = (match slot with
            | some p => if p.1 == sessionId then none else some p
            | none => none) :: MapData.delete d sessionId := rfl
    rw [hcons]
    cases slot with
    | none =>
      have h1 : MapData.entries (none :: MapData.delete d sessionId)
          = MapData.entries (MapData.delete d sessionId) := rfl
      have h2 : MapData.entries (none :: d) = MapData.entries d := rfl
      rw [h1, h2, ih]
    | some p =>
      have h2 : MapData.entries (some p :: d) = p :: MapData.entries d := rfl
      rw [h2]
      by_cases hp : p.1 = sessionId
      · have hb : (p.1 == sessionId) = true := by simpa using hp
        have hb' : (p.1 != sessionId) = false := by simpa using hp
        simp only [hb, if_true]
        have h1 : MapData.entries (none :: MapData.delete d sessionId)
            = MapData.entries (MapData.delete d sessionId) := rfl
        rw [h1, ih]
        simp [deleteConnection, hb']
      · have hb : (p.1 == sessionId) = false := by simpa using hp
        have hb' : (p.1 != sessionId) = true := by simpa using hp
        simp only [hb, Bool.false_eq_true, if_false]
        have h1 : MapData.entries (some p :: MapData.delete d sessionId)
            = p :: MapData.entries (MapData.delete d sessionId) := rfl
        rw [h1, ih]
        simp [deleteConnection, hb']


/-- Deleting the key of the record under the iterator empties that record and no other,
when no later record has the same key. -/
theorem MapData.delete_replicate_append (i : Nat) (sessionId : SessionId) (c : Connection)
    (rest : Registry) (hrest : ∀ p ∈ rest, p.1 ≠ sessionId) :
    MapData.delete (List.replicate i none ++ some (sessionId, c) :: rest.map some) sessionId
      = List.replicate (i + 1) none ++ rest.map some := by
  unfold MapData.delete
  rw [List.map_append, List.map_cons, List.map_replicate, List.replicate_succ',
    List.append_assoc]
  have hrest' : List.map (fun slot : Option (SessionId × Connection) =>
        match slot with
        | some p => if p.1 == sessionId then none else some p
        | none => none) (rest.map some) = rest.map some := by
    rw [List.map_map]
    apply List.map_congr_left
    intro p hp
    have hb : (p.1 == sessionId) = false := by simpa using hrest p hp
    simp only [Function.comp_apply, hb, Bool.false_eq_true, if_false]
  rw [hrest']
  simp

theorem MapData.getElem?_replicate_append (i : Nat) (l : MapData) :
    (List.replicate i (none : Option (SessionId × Connection)) ++ l)[i]? = l[0]? := by
  rw [List.getElem?_append_right (by simp)]
  simp

/-- The loop of the `SIGINT` handler, started with the iterator in front of the records
`rest`, makes the shutdown call of each of them in order, leaves no entry and reaches
`process.exit(0)`. -/
theorem sigintLoop_visits_all (drv : Driver) (rest : Registry) :
    keysDistinct rest → wellTyped rest →
    ∀ (fuel i : Nat) (calls : List DriverCall) (logged : List String), rest.length < fuel →
      ∃ logged', sigintLoop drv fuel i (List.replicate i none ++ rest.map some) calls logged
        = ⟨[], calls ++ rest.map (fun p => shutdownCall p.2), logged', some 0⟩ := by
  induction rest with
  | nil =>
    intro _ _ fuel i calls logged hfuel
    cases fuel with
    | zero => cases hfuel
    | succ f =>
      refine ⟨logged, ?_⟩
      unfold sigintLoop
      have hget : (List.replicate i (none : Option (SessionId × Connection))
          ++ List.map some ([] : Registry))[i]? = none := by simp
      rw [hget]
      simp only [List.map_nil, List.append_nil]
      have he := MapData.entries_replicate_append i []
      simp only [List.map_nil, List.append_nil] at he
      rw [he]
  | cons p rest ih =>
    intro hk hw fuel i calls logged hfuel
    obtain ⟨sessionId, c⟩ := p
    have hk' : keysDistinct rest := by
      unfold keysDistinct at hk ⊢
      rw [List.map_cons] at hk
      exact (List.nodup_cons.mp hk).2
    have hne : ∀ q ∈ rest, q.1 ≠ sessionId := by
      unfold keysDistinct at hk
      rw [List.map_cons] at hk
      intro q hq heq
      apply (List.nodup_cons.mp hk).1
      exact List.mem_map.mpr ⟨q, hq, heq⟩
    have hw' : wellTyped rest := fun q hq => hw q (List.mem_cons_of_mem _ hq)
    have hc : supportedType c.type = true := hw (sessionId, c) (List.mem_cons_self _ _)
    cases fuel with
    | zero => cases hfuel
    | succ f =>
      have hf : rest.length < f := by
        simp only [List.length_cons] at hfuel
        omega
      unfold sigintLoop
      have hget : (List.replicate i (none : Option (SessionId × Connection))
          ++ List.map some ((sessionId, c) :: rest))[i]? = some (some (sessionId, c)) := by
        rw [MapData.getElem?_replicate_append]
        simp
      rw [hget]
      dsimp only
      rw [MapData.entries_replicate_append]
      have hlook : getConnection ((sessionId, c) :: rest) sessionId = some c := by
        rw [getConnection_cons]; simp
      rw [closeConnection_calls_of_some drv _ _ sessionId c hlook hc, List.map_cons,
        MapData.delete_replicate_append i sessionId c rest hne]
      obtain ⟨logged', hl⟩ := ih hk' hw' f (i + 1) (calls ++ [shutdownCall c])
        (logged ++ (closeConnection drv calls.length ((sessionId, c) :: rest) sessionId).logged)
        hf
      refine ⟨logged', ?_⟩
      rw [hl]
      simp


theorem shutdownCall_handle (a b : Connection) (h : shutdownCall a = shutdownCall b) :
    a.connection = b.connection := by
  unfold shutdownCall at h
  split at h <;> split at h
  · exact DriverCall.closeCall.inj h
  · exact DriverCall.noConfusion h
  · exact DriverCall.noConfusion h
  · exact DriverCall.endCall.inj h

/-- The run of the loop with any sufficient number of iterator steps. -/
theorem sigintLoop_ofRegistry (drv : Driver) (connections : Registry)
    (hk : keysDistinct connections) (hw : wellTyped connections) (fuel : Nat)
    (hfuel : connections.length < fuel) :
    (sigintLoop drv fuel 0 (MapData.ofRegistry connections) [] []).exit = some 0
    ∧ (sigintLoop drv fuel 0 (MapData.ofRegistry connections) [] []).connections = []
    ∧ (sigintLoop drv fuel 0 (MapData.ofRegistry connections) [] []).calls
        = connections.map (fun p => shutdownCall p.2) := by
  obtain ⟨logged', hl⟩ := sigintLoop_visits_all drv connections hk hw fuel 0 [] [] hfuel
  simp only [List.replicate_zero, List.nil_append] at hl
  unfold MapData.ofRegistry
  rw [hl]
  exact ⟨rfl, rfl, rfl⟩

/-- C14: for every registry (its sessions distinct, its entries of the four types) the
`SIGINT` handler visits every registered session although `closeConnection` deletes the
entry under the iterator: the handler makes the shutdown call of every registered entry,
in registration order and nothing else, so exactly once per handle when no handle is
held by two entries; the registry is empty when the loop ends; `process.exit(0)` is
reached, after the loop; and none of this depends on what the driver answers, so it
holds when shutdown calls raise errors.  More iterator steps than the handler needs
change nothing. -/
theorem sigint_closes_every_connection (drv : Driver) (connections : Registry)
    (hk : keysDistinct connections) (hw : wellTyped connections) :
    (sigint drv connections).exit = some 0
    ∧ (sigint drv connections).connections = []
    ∧ (sigint drv connections).calls = connections.map (fun p => shutdownCall p.2)
    ∧ (handlesDistinct connections →
        ∀ p ∈ connections, (sigint drv connections).calls.count (shutdownCall p.2) = 1)
    ∧ (∀ drv' : Driver,
        (sigint drv' connections).exit = some 0
        ∧ (sigint drv' connections).connections = []
        ∧ (sigint drv' connections).calls = (sigint drv connections).calls)
    ∧ (∀ fuel, connections.length < fuel →
        (sigintLoop drv fuel 0 (MapData.ofRegistry connections) [] []).exit = some 0
        ∧ (sigintLoop drv fuel 0 (MapData.ofRegistry connections) [] []).connections = []
        ∧ (sigintLoop drv fuel 0 (MapData.ofRegistry connections) [] []).calls
            = (sigint drv connections).calls) := by
  have hrun := sigintLoop_ofRegistry drv connections hk hw (connections.length + 1)
    (Nat.lt_succ_self _)
  refine ⟨hrun.1, hrun.2.1, hrun.2.2, ?_, ?_, ?_⟩
  · intro hd p hp
    have hcalls : (sigint drv connections).calls
        = connections.map (fun p => shutdownCall p.2) := hrun.2.2
    rw [hcalls]
    have hnd : (connections.map (fun p => shutdownCall p.2)).Nodup := by
      apply List.Nodup.map_on _ (List.Nodup.of_map _ hd)
      intro x hx y hy hxy
      exact List.inj_on_of_nodup_map hd hx hy (shutdownCall_handle _ _ hxy)
    exact List.count_eq_one_of_mem hnd (List.mem_map.mpr ⟨p, hp, rfl⟩)
  · intro drv'
    have hrun' := sigintLoop_ofRegistry drv' connections hk hw (connections.length + 1)
      (Nat.lt_succ_self _)
    refine ⟨hrun'.1, hrun'.2.1, ?_⟩
    exact hrun'.2.2.trans hrun.2.2.symm
  · intro fuel hfuel
    have hrun' := sigintLoop_ofRegistry drv connections hk hw fuel hfuel
    refine ⟨hrun'.1, hrun'.2.1, ?_⟩
    exact hrun'.2.2.trans hrun.2.2.symm

/-- C14 at a concrete input: three sessions, every shutdown call raises an error; the
handler makes the three calls, logs the three errors, empties the registry and exits. -/
theorem sigint_closes_every_connection_witness :
    keysDistinct [("s1", mysqlConn), ("s2", pgConn), ("s3", sqliteConn)]
    ∧ wellTyped [("s1", mysqlConn), ("s2", pgConn), ("s3", sqliteConn)]
    ∧ handlesDistinct [("s1", mysqlConn), ("s2", pgConn), ("s3", sqliteConn)]
    ∧ sigint (failingDriver "read ECONNRESET")
        [("s1", mysqlConn), ("s2", pgConn), ("s3", sqliteConn)]
      = ⟨[], [DriverCall.endCall 1, DriverCall.endCall 2, DriverCall.closeCall 3],
          ["Error closing connection: read ECONNRESET",
           "Error closing connection: read ECONNRESET",
           "Error closing connection: read ECONNRESET"], some 0⟩
    ∧ (sigint (failingDriver "read ECONNRESET")
        [("s1", mysqlConn), ("s2", pgConn), ("s3", sqliteConn)]).calls.count
          (shutdownCall pgConn) = 1 := by
  have hk : keysDistinct [("s1", mysqlConn), ("s2", pgConn), ("s3", sqliteConn)] := by
    unfold keysDistinct; decide
  have hw : wellTyped [("s1", mysqlConn), ("s2", pgConn), ("s3", sqliteConn)] := by
    intro p hp
    simp only [List.mem_cons, List.mem_singleton, List.not_mem_nil, or_false] at hp
    rcases hp with hp | hp | hp <;> subst hp <;> decide
  have hd : handlesDistinct [("s1", mysqlConn), ("s2", pgConn), ("s3", sqliteConn)] := by
    unfold handlesDistinct; decide
  have hall := sigint_closes_every_connection (failingDriver "read ECONNRESET")
    [("s1", mysqlConn), ("s2", pgConn), ("s3", sqliteConn)] hk hw
  exact ⟨hk, hw, hd, by decide, hall.2.2.2.1 hd ("s2", pgConn) (by decide)⟩

/-! ### C15: the types of the registered connections -/

/-- A data operation returns the registry it was given. -/
theorem route_data_connections (drv : Driver) (connections : Registry)
    (sessionId : SessionId) (r : Request) (hr : r.isData = true) :
    (route drv connections sessionId r).connections = connections := by
  cases r with
  | testConnection req => cases hr
  | disconnect => cases hr
  | listDatabases =>
    unfold route listDatabases
    cases getConnection connections sessionId with
    | none => rfl
    | some conn => exact listDatabasesDispatch_connections _ _ _
  | listUsers =>
    unfold route listUsers
    cases getConnection connections sessionId with
    | none => rfl
    | some conn => exact listUsersDispatch_connections _ _ _
  | createDatabase name =>
    unfold route createDatabase
    cases getConnection connections sessionId with
    | none => rfl
    | some conn =>
      dsimp only
      split
      · rfl
      · exact adminDispatch_connections _ _ _ _ _ _ _
  | deleteDatabase name =>
    unfold route deleteDatabase
    cases getConnection connections sessionId with
    | none => rfl
    | some conn =>
      dsimp only
      split
      · rfl
      · exact adminDispatch_connections _ _ _ _ _ _ _
  | createUser username password host =>
    unfold route createUser
    cases getConnection connections sessionId with
    | none => rfl
    | some conn =>
      dsimp only
      split
      · rfl
      · exact adminDispatch_connections _ _ _ _ _ _ _
  | deleteUser username host =>
    unfold route deleteUser
    cases getConnection connections sessionId with
    | none => rfl
    | some conn =>
      dsimp only
      split
      · rfl
      · exact adminDispatch_connections _ _ _ _ _ _ _
  | executeQuery query =>
    unfold route executeQuery
    cases getConnection connections sessionId with
    | none => rfl
    | some conn =>
      dsimp only
      split
      · rfl
      · exact executeQueryDispatch_connections _ _ _ _

/-- The registry a request leaves behind: the one it found, or that one without the
session's entry, or that one without the session's entry followed by a new entry of the
session whose type is supported. -/
theorem route_connections_cases (drv : Driver) (connections : Registry)
    (sessionId : SessionId) (r : Request) :
    (route drv connections sessionId r).connections = connections
    ∨ (route drv connections sessionId r).connections
        = deleteConnection connections sessionId
    ∨ ∃ conn, supportedType conn.type = true
        ∧ (route drv connections sessionId r).connections
          = deleteConnection connections sessionId ++ [(sessionId, conn)] := by
  cases hr : r.isData with
  | true => exact Or.inl (route_data_connections drv connections sessionId r hr)
  | false =>
    cases r with
    | testConnection req =>
      rcases testConnection_cases drv connections sessionId req with
        ⟨_, heq⟩ | ⟨calls, e, _, heq⟩ | ⟨type, h, calls, info, unc, _, hsup, _, _, _, heq⟩
      · left; simp only [route]; rw [heq]
      · left; simp only [route]; rw [heq]
      · right; right
        refine ⟨⟨type, h, ⟨req.host, req.port, req.username, req.database⟩⟩, hsup, ?_⟩
        simp only [route]
        rw [heq, finishOpen_connections]
    | disconnect =>
      right; left
      simp only [route, disconnect]
      exact closeConnection_connections drv 0 connections sessionId
    | listDatabases => cases hr
    | createDatabase name => cases hr
    | deleteDatabase name => cases hr
    | listUsers => cases hr
    | createUser username password host => cases hr
    | deleteUser username host => cases hr
    | executeQuery query => cases hr

/-- Every reachable registry holds only entries of the four supported types. -/
theorem wellTyped_of_reachable (connections : Registry) (h : Reachable connections) :
    wellTyped connections := by
  induction h with
  | start => intro p hp; cases hp
  | step drv connections sessionId r _ ih =>
    rcases route_connections_cases drv connections sessionId r with
      heq | heq | ⟨conn, hsup, heq⟩
    · rw [heq]; exact ih
    · rw [heq]
      intro p hp
      exact ih p ((mem_deleteConnection connections sessionId p).mp hp).1
    · rw [heq]
      intro p hp
      rcases List.mem_append.mp hp with hp | hp
      · exact ih p ((mem_deleteConnection connections sessionId p).mp hp).1
      · rw [List.mem_singleton] at hp
        subst hp
        exact hsup

/-- Every reachable registry has at most one entry per session. -/
theorem keysDistinct_of_reachable (connections : Registry) (h : Reachable connections) :
    keysDistinct connections := by
  have hdel : ∀ (c : Registry) (s : SessionId), keysDistinct c →
      keysDistinct (deleteConnection c s) := by
    intro c s hc
    unfold keysDistinct deleteConnection at *
    exact List.Nodup.sublist (List.Sublist.map _ (List.filter_sublist c)) hc
  induction h with
  | start => exact List.nodup_nil
  | step drv connections sessionId r _ ih =>
    rcases route_connections_cases drv connections sessionId r with
      heq | heq | ⟨conn, _, heq⟩
    · rw [heq]; exact ih
    · rw [heq]; exact hdel _ _ ih
    · rw [heq]
      unfold keysDistinct
      rw [List.map_append, List.map_singleton]
      apply List.Nodup.append (hdel _ _ ih) (List.nodup_singleton _)
      rw [List.disjoint_singleton]
      intro hmem
      obtain ⟨p, hp, hps⟩ := List.mem_map.mp hmem
      exact ((mem_deleteConnection connections sessionId p).mp hp).2 hps


theorem supportedType_iff (t : String) :
    supportedType t = true
      ↔ t = "mysql" ∨ t = "mariadb" ∨ t = "postgresql" ∨ t = "sqlite" := by
  simp [supportedType, or_assoc]

/-- A data operation that answers `success: true` found a connection for the session. -/
theorem route_data_success_has_connection (drv : Driver) (connections : Registry)
    (sessionId : SessionId) (r : Request) (hr : r.isData = true)
    (hs : (route drv connections sessionId r).body.success = some true) :
    ∃ conn, getConnection connections sessionId = some conn := by
  cases hc : getConnection connections sessionId with
  | some conn => exact ⟨conn, rfl⟩
  | none =>
    exfalso
    cases r with
    | testConnection req => cases hr
    | disconnect => cases hr
    | listDatabases =>
      simp only [route, listDatabases, hc, noActiveConnection, reject, Body.success] at hs
      cases hs
    | createDatabase name =>
      simp only [route, createDatabase, hc, noActiveConnection, reject, Body.success] at hs
      cases hs
    | deleteDatabase name =>
      simp only [route, deleteDatabase, hc, noActiveConnection, reject, Body.success] at hs
      cases hs
    | listUsers =>
      simp only [route, listUsers, hc, noActiveConnection, reject, Body.success] at hs
      cases hs
    | createUser username password host =>
      simp only [route, createUser, hc, noActiveConnection, reject, Body.success] at hs
      cases hs
    | deleteUser username host =>
      simp only [route, deleteUser, hc, noActiveConnection, reject, Body.success] at hs
      cases hs
    | executeQuery query =>
      simp only [route, executeQuery, hc, noActiveConnection, reject, Body.success] at hs
      cases hs

/-- On a registry whose entries have supported types the query handler sends a body
with a `success` member. -/
theorem executeQuery_body_defined (drv : Driver) (connections : Registry)
    (sessionId : SessionId) (query : Option String) (hw : wellTyped connections) :
    (executeQuery drv connections sessionId query).body ≠ Body.undefined := by
  have henv : envelope (executeQuery drv connections sessionId query) := by
    unfold executeQuery
    cases h : getConnection connections sessionId with
    | none => exact Or.inr ⟨Or.inl rfl, _, rfl⟩
    | some conn =>
      dsimp only
      split
      · exact Or.inr ⟨Or.inl rfl, _, rfl⟩
      · exact (executeQueryDispatch_contract drv connections conn _
          (supportedType_of_wellTyped _ _ _ hw h)).1
  intro hu
  rcases henv with ⟨_, hs⟩ | ⟨_, m, hm⟩
  · rw [hu] at hs; cases hs
  · rw [hu] at hm; cases hm

/-- C15: in every registry reachable from the empty one by requests of any sessions
(test-connection with any type, disconnect, the data operations), under any driver
answers, every entry has one of the types mysql, mariadb, postgresql, sqlite; a
test-connection whose type is missing or is any other string answers `400` with
`Unsupported database type`, calls no driver and leaves the registry as it was.
Consequently, in a reachable registry a data operation that answers `success: true` ran
on a connection of one of the four types, so its dispatch took a typed branch, and the
query handler never sends an undefined body. -/
theorem reachable_registry_types_are_supported (connections : Registry)
    (h : Reachable connections) :
    (∀ p ∈ connections,
        p.2.type = "mysql" ∨ p.2.type = "mariadb" ∨ p.2.type = "postgresql"
          ∨ p.2.type = "sqlite")
    ∧ (∀ (drv : Driver) (sessionId : SessionId) (req : TestRequest),
        (∀ t, req.type = some t →
          ¬ (t = "mysql" ∨ t = "mariadb" ∨ t = "postgresql" ∨ t = "sqlite")) →
        testConnection drv connections sessionId req
          = ⟨400, Body.failure "Unsupported database type", connections, [], [], none⟩)
    ∧ (∀ (drv : Driver) (sessionId : SessionId) (r : Request), r.isData = true →
        (route drv connections sessionId r).body.success = some true →
        ∃ conn, getConnection connections sessionId = some conn
          ∧ (conn.type = "mysql" ∨ conn.type = "mariadb" ∨ conn.type = "postgresql"
              ∨ conn.type = "sqlite"))
    ∧ (∀ (drv : Driver) (sessionId : SessionId) (query : Option String),
        (executeQuery drv connections sessionId query).body ≠ Body.undefined) := by
  have hw : wellTyped connections := wellTyped_of_reachable connections h
  refine ⟨?_, ?_, ?_, ?_⟩
  · intro p hp
    exact (supportedType_iff _).mp (hw p hp)
  · intro drv sessionId req hu
    apply testConnection_unsupported
    intro t ht
    cases hs : supportedType t with
    | false => rfl
    | true => exact absurd ((supportedType_iff t).mp hs) (hu t ht)
  · intro drv sessionId r hr hs
    obtain ⟨conn, hc⟩ := route_data_success_has_connection drv connections sessionId r hr hs
    exact ⟨conn, hc, (supportedType_iff _).mp (supportedType_of_wellTyped _ _ _ hw hc)⟩
  · intro drv sessionId query
    exact executeQuery_body_defined drv connections sessionId query hw

/-- C15 at a concrete input: after a sqlite test of `s1`, a rejected test of type
`oracle` of `s2`, a postgresql test of `s2` and a disconnect of `s1`, the registry holds
the postgresql entry of `s2`, and it is reachable. -/
theorem reachable_registry_types_are_supported_witness :
    Reachable [("s2", ⟨"postgresql", 100, ⟨none, none, some "app", none⟩⟩)]
    ∧ (∀ p ∈ [("s2", (⟨"postgresql", 100, ⟨none, none, some "app", none⟩⟩ : Connection))],
        p.2.type = "mysql" ∨ p.2.type = "mariadb" ∨ p.2.type = "postgresql"
          ∨ p.2.type = "sqlite")
    ∧ testConnection quietDriver
        [("s2", ⟨"postgresql", 100, ⟨none, none, some "app", none⟩⟩)] "s3"
        ⟨some "oracle", none, none, none, none, none⟩
      = ⟨400, Body.failure "Unsupported database type",
          [("s2", ⟨"postgresql", 100, ⟨none, none, some "app", none⟩⟩)], [], [], none⟩ := by
  have h1 : Reachable [("s1", ⟨"sqlite", 100, ⟨none, none, none, none⟩⟩)] :=
    Reachable.step quietDriver [] "s1"
      (Request.testConnection ⟨some "sqlite", none, none, none, none, none⟩) Reachable.start
  have h2 : Reachable [("s1", ⟨"sqlite", 100, ⟨none, none, none, none⟩⟩)] :=
    Reachable.step quietDriver _ "s2"
      (Request.testConnection ⟨some "oracle", none, none, none, none, none⟩) h1
  have h3 : Reachable [("s1", ⟨"sqlite", 100, ⟨none, none, none, none⟩⟩),
      ("s2", ⟨"postgresql", 100, ⟨none, none, some "app", none⟩⟩)] :=
    Reachable.step quietDriver _ "s2"
      (Request.testConnection ⟨some "postgresql", none, none, some "app", some "pw", none⟩) h2
  have h4 : Reachable [("s2", ⟨"postgresql", 100, ⟨none, none, some "app", none⟩⟩)] :=
    Reachable.step quietDriver _ "s1" Request.disconnect h3
  have hall := reachable_registry_types_are_supported _ h4
  refine ⟨h4, hall.1, hall.2.1 quietDriver "s3" ⟨some "oracle", none, none, none, none, none⟩ ?_⟩
  intro t ht
  simp only [Option.some.injEq] at ht
  subst ht
  decide

end SqlTester
